import Mathlib

/-!
VibeLED: a shallow embedding of the frame-computation engine.

The definitions below transcribe `src/VibeLED.h` and `src/VibeLED.cpp`.

Conventions of the embedding

* Machine integers are `Nat`; every store into a `uint8_t`, `uint16_t` or
  `unsigned long` variable is written with an explicit truncation (`u8`,
  `u16`, `u32`).  Intermediate C expressions are evaluated over `Int`, which is
  what a target with a 32-bit `int` computes (no intermediate value of the
  program leaves the 32-bit range).  The Arduino helpers `min`, `max`, `abs`
  and `constrain` are functions of the values of their arguments.
* Integer division and remainder by zero, undefined in C++, take the values of
  `Nat` division; they do not occur on a strip with at least one element and a
  group inside it, except where a theorem says so.
* The two heap arrays `_ledStates` and `_ledColors` are lists; the null pointer
  is the empty list.  A store through an index past the end of the list leaves
  the list as it is.
* Floating point is a parameter (`FloatOps`): the effects are written over an
  arbitrary carrier with the operations the source uses, so a theorem holds
  whatever the platform's arithmetic is; where a property of the arithmetic is
  needed it is a hypothesis of the theorem (`FloatOps.FadeExact`,
  `FloatOps.RealExact`).
* The Arduino random source is a stream of raw values `rnd` with a cursor
  `rndPos`; the function-local static `heat` of `_effectFire` is a field of the
  state as well.
-/

/-! ## Machine integers -/

/-- Truncation to `uint8_t`. -/
def u8 (x : Int) : Nat := (x % 256).toNat

/-- Truncation to `uint16_t`. -/
def u16 (x : Int) : Nat := (x % 65536).toNat

/-- Truncation to `unsigned long` (32 bits). -/
def u32 (x : Int) : Nat := (x % 4294967296).toNat

/-- Arduino macro `constrain(amt, low, high)`:
`((amt)<(low)?(low):((amt)>(high)?(high):(amt)))`. -/
def constrain (amt low high : Int) : Int :=
  if amt < low then low else if amt > high then high else amt

/-! ## Loops -/

/-- The loop `for (uint16_t i = lo; i <= hi; i++) body` (with `hi < 65535`). -/
def forUpTo {σ : Type} (lo hi : Nat) (body : Nat → σ → σ) (s : σ) : σ :=
  (List.range' lo (hi + 1 - lo)).foldl (fun acc i => body i acc) s

/-- The loop `for (uint16_t i = 0; i < n; i++) body`. -/
def forBelow {σ : Type} (n : Nat) (body : Nat → σ → σ) (s : σ) : σ :=
  (List.range' 0 n).foldl (fun acc i => body i acc) s

/-- The loop `for (uint16_t i = hi; i > lo; i--) body`. -/
def forDownAbove {σ : Type} (hi lo : Nat) (body : Nat → σ → σ) (s : σ) : σ :=
  (List.range' (lo + 1) (hi - lo)).reverse.foldl (fun acc i => body i acc) s

/-- The loop `for (uint16_t i = hi; i >= lo; i--) body` with `1 ≤ lo`. -/
def forDownTo {σ : Type} (hi lo : Nat) (body : Nat → σ → σ) (s : σ) : σ :=
  (List.range' lo (hi + 1 - lo)).reverse.foldl (fun acc i => body i acc) s

/-! ## Floating point -/

/-- The floating-point operations used by the effects.  `F` is the platform's
floating type; `toU8` and `toU16` are the conversions performed when a float
is stored in a `uint8_t` or cast to `uint16_t`. -/
structure FloatOps where
  F : Type
  ofInt : Int → F
  dec : Nat → Nat → F
  pi : F
  add : F → F → F
  sub : F → F → F
  mul : F → F → F
  div : F → F → F
  sin : F → F
  lt : F → F → Bool
  le : F → F → Bool
  toU8 : F → Nat
  toU16 : F → Nat
  toU8_lt : ∀ x, toU8 x < 256
  toU16_lt : ∀ x, toU16 x < 65536

/-- The host's IEEE double arithmetic as an instance of `FloatOps`;
`dec m e` is the decimal literal `m · 10⁻ᵉ`. -/
def hostFloat : FloatOps where
  F := Float
  ofInt := Float.ofInt
  dec := fun m e => Float.ofScientific m true e
  pi := 3.1415926535897932384626433832795
  add := Float.add
  sub := Float.sub
  mul := Float.mul
  div := Float.div
  sin := Float.sin
  lt := fun a b => decide (a < b)
  le := fun a b => decide (a ≤ b)
  toU8 := fun x => x.toUInt8.toNat
  toU16 := fun x => x.toUInt16.toNat
  toU8_lt := fun x => x.toUInt8.toNat_lt
  toU16_lt := fun x => x.toUInt16.toNat_lt

/-! ## Data model (`VibeLED.h`) -/

def LED_TYPE_SINGLE : Nat := 0
def LED_TYPE_RGB : Nat := 1

def EFFECT_NONE : Nat := 0
def EFFECT_STATIC : Nat := 1
def EFFECT_BLINK : Nat := 2
def EFFECT_BREATHE : Nat := 3
def EFFECT_PULSE : Nat := 4
def EFFECT_FADE_IN : Nat := 5
def EFFECT_FADE_OUT : Nat := 6
def EFFECT_KNIGHT_RIDER : Nat := 7
def EFFECT_CYLON : Nat := 8
def EFFECT_METEOR : Nat := 9
def EFFECT_FIRE : Nat := 10
def EFFECT_WATERFALL : Nat := 11
def EFFECT_CHASE : Nat := 12
def EFFECT_STACK : Nat := 13
def EFFECT_RAINBOW : Nat := 14
def EFFECT_SPARKLE : Nat := 15
def EFFECT_MARQUEE : Nat := 16
def EFFECT_BOUNCE : Nat := 17
def EFFECT_COLOR_WIPE : Nat := 18
def EFFECT_RANDOM_BLINK : Nat := 19
def EFFECT_SNAKE : Nat := 20
def EFFECT_WAVE : Nat := 21
def EFFECT_TWINKLE : Nat := 22
def EFFECT_CUSTOM : Nat := 99

/-- The struct `Color`: three 8-bit channels. -/
structure Color where
  r : Nat
  g : Nat
  b : Nat
deriving DecidableEq, Repr

/-- The default constructor `Color()`. -/
def Color.white : Color := ⟨255, 255, 255⟩

/-- The value `Color(0, 0, 0)`. -/
def Color.black : Color := ⟨0, 0, 0⟩

/-- The struct `EffectParams`. -/
structure EffectParams where
  speed : Nat
  brightness : Nat
  color1 : Color
  color2 : Color
  color3 : Color
  option1 : Nat
  option2 : Nat
deriving DecidableEq, Repr

/-- The default constructor `EffectParams()`. -/
def EffectParams.default : EffectParams :=
  { speed := 100, brightness := 255, color1 := ⟨255, 255, 255⟩, color2 := ⟨0, 0, 255⟩,
    color3 := ⟨255, 0, 0⟩, option1 := 0, option2 := 0 }

/-- The members of class `VibeLED`, followed by the two pieces of program state
outside the object that the effects use: the static `heat` array of
`_effectFire` (`none` is the null pointer) and the random source. -/
structure VibeLED where
  _ledType : Nat
  _numLeds : Nat
  _groupStart : Nat
  _groupEnd : Nat
  _pins : List Nat
  _numPins : Nat
  _currentEffect : Nat
  _effectParams : EffectParams
  _lastUpdate : Nat
  _updateInterval : Nat
  _step : Nat
  _ledStates : List Bool
  _ledColors : List Color
  heat : Option (List Nat)
  rnd : Nat → Nat
  rndPos : Nat

namespace VibeLED

/-- Arduino `random(howbig)`: `0` when `howbig` is `0`, otherwise the next raw
value of the source reduced modulo `howbig`. -/
def random (howbig : Nat) (s : VibeLED) : Nat × VibeLED :=
  if howbig = 0 then (0, s)
  else (s.rnd s.rndPos % howbig, { s with rndPos := s.rndPos + 1 })

/-- Arduino `random(min, max)`: `min` when `min >= max`, otherwise
`random(max - min) + min`. -/
def randomRange (lo hi : Nat) (s : VibeLED) : Nat × VibeLED :=
  if lo ≥ hi then (lo, s)
  else ((s.random (hi - lo)).1 + lo, (s.random (hi - lo)).2)

/-- The local `numLeds = _groupEnd - _groupStart + 1` of the effects. -/
def groupSize (s : VibeLED) : Nat :=
  u16 ((s._groupEnd : Int) - s._groupStart + 1)

/-! ## Constructors and configuration (`VibeLED.cpp`, lines 11-215) -/

/-- Constructor `VibeLED(pin, numLeds)` for single colour LEDs.  `new bool[numLeds]`
is not initialised: its contents are the arbitrary values `garbage i`. -/
def mkSingle (pin numLeds : Nat) (garbage : Nat → Bool) (rnd : Nat → Nat) : VibeLED :=
  { _ledType := LED_TYPE_SINGLE
    _numLeds := numLeds
    _numPins := 1
    _pins := [pin]
    _ledStates := (List.range numLeds).map garbage
    _ledColors := []
    _currentEffect := EFFECT_NONE
    _effectParams := EffectParams.default
    _updateInterval := 100
    _lastUpdate := 0
    _step := 0
    _groupStart := 0
    _groupEnd := u16 ((numLeds : Int) - 1)
    heat := none
    rnd := rnd
    rndPos := 0 }

/-- Constructor `VibeLED(rPin, gPin, bPin, numLeds)` for RGB LEDs.
`new Color[numLeds]` runs the default constructor of `Color` on every element. -/
def mkRGB (rPin gPin bPin numLeds : Nat) (rnd : Nat → Nat) : VibeLED :=
  { _ledType := LED_TYPE_RGB
    _numLeds := numLeds
    _numPins := 3
    _pins := [rPin, gPin, bPin]
    _ledStates := []
    _ledColors := List.replicate numLeds Color.white
    _currentEffect := EFFECT_NONE
    _effectParams := EffectParams.default
    _updateInterval := 100
    _lastUpdate := 0
    _step := 0
    _groupStart := 0
    _groupEnd := u16 ((numLeds : Int) - 1)
    heat := none
    rnd := rnd
    rndPos := 0 }

/-- The method `_applyStates` only drives the output pins (`digitalWrite`,
`analogWrite`); no member of the object is assigned. -/
def _applyStates (s : VibeLED) : VibeLED := s

/-- The method `begin`. -/
def begin (s : VibeLED) : VibeLED :=
  _applyStates
    (if s._ledType = LED_TYPE_SINGLE then
      { s with _ledStates := forBelow s._numLeds (fun i b => b.set i false) s._ledStates }
    else
      { s with _ledColors := forBelow s._numLeds (fun i b => b.set i ⟨0, 0, 0⟩) s._ledColors })

/-- The method `clear`. -/
def clear (s : VibeLED) : VibeLED :=
  _applyStates
    (if s._ledType = LED_TYPE_SINGLE then
      { s with _ledStates := forBelow s._numLeds (fun i b => b.set i false) s._ledStates }
    else
      { s with _ledColors := forBelow s._numLeds (fun i b => b.set i ⟨0, 0, 0⟩) s._ledColors })

/-- The method `setBrightness`. -/
def setBrightness (s : VibeLED) (brightness : Nat) : VibeLED :=
  { s with _effectParams := { s._effectParams with brightness := brightness } }

/-- The method `setDelay`. -/
def setDelay (s : VibeLED) (ms : Nat) : VibeLED :=
  { s with _updateInterval := ms }

/-- The overload `setColor(r, g, b)`. -/
def setColorRGB (s : VibeLED) (r g b : Nat) : VibeLED :=
  { s with _effectParams := { s._effectParams with color1 := ⟨r, g, b⟩ } }

/-- The overload `setColor(Color)`. -/
def setColor (s : VibeLED) (color : Color) : VibeLED :=
  { s with _effectParams := { s._effectParams with color1 := color } }

/-- The overload `setEffect(EffectType)`. -/
def setEffect (s : VibeLED) (effect : Nat) : VibeLED :=
  { s with _currentEffect := effect, _step := 0 }

/-- The overload `setEffect(EffectType, EffectParams)`. -/
def setEffectParams (s : VibeLED) (effect : Nat) (params : EffectParams) : VibeLED :=
  { s with _currentEffect := effect, _effectParams := params,
           _updateInterval := params.speed, _step := 0 }

/-- The overload `setEffect(EffectType, uint16_t speed)`. -/
def setEffectSpeed (s : VibeLED) (effect speed : Nat) : VibeLED :=
  { s with _currentEffect := effect,
           _effectParams := { s._effectParams with speed := speed },
           _updateInterval := speed, _step := 0 }

/-- The overload `setEffect(EffectType, uint16_t speed, Color color)`. -/
def setEffectSpeedColor (s : VibeLED) (effect speed : Nat) (color : Color) : VibeLED :=
  { s with _currentEffect := effect,
           _effectParams := { s._effectParams with speed := speed, color1 := color },
           _updateInterval := speed, _step := 0 }

/-- The overload `setEffect(EffectType, uint16_t speed, r, g, b)`. -/
def setEffectSpeedRGB (s : VibeLED) (effect speed r g b : Nat) : VibeLED :=
  { s with _currentEffect := effect,
           _effectParams := { s._effectParams with speed := speed, color1 := ⟨r, g, b⟩ },
           _updateInterval := speed, _step := 0 }

/-- The overload `setEffect(String)`; `equalsIgnoreCase` compares the
lower-cased name. -/
def setEffectName (s : VibeLED) (effectName : String) : VibeLED :=
  if effectName.toLower = "static" then s.setEffect EFFECT_STATIC
  else if effectName.toLower = "blink" then s.setEffect EFFECT_BLINK
  else if effectName.toLower = "breathe" then s.setEffect EFFECT_BREATHE
  else if effectName.toLower = "pulse" then s.setEffect EFFECT_PULSE
  else if effectName.toLower = "fade_in" then s.setEffect EFFECT_FADE_IN
  else if effectName.toLower = "fade_out" then s.setEffect EFFECT_FADE_OUT
  else if effectName.toLower = "knight_rider" then s.setEffect EFFECT_KNIGHT_RIDER
  else if effectName.toLower = "cylon" then s.setEffect EFFECT_CYLON
  else if effectName.toLower = "meteor" then s.setEffect EFFECT_METEOR
  else if effectName.toLower = "fire" then s.setEffect EFFECT_FIRE
  else if effectName.toLower = "waterfall" then s.setEffect EFFECT_WATERFALL
  else if effectName.toLower = "chase" then s.setEffect EFFECT_CHASE
  else if effectName.toLower = "stack" then s.setEffect EFFECT_STACK
  else if effectName.toLower = "rainbow" then s.setEffect EFFECT_RAINBOW
  else if effectName.toLower = "sparkle" then s.setEffect EFFECT_SPARKLE
  else if effectName.toLower = "marquee" then s.setEffect EFFECT_MARQUEE
  else if effectName.toLower = "bounce" then s.setEffect EFFECT_BOUNCE
  else if effectName.toLower = "color_wipe" then s.setEffect EFFECT_COLOR_WIPE
  else if effectName.toLower = "random_blink" then s.setEffect EFFECT_RANDOM_BLINK
  else if effectName.toLower = "snake" then s.setEffect EFFECT_SNAKE
  else if effectName.toLower = "wave" then s.setEffect EFFECT_WAVE
  else s.setEffect EFFECT_NONE

/-- The method `setGroup`. -/
def setGroup (s : VibeLED) (startLed endLed : Nat) : VibeLED :=
  let groupStart := u16 (constrain startLed 0 ((s._numLeds : Int) - 1))
  { s with _groupStart := groupStart,
           _groupEnd := u16 (constrain endLed groupStart ((s._numLeds : Int) - 1)) }

/-- The method `resetGroup`. -/
def resetGroup (s : VibeLED) : VibeLED :=
  { s with _groupStart := 0, _groupEnd := u16 ((s._numLeds : Int) - 1) }

/-- The overload `setLED(led, bool state)`. -/
def setLED (s : VibeLED) (led : Nat) (state : Bool) : VibeLED :=
  if s._ledType = LED_TYPE_SINGLE ∧ led < s._numLeds then
    { s with _ledStates := s._ledStates.set led state }
  else s

/-- The overload `setLED(led, r, g, b)`. -/
def setLEDRGB (s : VibeLED) (led r g b : Nat) : VibeLED :=
  if s._ledType = LED_TYPE_RGB ∧ led < s._numLeds then
    { s with _ledColors := s._ledColors.set led ⟨r, g, b⟩ }
  else s

/-- The overload `setLED(led, Color color)`. -/
def setLEDColor (s : VibeLED) (led : Nat) (color : Color) : VibeLED :=
  if s._ledType = LED_TYPE_RGB ∧ led < s._numLeds then
    { s with _ledColors := s._ledColors.set led color }
  else s

/-! ## Effect implementations (`VibeLED.cpp`, lines 317-947) -/

/-- The three statements `uint8_t r = c.r * x; uint8_t g = c.g * x;
uint8_t b = c.b * x;` followed by `Color(r, g, b)`. -/
def scaleColor (fp : FloatOps) (c : Color) (x : fp.F) : Color :=
  ⟨fp.toU8 (fp.mul (fp.ofInt c.r) x), fp.toU8 (fp.mul (fp.ofInt c.g) x),
   fp.toU8 (fp.mul (fp.ofInt c.b) x)⟩

/-- The method `_effectNone`. -/
def _effectNone (s : VibeLED) : VibeLED :=
  if s._ledType = LED_TYPE_SINGLE then
    { s with _ledStates :=
        (forUpTo s._groupStart s._groupEnd (fun i b => b.set i false) s._ledStates) }
  else
    { s with _ledColors :=
        (forUpTo s._groupStart s._groupEnd (fun i b => b.set i ⟨0, 0, 0⟩) s._ledColors) }

/-- The method `_effectStatic`. -/
def _effectStatic (s : VibeLED) : VibeLED :=
  if s._ledType = LED_TYPE_SINGLE then
    { s with _ledStates :=
        (forUpTo s._groupStart s._groupEnd (fun i b => b.set i true) s._ledStates) }
  else
    { s with _ledColors :=
        (forUpTo s._groupStart s._groupEnd (fun i b => b.set i s._effectParams.color1)
          s._ledColors) }

/-- The method `_effectBlink`. -/
def _effectBlink (s : VibeLED) : VibeLED :=
  let state : Bool := decide (s._step % 2 = 0)
  if s._ledType = LED_TYPE_SINGLE then
    { s with _ledStates :=
        (forUpTo s._groupStart s._groupEnd (fun i b => b.set i state) s._ledStates) }
  else
    { s with _ledColors :=
        (forUpTo s._groupStart s._groupEnd
          (fun i b => b.set i (if state then s._effectParams.color1 else ⟨0, 0, 0⟩))
          s._ledColors) }

/-- The common tail of the intensity effects: BINARY thresholds the intensity
at `0.5`, COLOR scales `color1` by it, over the group. -/
def applyIntensity (fp : FloatOps) (intensity : fp.F) (s : VibeLED) : VibeLED :=
  if s._ledType = LED_TYPE_SINGLE then
    let state : Bool := fp.lt (fp.dec 5 1) intensity
    { s with _ledStates :=
        (forUpTo s._groupStart s._groupEnd (fun i b => b.set i state) s._ledStates) }
  else
    { s with _ledColors :=
        (forUpTo s._groupStart s._groupEnd
          (fun i b => b.set i (scaleColor fp s._effectParams.color1 intensity)) s._ledColors) }

/-- The method `_effectBreathe`: `breath = (sin((_step % 100) / 15.0) + 1.0) / 2.0`. -/
def _effectBreathe (fp : FloatOps) (s : VibeLED) : VibeLED :=
  let breath := fp.div (fp.add (fp.sin (fp.div (fp.ofInt ((s._step % 100 : Nat) : Int))
    (fp.ofInt 15))) (fp.ofInt 1)) (fp.ofInt 2)
  applyIntensity fp breath s

/-- The method `_effectPulse`. -/
def _effectPulse (fp : FloatOps) (s : VibeLED) : VibeLED :=
  let pulseStep : Nat := u8 ((s._step % 100 : Nat) : Int)
  let intensity :=
    if pulseStep < 20 then fp.div (fp.ofInt pulseStep) (fp.ofInt 20)
    else fp.sub (fp.ofInt 1) (fp.div (fp.ofInt ((pulseStep : Int) - 20)) (fp.ofInt 80))
  applyIntensity fp intensity s

/-- The method `_effectFadeIn`: `intensity = min(1.0, _step / 100.0)`, with the
macro `min(a,b) = ((a)<(b)?(a):(b))`. -/
def _effectFadeIn (fp : FloatOps) (s : VibeLED) : VibeLED :=
  let x := fp.div (fp.ofInt s._step) (fp.ofInt 100)
  let intensity := if fp.lt (fp.ofInt 1) x then fp.ofInt 1 else x
  let s1 := applyIntensity fp intensity s
  if fp.le (fp.ofInt 1) intensity then { s1 with _currentEffect := EFFECT_STATIC } else s1

/-- The method `_effectFadeOut`: `intensity = max(0.0, 1.0 - (_step / 100.0))`,
with the macro `max(a,b) = ((a)>(b)?(a):(b))`. -/
def _effectFadeOut (fp : FloatOps) (s : VibeLED) : VibeLED :=
  let x := fp.sub (fp.ofInt 1) (fp.div (fp.ofInt s._step) (fp.ofInt 100))
  let intensity := if fp.lt x (fp.ofInt 0) then fp.ofInt 0 else x
  let s1 := applyIntensity fp intensity s
  if fp.le intensity (fp.ofInt 0) then { s1 with _currentEffect := EFFECT_NONE } else s1

/-- The local `cycleLength` of `_effectKnightRider` and `_effectCylon`:
`(numLeds * 2) - 2` stored in a `uint16_t`, raised to `2` when below. -/
def bounceCycleLength (numLeds : Nat) : Nat :=
  if u16 ((numLeds : Int) * 2 - 2) < 2 then 2 else u16 ((numLeds : Int) * 2 - 2)

/-- The local `position` of `_effectKnightRider` and `_effectCylon`. -/
def bouncePosition (numLeds step : Nat) : Nat :=
  let cycleLength := bounceCycleLength numLeds
  let cyclePos := u16 ((step % cycleLength : Nat) : Int)
  if cyclePos < numLeds then cyclePos else u16 ((cycleLength : Int) - cyclePos)

/-- The method `_effectKnightRider`. -/
def _effectKnightRider (fp : FloatOps) (s : VibeLED) : VibeLED :=
  let numLeds := s.groupSize
  let position := bouncePosition numLeds s._step
  if s._ledType = LED_TYPE_SINGLE then
    { s with _ledStates :=
        (forUpTo s._groupStart s._groupEnd
          (fun i b => b.set i (decide (i = s._groupStart + position))) s._ledStates) }
  else
    { s with _ledColors :=
        (forUpTo s._groupStart s._groupEnd
          (fun i b =>
            if i = s._groupStart + position then b.set i s._effectParams.color1
            else
              let distance : Nat :=
                u16 (Int.natAbs ((i : Int) - ((s._groupStart : Int) + position)))
              if distance ≤ 2 then
                b.set i (scaleColor fp s._effectParams.color1
                  (fp.div (fp.ofInt (3 - (distance : Int))) (fp.ofInt 3)))
              else b.set i ⟨0, 0, 0⟩)
          s._ledColors) }

/-- The method `_effectCylon`. -/
def _effectCylon (fp : FloatOps) (s : VibeLED) : VibeLED :=
  let numLeds := s.groupSize
  let position := bouncePosition numLeds s._step
  if s._ledType = LED_TYPE_SINGLE then
    { s with _ledStates :=
        (forUpTo s._groupStart s._groupEnd
          (fun i b => b.set i (decide (i = s._groupStart + position))) s._ledStates) }
  else
    { s with _ledColors :=
        ((forUpTo s._groupStart s._groupEnd
          (fun i b => b.set i (scaleColor fp (b.getD i ⟨0, 0, 0⟩) (fp.dec 8 1)))
          s._ledColors).set (s._groupStart + position) s._effectParams.color1) }

/-- The method `_effectMeteor`. -/
def _effectMeteor (fp : FloatOps) (s : VibeLED) : VibeLED :=
  let numLeds := s.groupSize
  let meteorSize : Nat := u16 (min (numLeds / 4) 4 : Nat)
  let position : Nat := u16 (((s._step % (numLeds + meteorSize) : Nat) : Int) - meteorSize)
  let s1 : VibeLED :=
    if s._ledType = LED_TYPE_SINGLE then
      { s with _ledStates :=
          (forUpTo s._groupStart s._groupEnd (fun i b => b.set i false) s._ledStates) }
    else
      { s with _ledColors :=
          (forUpTo s._groupStart s._groupEnd
            (fun i b => b.set i (scaleColor fp (b.getD i ⟨0, 0, 0⟩) (fp.dec 7 1)))
            s._ledColors) }
  forBelow meteorSize
    (fun i t =>
      let index : Nat := u16 ((position : Int) + i)
      if index < numLeds then
        if t._ledType = LED_TYPE_SINGLE then
          { t with _ledStates := t._ledStates.set (t._groupStart + index) true }
        else
          let intensity := fp.div (fp.ofInt ((meteorSize : Int) - i)) (fp.ofInt meteorSize)
          { t with _ledColors :=
              (t._ledColors.set (t._groupStart + index)
                (scaleColor fp t._effectParams.color1 intensity)) }
      else t)
    s1

/-- A load `heat[i]` from the static array of `_effectFire`; a load past the
end of the list yields `0`. -/
def heatGet (s : VibeLED) (i : Nat) : Nat := (s.heat.getD []).getD i 0

/-- A store `heat[i] = v` into the static array of `_effectFire`. -/
def heatSet (s : VibeLED) (i v : Nat) : VibeLED :=
  { s with heat := s.heat.map (fun h => h.set i v) }

/-- The heat-to-colour ramp at the end of `_effectFire`. -/
def fireColor (temperature : Nat) : Color :=
  if temperature < 85 then ⟨u8 ((temperature : Int) * 3), 0, 0⟩
  else if temperature < 170 then ⟨255, u8 (((temperature : Int) - 85) * 3), 0⟩
  else ⟨255, 255, u8 (((temperature : Int) - 170) * 3)⟩

/-- The method `_effectFire`.  The Arduino `min` of the ignition step is taken
as a function of two values (its first argument, which draws from the random
source, is evaluated once). -/
def _effectFire (s : VibeLED) : VibeLED :=
  if s._ledType = LED_TYPE_RGB then
    let numLeds := s.groupSize
    let s0 : VibeLED :=
      match s.heat with
      | none => { s with heat := some (List.replicate numLeds 0) }
      | some _ => s
    let s1 : VibeLED :=
      forBelow numLeds
        (fun i t =>
          let cooldown : Nat := u8 (t.randomRange 0 (100 / numLeds + 2)).1
          let t1 := (t.randomRange 0 (100 / numLeds + 2)).2
          if cooldown > t1.heatGet i then t1.heatSet i 0
          else t1.heatSet i (u8 ((t1.heatGet i : Int) - cooldown)))
        s0
    let s2 : VibeLED :=
      forDownTo (u16 ((numLeds : Int) - 1)) 2
        (fun i t =>
          t.heatSet i (u8 (((t.heatGet (i - 1) + t.heatGet (i - 2) + t.heatGet (i - 2)) / 3 : Nat))))
        s1
    let s3 : VibeLED :=
      if (s2.random 255).1 < 120 then
        let t := (s2.random 255).2
        let y : Nat := u8 (t.random 7).1
        let t1 := (t.random 7).2
        let spark := (t1.randomRange 160 255).1
        let t2 := (t1.randomRange 160 255).2
        t2.heatSet y (u8 (min (t2.heatGet y + spark) 255 : Nat))
      else (s2.random 255).2
    forBelow numLeds
      (fun i t =>
        { t with _ledColors := t._ledColors.set (t._groupStart + i) (fireColor (t.heatGet i)) })
      s3
  else
    forUpTo s._groupStart s._groupEnd
      (fun i t =>
        { (t.random 100).2 with
          _ledStates := (t.random 100).2._ledStates.set i (decide ((t.random 100).1 < 50)) })
      s

/-- The method `_effectWaterfall`. -/
def _effectWaterfall (s : VibeLED) : VibeLED :=
  if s._ledType = LED_TYPE_SINGLE then
    let shifted :=
      forDownAbove s._groupEnd s._groupStart (fun i b => b.set i (b.getD (i - 1) false))
        s._ledStates
    { (s.random 100).2 with
      _ledStates := shifted.set s._groupStart (decide ((s.random 100).1 < 20)) }
  else
    let shifted :=
      forDownAbove s._groupEnd s._groupStart (fun i b => b.set i (b.getD (i - 1) ⟨0, 0, 0⟩))
        s._ledColors
    if (s.random 100).1 < 20 then
      { (s.random 100).2 with _ledColors := shifted.set s._groupStart s._effectParams.color1 }
    else
      { (s.random 100).2 with _ledColors := shifted.set s._groupStart ⟨0, 0, 0⟩ }

/-- The method `_effectChase`. -/
def _effectChase (s : VibeLED) : VibeLED :=
  let numLeds := s.groupSize
  let position : Nat := u16 ((s._step % numLeds : Nat) : Int)
  if s._ledType = LED_TYPE_SINGLE then
    { s with _ledStates :=
        (forUpTo s._groupStart s._groupEnd
          (fun i b => b.set i (decide (i = s._groupStart + position))) s._ledStates) }
  else
    { s with _ledColors :=
        (forUpTo s._groupStart s._groupEnd
          (fun i b =>
            if i = s._groupStart + position then b.set i s._effectParams.color1
            else b.set i ⟨0, 0, 0⟩)
          s._ledColors) }

/-- The loop shared by both phases of `_effectStack` and by the wipe-in phase
of `_effectColorWipe`: element `i` is lit iff `i <= _groupStart + position`. -/
def fillUpTo (position : Nat) (s : VibeLED) : VibeLED :=
  if s._ledType = LED_TYPE_SINGLE then
    { s with _ledStates :=
        (forUpTo s._groupStart s._groupEnd
          (fun i b => b.set i (decide (i ≤ s._groupStart + position))) s._ledStates) }
  else
    { s with _ledColors :=
        (forUpTo s._groupStart s._groupEnd
          (fun i b =>
            if i ≤ s._groupStart + position then b.set i s._effectParams.color1
            else b.set i ⟨0, 0, 0⟩)
          s._ledColors) }

/-- The method `_effectStack`. -/
def _effectStack (s : VibeLED) : VibeLED :=
  let numLeds := s.groupSize
  let cycleLength : Nat := u16 ((numLeds : Int) * 2)
  let cyclePos : Nat := u16 ((s._step % cycleLength : Nat) : Int)
  if cyclePos < numLeds then
    fillUpTo cyclePos s
  else
    fillUpTo (u16 ((cycleLength : Int) - cyclePos)) s

/-- The hue-to-RGB conversion inside `_effectRainbow`. -/
def rainbowColor (hue : Nat) : Color :=
  let region : Nat := u8 ((hue / 43 : Nat) : Int)
  let remainder : Nat := u8 (((hue : Int) - (region : Int) * 43) * 6)
  let p : Nat := 0
  let q : Nat := u8 (255 - (remainder : Int))
  let t : Nat := remainder
  if region = 0 then ⟨255, t, p⟩
  else if region = 1 then ⟨q, 255, p⟩
  else if region = 2 then ⟨p, 255, t⟩
  else if region = 3 then ⟨p, q, 255⟩
  else if region = 4 then ⟨t, p, 255⟩
  else ⟨255, p, q⟩

/-- The local `hue = (i * 255 / numLeds + _step) % 256` of `_effectRainbow`. -/
def rainbowHue (i numLeds step : Nat) : Nat :=
  u8 (((i * 255 / numLeds + step) % 256 : Nat) : Int)

/-- The method `_effectRainbow`. -/
def _effectRainbow (fp : FloatOps) (s : VibeLED) : VibeLED :=
  let numLeds := s.groupSize
  if s._ledType = LED_TYPE_RGB then
    { s with _ledColors :=
        (forBelow numLeds
          (fun i b => b.set (s._groupStart + i) (rainbowColor (rainbowHue i numLeds s._step)))
          s._ledColors) }
  else
    { s with _ledStates :=
        (forBelow numLeds
          (fun i b =>
            b.set (s._groupStart + i)
              (fp.lt (fp.ofInt 0)
                (fp.sin (fp.add (fp.div (fp.ofInt s._step) (fp.ofInt 10))
                  (fp.div (fp.ofInt i) (fp.ofInt 2))))))
          s._ledStates) }

/-- The method `_effectSparkle`. -/
def _effectSparkle (fp : FloatOps) (s : VibeLED) : VibeLED :=
  let s1 : VibeLED :=
    if s._ledType = LED_TYPE_SINGLE then
      { s with _ledStates :=
          (forUpTo s._groupStart s._groupEnd (fun i b => b.set i false) s._ledStates) }
    else
      { s with _ledColors :=
          (forUpTo s._groupStart s._groupEnd
            (fun i b => b.set i (scaleColor fp (b.getD i ⟨0, 0, 0⟩) (fp.dec 8 1)))
            s._ledColors) }
  let numLeds := s1.groupSize
  let numSparkles : Nat := u16 (max 1 (numLeds / 10) : Nat)
  forBelow numSparkles
    (fun _ t =>
      let pos : Nat := u16 (t.random numLeds).1
      let t1 := (t.random numLeds).2
      if t1._ledType = LED_TYPE_SINGLE then
        { t1 with _ledStates := t1._ledStates.set (t1._groupStart + pos) true }
      else
        { t1 with _ledColors := t1._ledColors.set (t1._groupStart + pos) t1._effectParams.color1 })
    s1

/-- The method `_effectMarquee`. -/
def _effectMarquee (s : VibeLED) : VibeLED :=
  let numLeds := s.groupSize
  forBelow numLeds
    (fun i t =>
      let isOn : Bool := decide ((i + t._step) % 3 = 0)
      if t._ledType = LED_TYPE_SINGLE then
        { t with _ledStates := t._ledStates.set (t._groupStart + i) isOn }
      else
        { t with _ledColors :=
            (t._ledColors.set (t._groupStart + i)
              (if isOn then t._effectParams.color1 else ⟨0, 0, 0⟩)) })
    s

/-- The method `_effectBounce`. -/
def _effectBounce (fp : FloatOps) (s : VibeLED) : VibeLED :=
  let numLeds := s.groupSize
  let normalized := fp.div (fp.ofInt ((s._step % 100 : Nat) : Int)) (fp.ofInt 100)
  let position := fp.mul (fp.sin (fp.mul normalized fp.pi)) (fp.ofInt ((numLeds : Int) - 1))
  let pos : Nat := fp.toU16 position
  if s._ledType = LED_TYPE_SINGLE then
    { s with _ledStates :=
        (forUpTo s._groupStart s._groupEnd
          (fun i b => b.set i (decide (i = s._groupStart + pos))) s._ledStates) }
  else
    { s with _ledColors :=
        (forUpTo s._groupStart s._groupEnd
          (fun i b =>
            if i = s._groupStart + pos then b.set i s._effectParams.color1
            else b.set i ⟨0, 0, 0⟩)
          s._ledColors) }

/-- The method `_effectColorWipe`. -/
def _effectColorWipe (s : VibeLED) : VibeLED :=
  let numLeds := s.groupSize
  let position : Nat := u16 ((s._step % (numLeds * 2) : Nat) : Int)
  if position < numLeds then
    fillUpTo position s
  else
    let position : Nat := u16 ((position : Int) - numLeds)
    if s._ledType = LED_TYPE_SINGLE then
      { s with _ledStates :=
          (forUpTo s._groupStart s._groupEnd
            (fun i b => b.set i (decide (i > s._groupStart + position))) s._ledStates) }
    else
      { s with _ledColors :=
          (forUpTo s._groupStart s._groupEnd
            (fun i b =>
              if i > s._groupStart + position then b.set i s._effectParams.color1
              else b.set i ⟨0, 0, 0⟩)
            s._ledColors) }

/-- The method `_effectRandomBlink`. -/
def _effectRandomBlink (s : VibeLED) : VibeLED :=
  if s._step % 5 = 0 then
    let numLeds := s.groupSize
    forBelow numLeds
      (fun i t =>
        let isOn : Bool := decide ((t.random 100).1 < 30)
        let t1 := (t.random 100).2
        if t1._ledType = LED_TYPE_SINGLE then
          { t1 with _ledStates := t1._ledStates.set (t1._groupStart + i) isOn }
        else
          if isOn then
            let r : Nat := u8 (t1.random 256).1
            let t2 := (t1.random 256).2
            let g : Nat := u8 (t2.random 256).1
            let t3 := (t2.random 256).2
            let b : Nat := u8 (t3.random 256).1
            let t4 := (t3.random 256).2
            { t4 with _ledColors := t4._ledColors.set (t4._groupStart + i) ⟨r, g, b⟩ }
          else
            { t1 with _ledColors := t1._ledColors.set (t1._groupStart + i) ⟨0, 0, 0⟩ })
      s
  else s

/-- The method `_effectSnake`. -/
def _effectSnake (fp : FloatOps) (s : VibeLED) : VibeLED :=
  let numLeds := s.groupSize
  let snakeLength : Nat := u16 (max 1 (numLeds / 4) : Nat)
  let s1 : VibeLED :=
    if s._ledType = LED_TYPE_SINGLE then
      { s with _ledStates :=
          (forUpTo s._groupStart s._groupEnd (fun i b => b.set i false) s._ledStates) }
    else
      { s with _ledColors :=
          (forUpTo s._groupStart s._groupEnd (fun i b => b.set i ⟨0, 0, 0⟩) s._ledColors) }
  forBelow snakeLength
    (fun i t =>
      let pos : Nat := u16 (((t._step + i) % numLeds : Nat) : Int)
      if t._ledType = LED_TYPE_SINGLE then
        { t with _ledStates := t._ledStates.set (t._groupStart + pos) true }
      else
        let intensity := fp.sub (fp.ofInt 1) (fp.div (fp.ofInt i) (fp.ofInt snakeLength))
        { t with _ledColors :=
            (t._ledColors.set (t._groupStart + pos)
              (scaleColor fp t._effectParams.color1 intensity)) })
    s1

/-- The method `_effectWave`. -/
def _effectWave (fp : FloatOps) (s : VibeLED) : VibeLED :=
  let numLeds := s.groupSize
  forBelow numLeds
    (fun i t =>
      let sinVal := fp.sin (fp.add (fp.div (fp.ofInt t._step) (fp.ofInt 10))
        (fp.div (fp.ofInt i) (fp.ofInt 2)))
      let intensity := fp.div (fp.add sinVal (fp.ofInt 1)) (fp.ofInt 2)
      if t._ledType = LED_TYPE_SINGLE then
        { t with _ledStates :=
            t._ledStates.set (t._groupStart + i) (fp.lt (fp.dec 5 1) intensity) }
      else
        { t with _ledColors :=
            (t._ledColors.set (t._groupStart + i)
              (scaleColor fp t._effectParams.color1 intensity)) })
    s

/-! ## Dispatcher and tick driver (`VibeLED.cpp`, lines 75-81 and 218-292) -/

/-- The `switch (_currentEffect)` of `_updateEffect`: the algorithm selected by
an effect identifier, `_effectNone` on the `default` label. -/
def runEffect (fp : FloatOps) (effect : Nat) (s : VibeLED) : VibeLED :=
  if effect = EFFECT_NONE then s._effectNone
  else if effect = EFFECT_STATIC then s._effectStatic
  else if effect = EFFECT_BLINK then s._effectBlink
  else if effect = EFFECT_BREATHE then s._effectBreathe fp
  else if effect = EFFECT_PULSE then s._effectPulse fp
  else if effect = EFFECT_FADE_IN then s._effectFadeIn fp
  else if effect = EFFECT_FADE_OUT then s._effectFadeOut fp
  else if effect = EFFECT_KNIGHT_RIDER then s._effectKnightRider fp
  else if effect = EFFECT_CYLON then s._effectCylon fp
  else if effect = EFFECT_METEOR then s._effectMeteor fp
  else if effect = EFFECT_FIRE then s._effectFire
  else if effect = EFFECT_WATERFALL then s._effectWaterfall
  else if effect = EFFECT_CHASE then s._effectChase
  else if effect = EFFECT_STACK then s._effectStack
  else if effect = EFFECT_RAINBOW then s._effectRainbow fp
  else if effect = EFFECT_SPARKLE then s._effectSparkle fp
  else if effect = EFFECT_MARQUEE then s._effectMarquee
  else if effect = EFFECT_BOUNCE then s._effectBounce fp
  else if effect = EFFECT_COLOR_WIPE then s._effectColorWipe
  else if effect = EFFECT_RANDOM_BLINK then s._effectRandomBlink
  else if effect = EFFECT_SNAKE then s._effectSnake fp
  else if effect = EFFECT_WAVE then s._effectWave fp
  else s._effectNone

/-- The method `_updateEffect`: the switch, then `_step++` on a `uint16_t`. -/
def _updateEffect (fp : FloatOps) (s : VibeLED) : VibeLED :=
  { runEffect fp s._currentEffect s with
    _step := u16 (((runEffect fp s._currentEffect s)._step : Int) + 1) }

/-- The method `update`; `now` is the value of `millis()` during the call. -/
def update (fp : FloatOps) (now : Nat) (s : VibeLED) : VibeLED :=
  if u32 ((now : Int) - s._lastUpdate) ≥ s._updateInterval then
    _applyStates (_updateEffect fp { s with _lastUpdate := now })
  else s

end VibeLED

/-! ## The public interface as a transition system -/

/-- One call of a public method of `VibeLED`, with its arguments. -/
inductive Op where
  | begin
  | update (now : Nat)
  | clear
  | setBrightness (brightness : Nat)
  | setDelay (ms : Nat)
  | setColorRGB (r g b : Nat)
  | setColor (color : Color)
  | setEffect (effect : Nat)
  | setEffectParams (effect : Nat) (params : EffectParams)
  | setEffectSpeed (effect speed : Nat)
  | setEffectSpeedColor (effect speed : Nat) (color : Color)
  | setEffectSpeedRGB (effect speed r g b : Nat)
  | setEffectName (effectName : String)
  | setGroup (startLed endLed : Nat)
  | resetGroup
  | setLED (led : Nat) (state : Bool)
  | setLEDRGB (led r g b : Nat)
  | setLEDColor (led : Nat) (color : Color)

namespace VibeLED

/-- The state after one public call. -/
def call (fp : FloatOps) (s : VibeLED) : Op → VibeLED
  | .begin => s.begin
  | .update now => s.update fp now
  | .clear => s.clear
  | .setBrightness brightness => s.setBrightness brightness
  | .setDelay ms => s.setDelay ms
  | .setColorRGB r g b => s.setColorRGB r g b
  | .setColor color => s.setColor color
  | .setEffect effect => s.setEffect effect
  | .setEffectParams effect params => s.setEffectParams effect params
  | .setEffectSpeed effect speed => s.setEffectSpeed effect speed
  | .setEffectSpeedColor effect speed color => s.setEffectSpeedColor effect speed color
  | .setEffectSpeedRGB effect speed r g b => s.setEffectSpeedRGB effect speed r g b
  | .setEffectName effectName => s.setEffectName effectName
  | .setGroup startLed endLed => s.setGroup startLed endLed
  | .resetGroup => s.resetGroup
  | .setLED led state => s.setLED led state
  | .setLEDRGB led r g b => s.setLEDRGB led r g b
  | .setLEDColor led color => s.setLEDColor led color

/-- The state after a sequence of public calls. -/
def calls (fp : FloatOps) (s : VibeLED) (ops : List Op) : VibeLED :=
  ops.foldl (call fp) s

end VibeLED

/-! ## Predicates used in the statements -/

/-- `Frame s t`: the state `t` differs from `s` at most in the contents of the
two buffers (not their lengths), `_currentEffect`, `heat` and `rndPos`. -/
def VibeLED.Frame (s t : VibeLED) : Prop :=
  t._ledType = s._ledType ∧ t._numLeds = s._numLeds ∧ t._groupStart = s._groupStart ∧
  t._groupEnd = s._groupEnd ∧ t._pins = s._pins ∧ t._numPins = s._numPins ∧
  t._effectParams = s._effectParams ∧ t._lastUpdate = s._lastUpdate ∧
  t._updateInterval = s._updateInterval ∧ t._step = s._step ∧ t.rnd = s.rnd ∧
  t._ledStates.length = s._ledStates.length ∧ t._ledColors.length = s._ledColors.length

/-- The representation invariant of a strip: a known LED type, at least one
and at most 65535 elements, a group inside the strip, the active buffer of
length `_numLeds`, and a 16-bit step counter. -/
def VibeLED.Valid (s : VibeLED) : Prop :=
  (s._ledType = LED_TYPE_SINGLE ∨ s._ledType = LED_TYPE_RGB) ∧
  1 ≤ s._numLeds ∧ s._numLeds < 65536 ∧
  s._groupStart ≤ s._groupEnd ∧ s._groupEnd < s._numLeds ∧
  (s._ledType = LED_TYPE_SINGLE → s._ledStates.length = s._numLeds) ∧
  (s._ledType = LED_TYPE_RGB → s._ledColors.length = s._numLeds) ∧
  s._step < 65536

instance (s : VibeLED) : Decidable s.Valid := by
  unfold VibeLED.Valid
  infer_instance

/-- `Outside s t`: outside the group of `s`, both buffers of `t` hold what the
buffers of `s` hold. -/
def VibeLED.Outside (s t : VibeLED) : Prop :=
  ∀ j, (j < s._groupStart ∨ s._groupEnd < j) →
    t._ledStates[j]? = s._ledStates[j]? ∧ t._ledColors[j]? = s._ledColors[j]?

/-- `Iso s t`: `t` is `s` up to the frame, with every element outside the group
of `s` unchanged. -/
def VibeLED.Iso (s t : VibeLED) : Prop := VibeLED.Frame s t ∧ VibeLED.Outside s t

/-! ## Sample strips -/

/-- A 5-element BINARY strip on pin 13 whose buffer starts all off. -/
def sampleSingle : VibeLED := VibeLED.mkSingle 13 5 (fun _ => false) (fun _ => 0)

/-- A 10-element COLOR strip on pins 9, 10, 11. -/
def sampleRGB : VibeLED := VibeLED.mkRGB 9 10 11 10 (fun _ => 0)

/-- A 2-element COLOR strip whose group is the single element 0, with CYLON
selected and one frame already rendered (`_step = 1`): element 0 is `color1`,
element 1 is black. -/
def cylonInput : VibeLED :=
  { _ledType := LED_TYPE_RGB
    _numLeds := 2
    _groupStart := 0
    _groupEnd := 0
    _pins := [9, 10, 11]
    _numPins := 3
    _currentEffect := EFFECT_CYLON
    _effectParams := EffectParams.default
    _lastUpdate := 100
    _updateInterval := 100
    _step := 1
    _ledStates := []
    _ledColors := [⟨255, 255, 255⟩, ⟨0, 0, 0⟩]
    heat := none
    rnd := fun _ => 0
    rndPos := 0 }

/-! ## Definitions worded after the specification -/

/-- The bounce position as the specification words it: `p(s) = c` if `c < N`,
else `(2N - 2) - c`, where `c = s mod (2N - 2)`. -/
def bounceSpec (numLeds step : Nat) : Nat :=
  if step % (2 * numLeds - 2) < numLeds then step % (2 * numLeds - 2)
  else (2 * numLeds - 2) - step % (2 * numLeds - 2)

/-- The local `position` that `_effectStack` passes to its loop, in either
phase: `cyclePos` while filling, `cycleLength - cyclePos` while emptying. -/
def VibeLED.stackPosition (numLeds step : Nat) : Nat :=
  if u16 ((step % u16 ((numLeds : Int) * 2) : Nat) : Int) < numLeds then
    u16 ((step % u16 ((numLeds : Int) * 2) : Nat) : Int)
  else
    u16 ((u16 ((numLeds : Int) * 2) : Int) - u16 ((step % u16 ((numLeds : Int) * 2) : Nat) : Int))

/-! ## Exactness assumptions on the floating-point operations -/

/-- What the two fade effects need from the floating-point arithmetic: for a
16-bit step `n`, the comparisons `1.0 < n / 100.0`, `n / 100.0 >= 1.0`,
`1.0 - n / 100.0 < 0.0` and `1.0 - n / 100.0 <= 0.0` come out as in exact
arithmetic, `1.0 >= 1.0` and `0.0 <= 0.0` hold, and `c * (100 / 100.0)` converts
back to the 8-bit channel `c`.  IEEE-754 arithmetic has these properties
(division and subtraction are correctly rounded, hence monotone, and 0, 1 and
every 8-bit integer are representable). -/
def FloatOps.FadeExact (fp : FloatOps) : Prop :=
  (∀ n : Nat, n < 65536 →
    (fp.lt (fp.ofInt 1) (fp.div (fp.ofInt (n : Int)) (fp.ofInt 100)) = true ↔ 100 < n) ∧
    (fp.le (fp.ofInt 1) (fp.div (fp.ofInt (n : Int)) (fp.ofInt 100)) = true ↔ 100 ≤ n) ∧
    (fp.lt (fp.sub (fp.ofInt 1) (fp.div (fp.ofInt (n : Int)) (fp.ofInt 100))) (fp.ofInt 0) = true ↔
      100 < n) ∧
    (fp.le (fp.sub (fp.ofInt 1) (fp.div (fp.ofInt (n : Int)) (fp.ofInt 100))) (fp.ofInt 0) = true ↔
      100 ≤ n)) ∧
  fp.le (fp.ofInt 1) (fp.ofInt 1) = true ∧
  fp.le (fp.ofInt 0) (fp.ofInt 0) = true ∧
  (∀ c : Nat, c < 256 →
    fp.toU8 (fp.mul (fp.ofInt (c : Int)) (fp.div (fp.ofInt 100) (fp.ofInt 100))) = c)

/-- Exact rational arithmetic as an instance of `FloatOps`: conversions to
integers truncate, `pi` is `355/113` and `sin` is its cubic Taylor polynomial. -/
def exactFloat : FloatOps where
  F := ℚ
  ofInt := fun z => (z : ℚ)
  dec := fun m e => (m : ℚ) / 10 ^ e
  pi := 355 / 113
  add := fun a b => a + b
  sub := fun a b => a - b
  mul := fun a b => a * b
  div := fun a b => a / b
  sin := fun x => x - x ^ 3 / 6
  lt := fun a b => decide (a < b)
  le := fun a b => decide (a ≤ b)
  toU8 := fun x => u8 ⌊x⌋
  toU16 := fun x => u16 ⌊x⌋
  toU8_lt := fun x => by
    show u8 ⌊x⌋ < 256
    unfold u8
    omega
  toU16_lt := fun x => by
    show u16 ⌊x⌋ < 65536
    unfold u16
    omega

/-! ## Further sample strips -/

/-- A 3-element BINARY strip whose group is the single element 1, with
KNIGHT_RIDER selected and one frame already rendered (`_step = 1`): element 1 is
on. -/
def knightInput : VibeLED :=
  { _ledType := LED_TYPE_SINGLE
    _numLeds := 3
    _groupStart := 1
    _groupEnd := 1
    _pins := [13]
    _numPins := 1
    _currentEffect := EFFECT_KNIGHT_RIDER
    _effectParams := EffectParams.default
    _lastUpdate := 100
    _updateInterval := 100
    _step := 1
    _ledStates := [false, true, false]
    _ledColors := []
    heat := none
    rnd := fun _ => 0
    rndPos := 0 }

/-- A 3-element BINARY strip with CHASE running, all elements off, whose step
counter holds its last value `65535`. -/
def chaseWrapInput : VibeLED :=
  { _ledType := LED_TYPE_SINGLE
    _numLeds := 3
    _groupStart := 0
    _groupEnd := 2
    _pins := [13]
    _numPins := 1
    _currentEffect := EFFECT_CHASE
    _effectParams := EffectParams.default
    _lastUpdate := 0
    _updateInterval := 100
    _step := 65535
    _ledStates := [false, false, false]
    _ledColors := []
    heat := none
    rnd := fun _ => 0
    rndPos := 0 }

/-- A 5-element BINARY strip, all off, whose group is the single element 2, with
STACK selected. -/
def stackOneInput : VibeLED := (sampleSingle.setGroup 2 2).setEffect EFFECT_STACK

/-! ## Locals of the colour conversions -/

/-- The local `region = hue / 43` of `_effectRainbow`, before it is stored in a
`uint8_t`. -/
def VibeLED.rainbowRegion (hue : Nat) : Nat := hue / 43

/-- The local `remainder = (hue - (region * 43)) * 6` of `_effectRainbow`, as
the `int` value computed before it is stored in a `uint8_t`. -/
def VibeLED.rainbowRemainder (hue : Nat) : Int := ((hue : Int) - ((hue / 43 : Nat) : Int) * 43) * 6

/-! ## Sample strips for METEOR, FIRE and BOUNCE -/

/-- A 65535-element BINARY strip, all elements off, on which METEOR was just
selected (`_step = 0`, the group is the whole strip). -/
def meteorInput : VibeLED :=
  (VibeLED.mkSingle 13 65535 (fun _ => false) (fun _ => 0)).setEffect EFFECT_METEOR

/-- A 3-element COLOR strip on which FIRE was just selected; the static heat
array is not allocated yet and every raw value of the random source is 5. -/
def fireInput : VibeLED := (VibeLED.mkRGB 9 10 11 3 (fun _ => 5)).setEffect EFFECT_FIRE

/-- A 10-element COLOR strip on which the dispatcher ran FIRE once while the
group was `[0, 2]` (every raw random value is 200, so that call ignites no
spark) and whose group was then reset to the whole strip. -/
def fireLaterInput : VibeLED :=
  ((((VibeLED.mkRGB 9 10 11 10 (fun _ => 200)).setGroup 0 2).setEffect
    EFFECT_FIRE)._updateEffect hostFloat).resetGroup

/-- A 2-element BINARY strip, all elements off, with BOUNCE selected, at
step 25. -/
def bounceInput : VibeLED :=
  { (VibeLED.mkSingle 13 2 (fun _ => false) (fun _ => 0)).setEffect EFFECT_BOUNCE with
    _step := 25 }

/-- The local `pos` of `_effectBounce` for a group of `numLeds` elements at step
`step`: the product `sin(normalized * PI) * (numLeds - 1)` cast to `uint16_t`. -/
def VibeLED.bouncePos (fp : FloatOps) (numLeds step : Nat) : Nat :=
  fp.toU16 (fp.mul
    (fp.sin (fp.mul (fp.div (fp.ofInt ((step % 100 : Nat) : Int)) (fp.ofInt 100)) fp.pi))
    (fp.ofInt ((numLeds : Int) - 1)))

/-! ## Heat accesses of FIRE -/

namespace VibeLED

/-- The number of elements of the static array `heat` during one `_effectFire`
call: what an earlier call allocated, or `numLeds` when this call allocates. -/
def fireHeatLength (s : VibeLED) : Nat :=
  match s.heat with
  | none => s.groupSize
  | some h => h.length

/-- The state of `_effectFire` on a COLOR strip after the allocation, step 1
(cooling) and step 2 (heat rises), that is, where step 3 draws `random(255)`. -/
def fireAfterRise (s : VibeLED) : VibeLED :=
  let numLeds := s.groupSize
  let s0 : VibeLED :=
    match s.heat with
    | none => { s with heat := some (List.replicate numLeds 0) }
    | some _ => s
  let s1 : VibeLED :=
    forBelow numLeds
      (fun i t =>
        let cooldown : Nat := u8 (t.randomRange 0 (100 / numLeds + 2)).1
        let t1 := (t.randomRange 0 (100 / numLeds + 2)).2
        if cooldown > t1.heatGet i then t1.heatSet i 0
        else t1.heatSet i (u8 ((t1.heatGet i : Int) - cooldown)))
      s0
  forDownTo (u16 ((numLeds : Int) - 1)) 2
    (fun i t =>
      t.heatSet i (u8 (((t.heatGet (i - 1) + t.heatGet (i - 2) + t.heatGet (i - 2)) / 3 : Nat))))
    s1

/-- The subscripts `heat[...]` evaluated by one `_effectFire` call on a COLOR
strip, in program order: the initialisation `heat[i]` for `i < numLeds` when the
array is allocated, step 1 `heat[i]` for `i < numLeds`, step 2 `heat[i - 1]`,
`heat[i - 2]`, `heat[i]` for `i` from `numLeds - 1` down to 2, step 3 `heat[y]`
with `y = random(7)` when `random(255) < 120`, step 4 `heat[i]` for
`i < numLeds`. -/
def fireAccesses (s : VibeLED) : List Nat :=
  if s._ledType = LED_TYPE_RGB then
    let numLeds := s.groupSize
    (match s.heat with
      | none => List.range' 0 numLeds
      | some _ => []) ++
    List.range' 0 numLeds ++
    ((List.range' 2 (u16 ((numLeds : Int) - 1) + 1 - 2)).reverse.bind
      (fun i => [i - 1, i - 2, i])) ++
    (if (s.fireAfterRise.random 255).1 < 120 then
      [u8 ((s.fireAfterRise.random 255).2.random 7).1]
    else []) ++
    List.range' 0 numLeds
  else []

end VibeLED

/-! ## Exact real arithmetic with a truncating cast -/

/-- The idealisation under which the position of BOUNCE is stated: the
floating-point values denote real numbers (`val`), the operations `ofInt`, `PI`,
`*`, `/` and `sin` are the exact real ones, and the cast `(uint16_t)x` of a
value `0 ≤ x < 2^16` discards the fractional part, as the C++ conversion from a
floating type to an integer type does. -/
def FloatOps.RealExact (fp : FloatOps) : Prop :=
  ∃ val : fp.F → ℝ,
    (∀ z : Int, val (fp.ofInt z) = (z : ℝ)) ∧
    val fp.pi = Real.pi ∧
    (∀ a b, val (fp.mul a b) = val a * val b) ∧
    (∀ a b, val (fp.div a b) = val a / val b) ∧
    (∀ a, val (fp.sin a) = Real.sin (val a)) ∧
    (∀ a, 0 ≤ val a → val a < 65536 → ((fp.toU16 a : Nat) : Int) = ⌊val a⌋)

/-! ## Loop invariants and frame lemmas -/

theorem foldl_invariant {σ α : Type} (P : σ → Prop) (f : σ → α → σ) (l : List α) (s : σ)
    (h0 : P s) (hstep : ∀ t a, a ∈ l → P t → P (f t a)) : P (l.foldl f s) := by
  induction l generalizing s with
  | nil => simpa using h0
  | cons a l ih =>
    rw [List.foldl_cons]
    apply ih
    · exact hstep s a (List.mem_cons_self a l) h0
    · intro t b hb ht
      exact hstep t b (List.mem_cons_of_mem a hb) ht

theorem forUpTo_invariant {σ : Type} (P : σ → Prop) (lo hi : Nat) (body : Nat → σ → σ) (s : σ)
    (h0 : P s) (hstep : ∀ i t, lo ≤ i → i ≤ hi → P t → P (body i t)) :
    P (forUpTo lo hi body s) := by
  unfold forUpTo
  apply foldl_invariant P _ _ _ h0
  intro t i hi' ht
  rw [List.mem_range'_1] at hi'
  exact hstep i t hi'.1 (by omega) ht

theorem forBelow_invariant {σ : Type} (P : σ → Prop) (n : Nat) (body : Nat → σ → σ) (s : σ)
    (h0 : P s) (hstep : ∀ i t, i < n → P t → P (body i t)) :
    P (forBelow n body s) := by
  unfold forBelow
  apply foldl_invariant P _ _ _ h0
  intro t i hi' ht
  rw [List.mem_range'_1] at hi'
  exact hstep i t (by omega) ht

theorem forDownAbove_invariant {σ : Type} (P : σ → Prop) (hi lo : Nat) (body : Nat → σ → σ)
    (s : σ) (h0 : P s) (hstep : ∀ i t, lo < i → i ≤ hi → P t → P (body i t)) :
    P (forDownAbove hi lo body s) := by
  unfold forDownAbove
  apply foldl_invariant P _ _ _ h0
  intro t i hi' ht
  rw [List.mem_reverse, List.mem_range'_1] at hi'
  exact hstep i t (by omega) (by omega) ht

theorem forDownTo_invariant {σ : Type} (P : σ → Prop) (hi lo : Nat) (body : Nat → σ → σ)
    (s : σ) (h0 : P s) (hstep : ∀ i t, lo ≤ i → i ≤ hi → P t → P (body i t)) :
    P (forDownTo hi lo body s) := by
  unfold forDownTo
  apply foldl_invariant P _ _ _ h0
  intro t i hi' ht
  rw [List.mem_reverse, List.mem_range'_1] at hi'
  exact hstep i t (by omega) (by omega) ht

namespace VibeLED

theorem Frame.refl (s : VibeLED) : Frame s s := by
  simp [Frame]

theorem Frame.trans {s t u : VibeLED} (h1 : Frame s t) (h2 : Frame t u) : Frame s u := by
  unfold Frame at *
  obtain ⟨a1, a2, a3, a4, a5, a6, a7, a8, a9, a10, a11, a12, a13⟩ := h1
  obtain ⟨b1, b2, b3, b4, b5, b6, b7, b8, b9, b10, b11, b12, b13⟩ := h2
  exact ⟨b1.trans a1, b2.trans a2, b3.trans a3, b4.trans a4, b5.trans a5, b6.trans a6,
    b7.trans a7, b8.trans a8, b9.trans a9, b10.trans a10, b11.trans a11, b12.trans a12,
    b13.trans a13⟩

theorem Frame.states (s : VibeLED) (b : List Bool) (h : b.length = s._ledStates.length) :
    Frame s { s with _ledStates := b } := by
  simp [Frame, h]

theorem Frame.colors (s : VibeLED) (b : List Color) (h : b.length = s._ledColors.length) :
    Frame s { s with _ledColors := b } := by
  simp [Frame, h]

theorem Frame.effect (s : VibeLED) (e : Nat) : Frame s { s with _currentEffect := e } := by
  simp [Frame]

theorem Frame.random (s : VibeLED) (n : Nat) : Frame s (s.random n).2 := by
  unfold VibeLED.random
  split <;> simp [Frame]

theorem Frame.randomRange (s : VibeLED) (a b : Nat) : Frame s (s.randomRange a b).2 := by
  unfold VibeLED.randomRange
  split
  · simp [Frame]
  · exact Frame.random s _

theorem Frame.heatSet (s : VibeLED) (i v : Nat) : Frame s (s.heatSet i v) := by
  simp [Frame, VibeLED.heatSet]

theorem forUpTo_length {α : Type} (lo hi : Nat) (body : Nat → List α → List α) (buf : List α)
    (h : ∀ i b, (body i b).length = b.length) : (forUpTo lo hi body buf).length = buf.length :=
  forUpTo_invariant (fun b => b.length = buf.length) lo hi body buf rfl
    (fun i t _ _ ht => (h i t).trans ht)

theorem forBelow_length {α : Type} (n : Nat) (body : Nat → List α → List α) (buf : List α)
    (h : ∀ i b, (body i b).length = b.length) : (forBelow n body buf).length = buf.length :=
  forBelow_invariant (fun b => b.length = buf.length) n body buf rfl
    (fun i t _ ht => (h i t).trans ht)

theorem forDownAbove_length {α : Type} (hi lo : Nat) (body : Nat → List α → List α)
    (buf : List α) (h : ∀ i b, (body i b).length = b.length) :
    (forDownAbove hi lo body buf).length = buf.length :=
  forDownAbove_invariant (fun b => b.length = buf.length) hi lo body buf rfl
    (fun i t _ _ ht => (h i t).trans ht)

theorem frame_effectNone (s : VibeLED) : Frame s s._effectNone := by
  unfold _effectNone
  split
  · exact Frame.states s _ (forUpTo_length _ _ _ _ (by simp))
  · exact Frame.colors s _ (forUpTo_length _ _ _ _ (by simp))

theorem frame_effectStatic (s : VibeLED) : Frame s s._effectStatic := by
  unfold _effectStatic
  split
  · exact Frame.states s _ (forUpTo_length _ _ _ _ (by simp))
  · exact Frame.colors s _ (forUpTo_length _ _ _ _ (by simp))

theorem frame_effectBlink (s : VibeLED) : Frame s s._effectBlink := by
  unfold _effectBlink
  split
  · exact Frame.states s _ (forUpTo_length _ _ _ _ (by simp))
  · exact Frame.colors s _ (forUpTo_length _ _ _ _ (by simp))

theorem frame_applyIntensity (fp : FloatOps) (x : fp.F) (s : VibeLED) :
    Frame s (applyIntensity fp x s) := by
  unfold applyIntensity
  split
  · exact Frame.states s _ (forUpTo_length _ _ _ _ (by simp))
  · exact Frame.colors s _ (forUpTo_length _ _ _ _ (by simp))

theorem frame_effectBreathe (fp : FloatOps) (s : VibeLED) : Frame s (s._effectBreathe fp) :=
  frame_applyIntensity fp _ s

theorem frame_effectPulse (fp : FloatOps) (s : VibeLED) : Frame s (s._effectPulse fp) :=
  frame_applyIntensity fp _ s

theorem Frame.ite {s a b : VibeLED} (c : Prop) [Decidable c] (h1 : Frame s a)
    (h2 : Frame s b) : Frame s (if c then a else b) := by
  split <;> assumption

theorem frame_effectFadeIn (fp : FloatOps) (s : VibeLED) : Frame s (s._effectFadeIn fp) :=
  Frame.ite _ ((frame_applyIntensity fp _ s).trans (Frame.effect _ _))
    (frame_applyIntensity fp _ s)

theorem frame_effectFadeOut (fp : FloatOps) (s : VibeLED) : Frame s (s._effectFadeOut fp) :=
  Frame.ite _ ((frame_applyIntensity fp _ s).trans (Frame.effect _ _))
    (frame_applyIntensity fp _ s)

theorem forBelow_frame (n : Nat) (body : Nat → VibeLED → VibeLED) (s s1 : VibeLED)
    (h0 : Frame s s1) (h : ∀ i t, Frame t (body i t)) : Frame s (forBelow n body s1) :=
  forBelow_invariant (fun t => Frame s t) n body s1 h0 (fun i t _ ht => ht.trans (h i t))

theorem forUpTo_frame (lo hi : Nat) (body : Nat → VibeLED → VibeLED) (s s1 : VibeLED)
    (h0 : Frame s s1) (h : ∀ i t, Frame t (body i t)) : Frame s (forUpTo lo hi body s1) :=
  forUpTo_invariant (fun t => Frame s t) lo hi body s1 h0 (fun i t _ _ ht => ht.trans (h i t))

theorem forDownTo_frame (hi lo : Nat) (body : Nat → VibeLED → VibeLED) (s s1 : VibeLED)
    (h0 : Frame s s1) (h : ∀ i t, Frame t (body i t)) : Frame s (forDownTo hi lo body s1) :=
  forDownTo_invariant (fun t => Frame s t) hi lo body s1 h0
    (fun i t _ _ ht => ht.trans (h i t))

theorem frame_effectKnightRider (fp : FloatOps) (s : VibeLED) :
    Frame s (s._effectKnightRider fp) := by
  unfold _effectKnightRider
  simp only []
  split
  · exact Frame.states s _ (forUpTo_length _ _ _ _ (by simp))
  · refine Frame.colors s _ (forUpTo_length _ _ _ _ ?_)
    intro i b
    split
    · simp
    · split <;> simp

theorem frame_effectCylon (fp : FloatOps) (s : VibeLED) : Frame s (s._effectCylon fp) := by
  unfold _effectCylon
  simp only []
  split
  · exact Frame.states s _ (forUpTo_length _ _ _ _ (by simp))
  · refine Frame.colors s _ ?_
    rw [List.length_set]
    exact forUpTo_length _ _ _ _ (by simp)

theorem frame_effectMeteor (fp : FloatOps) (s : VibeLED) : Frame s (s._effectMeteor fp) := by
  unfold _effectMeteor
  simp only []
  apply forBelow_frame
  · exact Frame.ite _ (Frame.states s _ (forUpTo_length _ _ _ _ (by simp)))
      (Frame.colors s _ (forUpTo_length _ _ _ _ (by simp)))
  · intro i t
    refine Frame.ite _ (Frame.ite _ ?_ ?_) (Frame.refl t)
    · exact Frame.states t _ (by simp)
    · exact Frame.colors t _ (by simp)

theorem frame_effectFire (s : VibeLED) : Frame s s._effectFire := by
  unfold _effectFire
  simp only []
  refine Frame.ite _ ?_ ?_
  · have h0 : Frame s (match s.heat with
        | none => { s with heat := some (List.replicate s.groupSize 0) }
        | some _ => s) := by
      split
      · simp [Frame]
      · exact Frame.refl s
    apply forBelow_frame
    · refine Frame.ite _ ?_ ?_
      · refine (Frame.trans ?_ (Frame.random _ _)).trans ((Frame.random _ _).trans
          ((Frame.randomRange _ _ _).trans (Frame.heatSet _ _ _)))
        apply forDownTo_frame
        · apply forBelow_frame _ _ _ _ h0
          intro i t
          exact Frame.ite _ ((Frame.randomRange t _ _).trans (Frame.heatSet _ _ _))
            ((Frame.randomRange t _ _).trans (Frame.heatSet _ _ _))
        · intro i t
          exact Frame.heatSet _ _ _
      · refine Frame.trans ?_ (Frame.random _ _)
        apply forDownTo_frame
        · apply forBelow_frame _ _ _ _ h0
          intro i t
          exact Frame.ite _ ((Frame.randomRange t _ _).trans (Frame.heatSet _ _ _))
            ((Frame.randomRange t _ _).trans (Frame.heatSet _ _ _))
        · intro i t
          exact Frame.heatSet _ _ _
    · intro i t
      exact Frame.colors t _ (by simp)
  · apply forUpTo_frame _ _ _ _ _ (Frame.refl s)
    intro i t
    exact (Frame.random t 100).trans (Frame.states _ _ (by simp))

theorem frame_effectWaterfall (s : VibeLED) : Frame s s._effectWaterfall := by
  unfold _effectWaterfall
  simp only []
  refine Frame.ite _ ?_ (Frame.ite _ ?_ ?_)
  · refine (Frame.random s 100).trans (Frame.states _ _ ?_)
    rw [List.length_set, forDownAbove_length _ _ _ _ (by simp)]
    exact ((Frame.random s 100).2.2.2.2.2.2.2.2.2.2.2.1).symm
  · refine (Frame.random s 100).trans (Frame.colors _ _ ?_)
    rw [List.length_set, forDownAbove_length _ _ _ _ (by simp)]
    exact ((Frame.random s 100).2.2.2.2.2.2.2.2.2.2.2.2).symm
  · refine (Frame.random s 100).trans (Frame.colors _ _ ?_)
    rw [List.length_set, forDownAbove_length _ _ _ _ (by simp)]
    exact ((Frame.random s 100).2.2.2.2.2.2.2.2.2.2.2.2).symm

theorem frame_effectChase (s : VibeLED) : Frame s s._effectChase := by
  unfold _effectChase
  simp only []
  split
  · exact Frame.states s _ (forUpTo_length _ _ _ _ (by simp))
  · refine Frame.colors s _ (forUpTo_length _ _ _ _ ?_)
    intro i b
    split <;> simp

theorem frame_fillUpTo (position : Nat) (s : VibeLED) : Frame s (fillUpTo position s) := by
  unfold fillUpTo
  split
  · exact Frame.states s _ (forUpTo_length _ _ _ _ (by simp))
  · refine Frame.colors s _ (forUpTo_length _ _ _ _ ?_)
    intro i b
    split <;> simp

theorem frame_effectStack (s : VibeLED) : Frame s s._effectStack :=
  Frame.ite _ (frame_fillUpTo _ s) (frame_fillUpTo _ s)

theorem frame_effectRainbow (fp : FloatOps) (s : VibeLED) : Frame s (s._effectRainbow fp) := by
  unfold _effectRainbow
  simp only []
  split
  · exact Frame.colors s _ (forBelow_length _ _ _ (by simp))
  · exact Frame.states s _ (forBelow_length _ _ _ (by simp))

theorem frame_effectSparkle (fp : FloatOps) (s : VibeLED) : Frame s (s._effectSparkle fp) := by
  unfold _effectSparkle
  simp only []
  apply forBelow_frame
  · exact Frame.ite _ (Frame.states s _ (forUpTo_length _ _ _ _ (by simp)))
      (Frame.colors s _ (forUpTo_length _ _ _ _ (by simp)))
  · intro i t
    apply Frame.trans (Frame.random t _)
    exact Frame.ite _ (Frame.states _ _ (by simp)) (Frame.colors _ _ (by simp))

theorem frame_effectMarquee (s : VibeLED) : Frame s s._effectMarquee := by
  unfold _effectMarquee
  simp only []
  apply forBelow_frame _ _ _ _ (Frame.refl s)
  intro i t
  exact Frame.ite _ (Frame.states _ _ (by simp)) (Frame.colors _ _ (by simp))

theorem frame_effectBounce (fp : FloatOps) (s : VibeLED) : Frame s (s._effectBounce fp) := by
  unfold _effectBounce
  simp only []
  split
  · exact Frame.states s _ (forUpTo_length _ _ _ _ (by simp))
  · refine Frame.colors s _ (forUpTo_length _ _ _ _ ?_)
    intro i b
    split <;> simp

theorem frame_effectColorWipe (s : VibeLED) : Frame s s._effectColorWipe := by
  unfold _effectColorWipe
  simp only []
  refine Frame.ite _ (frame_fillUpTo _ s) (Frame.ite _ ?_ ?_)
  · exact Frame.states s _ (forUpTo_length _ _ _ _ (by simp))
  · refine Frame.colors s _ (forUpTo_length _ _ _ _ ?_)
    intro i b
    split <;> simp

theorem frame_effectRandomBlink (s : VibeLED) : Frame s s._effectRandomBlink := by
  unfold _effectRandomBlink
  simp only []
  refine Frame.ite _ ?_ (Frame.refl s)
  apply forBelow_frame _ _ _ _ (Frame.refl s)
  intro i t
  refine Frame.ite _ ?_ (Frame.ite _ ?_ ?_)
  · exact (Frame.random t _).trans (Frame.states _ _ (by simp))
  · exact (Frame.random t _).trans ((Frame.random _ _).trans ((Frame.random _ _).trans
      ((Frame.random _ _).trans (Frame.colors _ _ (by simp)))))
  · exact (Frame.random t _).trans (Frame.colors _ _ (by simp))

theorem frame_effectSnake (fp : FloatOps) (s : VibeLED) : Frame s (s._effectSnake fp) := by
  unfold _effectSnake
  simp only []
  apply forBelow_frame
  · exact Frame.ite _ (Frame.states s _ (forUpTo_length _ _ _ _ (by simp)))
      (Frame.colors s _ (forUpTo_length _ _ _ _ (by simp)))
  · intro i t
    exact Frame.ite _ (Frame.states _ _ (by simp)) (Frame.colors _ _ (by simp))

theorem frame_effectWave (fp : FloatOps) (s : VibeLED) : Frame s (s._effectWave fp) := by
  unfold _effectWave
  simp only []
  apply forBelow_frame _ _ _ _ (Frame.refl s)
  intro i t
  exact Frame.ite _ (Frame.states _ _ (by simp)) (Frame.colors _ _ (by simp))

theorem frame_runEffect (fp : FloatOps) (e : Nat) (s : VibeLED) : Frame s (runEffect fp e s) :=
  Frame.ite _ (frame_effectNone s) <|
  Frame.ite _ (frame_effectStatic s) <|
  Frame.ite _ (frame_effectBlink s) <|
  Frame.ite _ (frame_effectBreathe fp s) <|
  Frame.ite _ (frame_effectPulse fp s) <|
  Frame.ite _ (frame_effectFadeIn fp s) <|
  Frame.ite _ (frame_effectFadeOut fp s) <|
  Frame.ite _ (frame_effectKnightRider fp s) <|
  Frame.ite _ (frame_effectCylon fp s) <|
  Frame.ite _ (frame_effectMeteor fp s) <|
  Frame.ite _ (frame_effectFire s) <|
  Frame.ite _ (frame_effectWaterfall s) <|
  Frame.ite _ (frame_effectChase s) <|
  Frame.ite _ (frame_effectStack s) <|
  Frame.ite _ (frame_effectRainbow fp s) <|
  Frame.ite _ (frame_effectSparkle fp s) <|
  Frame.ite _ (frame_effectMarquee s) <|
  Frame.ite _ (frame_effectBounce fp s) <|
  Frame.ite _ (frame_effectColorWipe s) <|
  Frame.ite _ (frame_effectRandomBlink s) <|
  Frame.ite _ (frame_effectSnake fp s) <|
  Frame.ite _ (frame_effectWave fp s) <|
  frame_effectNone s

end VibeLED


theorem u16_succ (x : Nat) : u16 ((x : Int) + 1) = (x + 1) % 65536 := by
  unfold u16
  omega

theorem u16_of_lt (x : Nat) (h : x < 65536) : u16 (x : Int) = x := by
  unfold u16
  omega

theorem foldl_range'_set {α : Type} (f : Nat → α) (n lo : Nat) (buf : List α) (j : Nat) :
    ((List.range' lo n).foldl (fun acc i => acc.set i (f i)) buf)[j]? =
      if lo ≤ j ∧ j < lo + n ∧ j < buf.length then some (f j) else buf[j]? := by
  induction n generalizing lo buf with
  | zero =>
    have h : ¬ (lo ≤ j ∧ j < lo ∧ j < buf.length) := by omega
    simp [h]
  | succ n ih =>
    rw [List.range'_succ, List.foldl_cons, ih, List.getElem?_set, List.length_set]
    by_cases h1 : lo = j
    · subst h1
      by_cases h4 : lo < buf.length
      · have h2 : ¬ (lo + 1 ≤ lo ∧ lo < lo + 1 + n ∧ lo < buf.length) := by omega
        have h3 : lo ≤ lo ∧ lo < lo + (n + 1) ∧ lo < buf.length := by omega
        simp [h2, h3, h4]
      · have h2 : ¬ (lo + 1 ≤ lo ∧ lo < lo + 1 + n ∧ lo < buf.length) := by omega
        have h3 : ¬ (lo ≤ lo ∧ lo < lo + (n + 1) ∧ lo < buf.length) := by omega
        have h5 : buf[lo]? = none := List.getElem?_eq_none (by omega)
        simp [h2, h3, h4, h5]
    · by_cases h2 : lo + 1 ≤ j ∧ j < lo + 1 + n ∧ j < buf.length
      · have h3 : lo ≤ j ∧ j < lo + (n + 1) ∧ j < buf.length := by omega
        simp [h1, h2, h3]
      · have h3 : ¬ (lo ≤ j ∧ j < lo + (n + 1) ∧ j < buf.length) := by omega
        simp [h1, h2, h3]

theorem forUpTo_set_getElem? {α : Type} (f : Nat → α) (lo hi : Nat) (buf : List α) (j : Nat) :
    (forUpTo lo hi (fun i b => b.set i (f i)) buf)[j]? =
      if lo ≤ j ∧ j ≤ hi ∧ j < buf.length then some (f j) else buf[j]? := by
  unfold forUpTo
  rw [foldl_range'_set]
  by_cases h : lo ≤ j ∧ j ≤ hi ∧ j < buf.length
  · have h' : lo ≤ j ∧ j < lo + (hi + 1 - lo) ∧ j < buf.length := by omega
    simp [h, h']
  · have h' : ¬ (lo ≤ j ∧ j < lo + (hi + 1 - lo) ∧ j < buf.length) := by omega
    simp [h, h']

theorem forUpTo_set_inside {α : Type} (f : Nat → α) (lo hi : Nat) (buf : List α) (j : Nat)
    (h1 : lo ≤ j) (h2 : j ≤ hi) (h3 : j < buf.length) :
    (forUpTo lo hi (fun i b => b.set i (f i)) buf)[j]? = some (f j) := by
  rw [forUpTo_set_getElem?]
  simp [h1, h2, h3]

theorem forUpTo_set_outside {α : Type} (f : Nat → α) (lo hi : Nat) (buf : List α) (j : Nat)
    (h : j < lo ∨ hi < j) :
    (forUpTo lo hi (fun i b => b.set i (f i)) buf)[j]? = buf[j]? := by
  rw [forUpTo_set_getElem?]
  have h' : ¬ (lo ≤ j ∧ j ≤ hi ∧ j < buf.length) := by omega
  simp [h']

theorem forUpTo_set_idem {α : Type} (f g : Nat → α) (lo hi : Nat) (buf : List α) :
    forUpTo lo hi (fun i b => b.set i (f i)) (forUpTo lo hi (fun i b => b.set i (g i)) buf) =
      forUpTo lo hi (fun i b => b.set i (f i)) buf := by
  apply List.ext_getElem?
  intro j
  have hl : (forUpTo lo hi (fun i b => b.set i (g i)) buf).length = buf.length :=
    VibeLED.forUpTo_length _ _ _ _ (by simp)
  rw [forUpTo_set_getElem?, forUpTo_set_getElem?, forUpTo_set_getElem?, hl]
  by_cases h : lo ≤ j ∧ j ≤ hi ∧ j < buf.length
  · simp [h]
  · simp [h]

namespace VibeLED

theorem setGroup_bounds (s : VibeLED) (startLed endLed : Nat)
    (hn : 1 ≤ s._numLeds) (hn16 : s._numLeds < 65536) :
    (s.setGroup startLed endLed)._groupStart = min startLed (s._numLeds - 1) ∧
    (s.setGroup startLed endLed)._groupEnd =
      max (min startLed (s._numLeds - 1)) (min endLed (s._numLeds - 1)) := by
  unfold setGroup constrain u16
  simp only []
  constructor
  · split_ifs <;> omega
  · split_ifs <;> omega

end VibeLED

namespace VibeLED

theorem updateEffect_step (fp : FloatOps) (s : VibeLED) :
    (s._updateEffect fp)._step = (s._step + 1) % 65536 := by
  unfold _updateEffect
  simp only []
  rw [(frame_runEffect fp s._currentEffect s).2.2.2.2.2.2.2.2.2.1, u16_succ]

theorem frame_updateEffect (fp : FloatOps) (s : VibeLED) :
    (s._updateEffect fp)._ledType = s._ledType ∧ (s._updateEffect fp)._numLeds = s._numLeds ∧
    (s._updateEffect fp)._groupStart = s._groupStart ∧
    (s._updateEffect fp)._groupEnd = s._groupEnd ∧
    (s._updateEffect fp)._effectParams = s._effectParams ∧
    (s._updateEffect fp)._lastUpdate = s._lastUpdate ∧
    (s._updateEffect fp)._updateInterval = s._updateInterval ∧
    (s._updateEffect fp)._ledStates.length = s._ledStates.length ∧
    (s._updateEffect fp)._ledColors.length = s._ledColors.length := by
  obtain ⟨a1, a2, a3, a4, _, _, a7, a8, a9, _, _, a12, a13⟩ := frame_runEffect fp s._currentEffect s
  exact ⟨a1, a2, a3, a4, a7, a8, a9, a12, a13⟩

/-- C2: for a strip of `1 ≤ _numLeds ≤ 65535` elements, `setGroup(startLed, endLed)`
leaves `_groupStart = min(startLed, _numLeds - 1)` and `_groupEnd` equal to `endLed`
clamped into `[_groupStart, _numLeds - 1]`, so that
`0 ≤ _groupStart ≤ _groupEnd ≤ _numLeds - 1`; an `endLed` below the clamped start
is raised to `_groupStart`. -/
theorem setGroup_clamps (s : VibeLED) (startLed endLed : Nat)
    (hn : 1 ≤ s._numLeds) (hn16 : s._numLeds < 65536) :
    (s.setGroup startLed endLed)._groupStart = min startLed (s._numLeds - 1) ∧
    (s.setGroup startLed endLed)._groupEnd =
      max (s.setGroup startLed endLed)._groupStart (min endLed (s._numLeds - 1)) ∧
    0 ≤ (s.setGroup startLed endLed)._groupStart ∧
    (s.setGroup startLed endLed)._groupStart ≤ (s.setGroup startLed endLed)._groupEnd ∧
    (s.setGroup startLed endLed)._groupEnd ≤ s._numLeds - 1 ∧
    (endLed < (s.setGroup startLed endLed)._groupStart →
      (s.setGroup startLed endLed)._groupEnd = (s.setGroup startLed endLed)._groupStart) := by
  obtain ⟨h1, h2⟩ := setGroup_bounds s startLed endLed hn hn16
  rw [h1, h2]
  refine ⟨rfl, rfl, Nat.zero_le _, ?_, ?_, ?_⟩
  · omega
  · omega
  · intro h
    omega

theorem setGroup_clamps_witness :
    (1 ≤ sampleSingle._numLeds ∧ sampleSingle._numLeds < 65536) ∧
    (sampleSingle.setGroup 9 2)._groupStart = 4 ∧ (sampleSingle.setGroup 9 2)._groupEnd = 4 := by
  have h := setGroup_clamps sampleSingle 9 2 (by decide) (by decide)
  exact ⟨by decide, h.1.trans (by decide), h.2.1.trans (by decide)⟩

/-- C4: `update` at clock value `now` renders iff the unsigned 32-bit difference
`now - _lastUpdate` is at least `_updateInterval`.  When it does not render the
whole state is unchanged; when it renders, the result is one run of the
dispatcher on the state with `_lastUpdate = now`, `_lastUpdate` is `now`
afterwards and the step counter has advanced by one.  The state changes iff the
frame was due; for `_lastUpdate ≤ now < 2^32` the unsigned difference is the
plain difference. -/
theorem update_gating (fp : FloatOps) (now : Nat) (s : VibeLED) :
    (u32 ((now : Int) - s._lastUpdate) ≥ s._updateInterval →
      s.update fp now = _updateEffect fp { s with _lastUpdate := now } ∧
      (s.update fp now)._lastUpdate = now ∧
      (s.update fp now)._step = (s._step + 1) % 65536) ∧
    (¬ u32 ((now : Int) - s._lastUpdate) ≥ s._updateInterval → s.update fp now = s) ∧
    (s.update fp now ≠ s ↔ u32 ((now : Int) - s._lastUpdate) ≥ s._updateInterval) ∧
    (s._lastUpdate ≤ now → now < 4294967296 →
      u32 ((now : Int) - s._lastUpdate) = now - s._lastUpdate) := by
  have hdue : u32 ((now : Int) - s._lastUpdate) ≥ s._updateInterval →
      s.update fp now = _updateEffect fp { s with _lastUpdate := now } := by
    intro h
    unfold update _applyStates
    rw [if_pos h]
  have hnot : ¬ u32 ((now : Int) - s._lastUpdate) ≥ s._updateInterval → s.update fp now = s := by
    intro h
    unfold update
    rw [if_neg h]
  refine ⟨?_, hnot, ?_, ?_⟩
  · intro h
    rw [hdue h]
    exact ⟨rfl, (frame_updateEffect fp _).2.2.2.2.2.1, updateEffect_step fp _⟩
  · constructor
    · intro hne
      by_contra h
      exact hne (hnot h)
    · intro h hEq
      have h1 : (s.update fp now)._step = (s._step + 1) % 65536 := by
        rw [hdue h]
        exact updateEffect_step fp _
      rw [hEq] at h1
      omega
  · intro h1 h2
    unfold u32
    omega

theorem update_gating_witness :
    (sampleSingle.update hostFloat 100 ≠ sampleSingle ↔
      u32 ((100 : Int) - sampleSingle._lastUpdate) ≥ sampleSingle._updateInterval) ∧
    (sampleSingle._lastUpdate ≤ 100 → 100 < 4294967296 →
      u32 ((100 : Int) - sampleSingle._lastUpdate) = 100 - sampleSingle._lastUpdate) ∧
    u32 ((100 : Int) - sampleSingle._lastUpdate) ≥ sampleSingle._updateInterval ∧
    ¬ u32 ((99 : Int) - sampleSingle._lastUpdate) ≥ sampleSingle._updateInterval :=
  ⟨(update_gating hostFloat 100 sampleSingle).2.2.1, (update_gating hostFloat 100 sampleSingle).2.2.2,
    by decide, by decide⟩

/-- C5: one call of the dispatcher `_updateEffect` leaves `_step` equal to
`(_step + 1) mod 2^16`, whatever the effect identifier (implemented, declared
only, or unknown) and whether or not the algorithm changed `_currentEffect`. -/
theorem updateEffect_increments_step (fp : FloatOps) (s : VibeLED) (e : Nat) :
    (_updateEffect fp { s with _currentEffect := e })._step = (s._step + 1) % 65536 :=
  updateEffect_step fp _

end VibeLED

namespace VibeLED

/-- C7: each of the five `setEffect` overloads that take an effect identifier
sets `_currentEffect` to it, resets `_step` to 0 and leaves both buffers and the
group range as they were; `setEffect(effect)` leaves `_effectParams` unchanged
and `setEffect(effect, params)` makes `_effectParams` equal to `params`. -/
theorem setEffect_selects (s : VibeLED) (effect speed r g b : Nat) (params : EffectParams)
    (color : Color) :
    ((s.setEffect effect)._currentEffect = effect ∧ (s.setEffect effect)._step = 0 ∧
      (s.setEffect effect)._ledStates = s._ledStates ∧
      (s.setEffect effect)._ledColors = s._ledColors ∧
      (s.setEffect effect)._groupStart = s._groupStart ∧
      (s.setEffect effect)._groupEnd = s._groupEnd ∧
      (s.setEffect effect)._effectParams = s._effectParams) ∧
    ((s.setEffectParams effect params)._currentEffect = effect ∧
      (s.setEffectParams effect params)._step = 0 ∧
      (s.setEffectParams effect params)._ledStates = s._ledStates ∧
      (s.setEffectParams effect params)._ledColors = s._ledColors ∧
      (s.setEffectParams effect params)._groupStart = s._groupStart ∧
      (s.setEffectParams effect params)._groupEnd = s._groupEnd ∧
      (s.setEffectParams effect params)._effectParams = params) ∧
    ((s.setEffectSpeed effect speed)._currentEffect = effect ∧
      (s.setEffectSpeed effect speed)._step = 0 ∧
      (s.setEffectSpeed effect speed)._ledStates = s._ledStates ∧
      (s.setEffectSpeed effect speed)._ledColors = s._ledColors ∧
      (s.setEffectSpeed effect speed)._groupStart = s._groupStart ∧
      (s.setEffectSpeed effect speed)._groupEnd = s._groupEnd) ∧
    ((s.setEffectSpeedColor effect speed color)._currentEffect = effect ∧
      (s.setEffectSpeedColor effect speed color)._step = 0 ∧
      (s.setEffectSpeedColor effect speed color)._ledStates = s._ledStates ∧
      (s.setEffectSpeedColor effect speed color)._ledColors = s._ledColors ∧
      (s.setEffectSpeedColor effect speed color)._groupStart = s._groupStart ∧
      (s.setEffectSpeedColor effect speed color)._groupEnd = s._groupEnd) ∧
    ((s.setEffectSpeedRGB effect speed r g b)._currentEffect = effect ∧
      (s.setEffectSpeedRGB effect speed r g b)._step = 0 ∧
      (s.setEffectSpeedRGB effect speed r g b)._ledStates = s._ledStates ∧
      (s.setEffectSpeedRGB effect speed r g b)._ledColors = s._ledColors ∧
      (s.setEffectSpeedRGB effect speed r g b)._groupStart = s._groupStart ∧
      (s.setEffectSpeedRGB effect speed r g b)._groupEnd = s._groupEnd) :=
  ⟨⟨rfl, rfl, rfl, rfl, rfl, rfl, rfl⟩, ⟨rfl, rfl, rfl, rfl, rfl, rfl, rfl⟩,
    ⟨rfl, rfl, rfl, rfl, rfl, rfl⟩, ⟨rfl, rfl, rfl, rfl, rfl, rfl⟩,
    ⟨rfl, rfl, rfl, rfl, rfl, rfl⟩⟩

/-- C8: a `setLED` call (any of the three overloads) with `led ≥ _numLeds` returns
the state unchanged.  With `led < _numLeds` on a strip of the matching type whose
buffer has `_numLeds` elements, the call stores the given state or colour at
index `led`, leaves every other element of that buffer as it was, and leaves the
other buffer, the group, the step and the effect unchanged. -/
theorem setLED_direct_write (s : VibeLED) (led : Nat) (state : Bool) (r g b : Nat)
    (color : Color) :
    (s._numLeds ≤ led →
      s.setLED led state = s ∧ s.setLEDRGB led r g b = s ∧ s.setLEDColor led color = s) ∧
    (led < s._numLeds → s._ledType = LED_TYPE_SINGLE → s._ledStates.length = s._numLeds →
      (s.setLED led state)._ledStates[led]? = some state ∧
      (∀ j, j ≠ led → (s.setLED led state)._ledStates[j]? = s._ledStates[j]?) ∧
      (s.setLED led state)._ledStates.length = s._ledStates.length ∧
      (s.setLED led state)._ledColors = s._ledColors ∧
      (s.setLED led state)._groupStart = s._groupStart ∧
      (s.setLED led state)._groupEnd = s._groupEnd ∧
      (s.setLED led state)._step = s._step ∧
      (s.setLED led state)._currentEffect = s._currentEffect) ∧
    (led < s._numLeds → s._ledType = LED_TYPE_RGB → s._ledColors.length = s._numLeds →
      ((s.setLEDRGB led r g b)._ledColors[led]? = some ⟨r, g, b⟩ ∧
        (∀ j, j ≠ led → (s.setLEDRGB led r g b)._ledColors[j]? = s._ledColors[j]?) ∧
        (s.setLEDRGB led r g b)._ledColors.length = s._ledColors.length ∧
        (s.setLEDRGB led r g b)._ledStates = s._ledStates ∧
        (s.setLEDRGB led r g b)._groupStart = s._groupStart ∧
        (s.setLEDRGB led r g b)._groupEnd = s._groupEnd ∧
        (s.setLEDRGB led r g b)._step = s._step ∧
        (s.setLEDRGB led r g b)._currentEffect = s._currentEffect) ∧
      ((s.setLEDColor led color)._ledColors[led]? = some color ∧
        (∀ j, j ≠ led → (s.setLEDColor led color)._ledColors[j]? = s._ledColors[j]?) ∧
        (s.setLEDColor led color)._ledColors.length = s._ledColors.length ∧
        (s.setLEDColor led color)._ledStates = s._ledStates ∧
        (s.setLEDColor led color)._groupStart = s._groupStart ∧
        (s.setLEDColor led color)._groupEnd = s._groupEnd ∧
        (s.setLEDColor led color)._step = s._step ∧
        (s.setLEDColor led color)._currentEffect = s._currentEffect)) := by
  refine ⟨?_, ?_, ?_⟩
  · intro h
    have h' : ¬ led < s._numLeds := by omega
    simp [setLED, setLEDRGB, setLEDColor, h']
  · intro h ht hl
    have hb : led < s._ledStates.length := by omega
    have e : s.setLED led state = { s with _ledStates := s._ledStates.set led state } := by
      unfold setLED
      rw [if_pos ⟨ht, h⟩]
    rw [e]
    refine ⟨?_, ?_, ?_, rfl, rfl, rfl, rfl, rfl⟩
    · simp [List.getElem?_set, hb]
    · intro j hj
      exact List.getElem?_set_ne (Ne.symm hj)
    · simp
  · intro h ht hl
    have hb : led < s._ledColors.length := by omega
    have e1 : s.setLEDRGB led r g b = { s with _ledColors := s._ledColors.set led ⟨r, g, b⟩ } := by
      unfold setLEDRGB
      rw [if_pos ⟨ht, h⟩]
    have e2 : s.setLEDColor led color = { s with _ledColors := s._ledColors.set led color } := by
      unfold setLEDColor
      rw [if_pos ⟨ht, h⟩]
    rw [e1, e2]
    refine ⟨⟨?_, ?_, ?_, rfl, rfl, rfl, rfl, rfl⟩, ⟨?_, ?_, ?_, rfl, rfl, rfl, rfl, rfl⟩⟩
    · simp [List.getElem?_set, hb]
    · intro j hj
      exact List.getElem?_set_ne (Ne.symm hj)
    · simp
    · simp [List.getElem?_set, hb]
    · intro j hj
      exact List.getElem?_set_ne (Ne.symm hj)
    · simp

theorem setLED_direct_write_witness :
    (sampleSingle.setLED 7 true = sampleSingle) ∧
    (sampleSingle.setLED 3 true)._ledStates[3]? = some true ∧
    (sampleRGB.setLEDRGB 4 1 2 3)._ledColors[4]? = some ⟨1, 2, 3⟩ :=
  ⟨((setLED_direct_write sampleSingle 7 true 0 0 0 Color.black).1 (by decide)).1,
    ((setLED_direct_write sampleSingle 3 true 0 0 0 Color.black).2.1 (by decide) (by decide)
      (by decide)).1,
    ((setLED_direct_write sampleRGB 4 false 1 2 3 Color.black).2.2 (by decide) (by decide)
      (by decide)).1.1⟩

end VibeLED

namespace VibeLED

theorem groupSize_eq (s : VibeLED) (hv : s.Valid) :
    s.groupSize = s._groupEnd - s._groupStart + 1 := by
  obtain ⟨_, _, h3, h4, h5, _⟩ := hv
  unfold groupSize u16
  omega

theorem runEffect_default (fp : FloatOps) (e : Nat) (s : VibeLED) (h : 22 ≤ e) :
    runEffect fp e s = s._effectNone := by
  have hk : ∀ k : Nat, k < 22 → ¬ e = k := by
    intro k hk
    omega
  unfold runEffect
  rw [if_neg (hk EFFECT_NONE (by decide)),
    if_neg (hk EFFECT_STATIC (by decide)),
    if_neg (hk EFFECT_BLINK (by decide)),
    if_neg (hk EFFECT_BREATHE (by decide)),
    if_neg (hk EFFECT_PULSE (by decide)),
    if_neg (hk EFFECT_FADE_IN (by decide)),
    if_neg (hk EFFECT_FADE_OUT (by decide)),
    if_neg (hk EFFECT_KNIGHT_RIDER (by decide)),
    if_neg (hk EFFECT_CYLON (by decide)),
    if_neg (hk EFFECT_METEOR (by decide)),
    if_neg (hk EFFECT_FIRE (by decide)),
    if_neg (hk EFFECT_WATERFALL (by decide)),
    if_neg (hk EFFECT_CHASE (by decide)),
    if_neg (hk EFFECT_STACK (by decide)),
    if_neg (hk EFFECT_RAINBOW (by decide)),
    if_neg (hk EFFECT_SPARKLE (by decide)),
    if_neg (hk EFFECT_MARQUEE (by decide)),
    if_neg (hk EFFECT_BOUNCE (by decide)),
    if_neg (hk EFFECT_COLOR_WIPE (by decide)),
    if_neg (hk EFFECT_RANDOM_BLINK (by decide)),
    if_neg (hk EFFECT_SNAKE (by decide)),
    if_neg (hk EFFECT_WAVE (by decide))]

/-- C6: when `_currentEffect` is not one of the 22 implemented identifiers
(`22 ≤ _currentEffect`, which covers `EFFECT_TWINKLE = 22` up to
`EFFECT_CUSTOM = 99`), one call of `_updateEffect` produces the buffers of
`_effectNone`, and on a valid strip every element of the group is then off
(BINARY) or `(0,0,0)` (COLOR). -/
theorem updateEffect_unknown_is_none (fp : FloatOps) (s : VibeLED) (hv : s.Valid)
    (he : 22 ≤ s._currentEffect) :
    (s._updateEffect fp)._ledStates = s._effectNone._ledStates ∧
    (s._updateEffect fp)._ledColors = s._effectNone._ledColors ∧
    ∀ i, s._groupStart ≤ i → i ≤ s._groupEnd →
      (s._ledType = LED_TYPE_SINGLE → (s._updateEffect fp)._ledStates[i]? = some false) ∧
      (s._ledType = LED_TYPE_RGB → (s._updateEffect fp)._ledColors[i]? = some ⟨0, 0, 0⟩) := by
  have hu : (s._updateEffect fp)._ledStates = s._effectNone._ledStates ∧
      (s._updateEffect fp)._ledColors = s._effectNone._ledColors := by
    unfold _updateEffect
    rw [runEffect_default fp _ s he]
    exact ⟨rfl, rfl⟩
  obtain ⟨_, _, _, _, h5, h6, h7, _⟩ := hv
  refine ⟨hu.1, hu.2, ?_⟩
  intro i hi1 hi2
  rw [hu.1, hu.2]
  constructor
  · intro ht
    have hl := h6 ht
    unfold _effectNone
    rw [if_pos ht]
    exact forUpTo_set_inside _ _ _ _ _ hi1 hi2 (by omega)
  · intro ht
    have hl := h7 ht
    have ht' : ¬ s._ledType = LED_TYPE_SINGLE := by
      rw [ht]
      decide
    unfold _effectNone
    rw [if_neg ht']
    exact forUpTo_set_inside _ _ _ _ _ hi1 hi2 (by omega)

theorem updateEffect_unknown_is_none_witness :
    (sampleRGB.setEffect EFFECT_CUSTOM).Valid ∧ 22 ≤ (sampleRGB.setEffect EFFECT_CUSTOM)._currentEffect ∧
    ((sampleRGB.setEffect EFFECT_CUSTOM)._updateEffect hostFloat)._ledColors[3]? =
      some ⟨0, 0, 0⟩ :=
  ⟨by decide, by decide,
    ((updateEffect_unknown_is_none hostFloat (sampleRGB.setEffect EFFECT_CUSTOM) (by decide)
      (by decide)).2.2 3 (by decide) (by decide)).2 (by decide)⟩

end VibeLED

namespace VibeLED

theorem runEffect_blink (fp : FloatOps) (s : VibeLED) :
    runEffect fp EFFECT_BLINK s = s._effectBlink := by
  unfold runEffect
  rw [if_neg (by decide), if_neg (by decide), if_pos rfl]

theorem effectBlink_states (s : VibeLED) :
    s._effectBlink._ledStates =
      if s._ledType = LED_TYPE_SINGLE then
        forUpTo s._groupStart s._groupEnd (fun i b => b.set i (decide (s._step % 2 = 0)))
          s._ledStates
      else s._ledStates := by
  unfold _effectBlink
  simp only []
  split <;> rfl

theorem effectBlink_colors (s : VibeLED) :
    s._effectBlink._ledColors =
      if s._ledType = LED_TYPE_SINGLE then s._ledColors
      else
        forUpTo s._groupStart s._groupEnd
          (fun i b => b.set i (if s._step % 2 = 0 then s._effectParams.color1 else ⟨0, 0, 0⟩))
          s._ledColors := by
  unfold _effectBlink
  simp only []
  split <;> simp

theorem effectBlink_currentEffect (s : VibeLED) :
    s._effectBlink._currentEffect = s._currentEffect := by
  unfold _effectBlink
  simp only []
  split <;> rfl

theorem updateEffect_blink (fp : FloatOps) (s : VibeLED) (he : s._currentEffect = EFFECT_BLINK) :
    (s._updateEffect fp)._ledStates = s._effectBlink._ledStates ∧
    (s._updateEffect fp)._ledColors = s._effectBlink._ledColors ∧
    (s._updateEffect fp)._currentEffect = EFFECT_BLINK := by
  unfold _updateEffect
  rw [he, runEffect_blink]
  exact ⟨rfl, rfl, (effectBlink_currentEffect s).trans he⟩

theorem blink_three_dispatches (fp : FloatOps) (s : VibeLED)
    (he : s._currentEffect = EFFECT_BLINK) :
    (((s._updateEffect fp)._updateEffect fp)._updateEffect fp)._ledStates =
      (s._updateEffect fp)._ledStates ∧
    (((s._updateEffect fp)._updateEffect fp)._updateEffect fp)._ledColors =
      (s._updateEffect fp)._ledColors := by
  obtain ⟨a1, a2, a3⟩ := updateEffect_blink fp s he
  obtain ⟨b1, b2, b3⟩ := updateEffect_blink fp (s._updateEffect fp) a3
  obtain ⟨c1, c2, _⟩ := updateEffect_blink fp ((s._updateEffect fp)._updateEffect fp) b3
  obtain ⟨f1, _, f3, f4, f5, _⟩ := frame_updateEffect fp s
  obtain ⟨g1, _, g3, g4, g5, _⟩ := frame_updateEffect fp (s._updateEffect fp)
  have p1 := updateEffect_step fp s
  have p2 := updateEffect_step fp (s._updateEffect fp)
  have hpar : ((s._updateEffect fp)._updateEffect fp)._step % 2 = s._step % 2 := by
    rw [p2, p1]
    omega
  rw [c1, c2, effectBlink_states, effectBlink_colors, b1, b2, effectBlink_states,
    effectBlink_colors, a1, a2, effectBlink_states, effectBlink_colors, hpar, g1, g3, g4, g5,
    f1, f3, f4, f5]
  by_cases ht : s._ledType = LED_TYPE_SINGLE
  · simp only [ht, if_true, forUpTo_set_idem, and_self]
  · simp only [ht, if_false, forUpTo_set_idem, and_self]

/-- C9: on a valid strip, after `_effectBlink` runs at step `s._step` every element
of the group is on (BINARY) or `color1` (COLOR) when the step is even, and off or
`(0,0,0)` when it is odd.  With BLINK running, the buffers after three dispatcher
calls (the frame of step `s + 2`, the 16-bit counter wrapping) equal the buffers
after the first (the frame of step `s`); and running `_effectBlink` on the same
state at step `(s + 2) mod 2^16` gives the same buffers as at step `s`. -/
theorem blink_parity_period (fp : FloatOps) (s : VibeLED) (hv : s.Valid)
    (he : s._currentEffect = EFFECT_BLINK) :
    (∀ i, s._groupStart ≤ i → i ≤ s._groupEnd →
      (s._ledType = LED_TYPE_SINGLE →
        s._effectBlink._ledStates[i]? = some (decide (s._step % 2 = 0))) ∧
      (s._ledType = LED_TYPE_RGB →
        s._effectBlink._ledColors[i]? =
          some (if s._step % 2 = 0 then s._effectParams.color1 else ⟨0, 0, 0⟩))) ∧
    ((((s._updateEffect fp)._updateEffect fp)._updateEffect fp)._ledStates =
        (s._updateEffect fp)._ledStates ∧
      (((s._updateEffect fp)._updateEffect fp)._updateEffect fp)._ledColors =
        (s._updateEffect fp)._ledColors) ∧
    (_effectBlink { s with _step := (s._step + 2) % 65536 })._ledStates =
      s._effectBlink._ledStates ∧
    (_effectBlink { s with _step := (s._step + 2) % 65536 })._ledColors =
      s._effectBlink._ledColors := by
  obtain ⟨_, _, _, _, h5, h6, h7, _⟩ := hv
  have hpar : (s._step + 2) % 65536 % 2 = s._step % 2 := by omega
  refine ⟨?_, blink_three_dispatches fp s he, ?_, ?_⟩
  · intro i hi1 hi2
    constructor
    · intro ht
      have hl := h6 ht
      rw [effectBlink_states, if_pos ht]
      exact forUpTo_set_inside _ _ _ _ _ hi1 hi2 (by omega)
    · intro ht
      have hl := h7 ht
      have ht' : ¬ s._ledType = LED_TYPE_SINGLE := by
        rw [ht]
        decide
      rw [effectBlink_colors, if_neg ht']
      exact forUpTo_set_inside _ _ _ _ _ hi1 hi2 (by omega)
  · rw [effectBlink_states, effectBlink_states]
    simp only [hpar]
  · rw [effectBlink_colors, effectBlink_colors]
    simp only [hpar]

theorem blink_parity_period_witness :
    (sampleSingle.setEffect EFFECT_BLINK).Valid ∧
    (sampleSingle.setEffect EFFECT_BLINK)._currentEffect = EFFECT_BLINK ∧
    (sampleSingle.setEffect EFFECT_BLINK)._effectBlink._ledStates[2]? = some true :=
  ⟨by decide, by decide,
    ((blink_parity_period hostFloat (sampleSingle.setEffect EFFECT_BLINK) (by decide)
      (by decide)).1 2 (by decide) (by decide)).1 (by decide)⟩

end VibeLED

namespace VibeLED

theorem chase_position (s : VibeLED) (hv : s.Valid) :
    u16 ((s._step % s.groupSize : Nat) : Int) =
      s._step % (s._groupEnd - s._groupStart + 1) := by
  rw [groupSize_eq s hv]
  obtain ⟨_, _, h3, h4, h5, _⟩ := hv
  have h : s._step % (s._groupEnd - s._groupStart + 1) < s._groupEnd - s._groupStart + 1 :=
    Nat.mod_lt _ (by omega)
  exact u16_of_lt _ (by omega)

theorem effectChase_states (s : VibeLED) (ht : s._ledType = LED_TYPE_SINGLE) :
    s._effectChase._ledStates =
      forUpTo s._groupStart s._groupEnd
        (fun i b => b.set i (decide (i = s._groupStart + u16 ((s._step % s.groupSize : Nat) : Int))))
        s._ledStates := by
  unfold _effectChase
  simp only []
  rw [if_pos ht]

theorem effectChase_colors (s : VibeLED) (ht : ¬ s._ledType = LED_TYPE_SINGLE) :
    s._effectChase._ledColors =
      forUpTo s._groupStart s._groupEnd
        (fun i b => b.set i
          (if i = s._groupStart + u16 ((s._step % s.groupSize : Nat) : Int) then
            s._effectParams.color1 else ⟨0, 0, 0⟩))
        s._ledColors := by
  unfold _effectChase
  simp only []
  rw [if_neg ht]
  show forUpTo s._groupStart s._groupEnd _ s._ledColors = _
  congr 1
  funext i b
  by_cases h : i = s._groupStart + u16 ((s._step % s.groupSize : Nat) : Int)
  · rw [if_pos h, if_pos h]
  · rw [if_neg h, if_neg h]

theorem runEffect_chase (fp : FloatOps) (s : VibeLED) :
    runEffect fp EFFECT_CHASE s = s._effectChase := by
  unfold runEffect
  rw [if_neg (by decide), if_neg (by decide), if_neg (by decide), if_neg (by decide),
    if_neg (by decide), if_neg (by decide), if_neg (by decide), if_neg (by decide),
    if_neg (by decide), if_neg (by decide), if_neg (by decide), if_neg (by decide), if_pos rfl]

theorem effectChase_currentEffect (s : VibeLED) :
    s._effectChase._currentEffect = s._currentEffect := by
  unfold _effectChase
  simp only []
  split <;> rfl

theorem iterate_updateEffect_chase (fp : FloatOps) (k : Nat) (s : VibeLED)
    (h : s._currentEffect = EFFECT_CHASE) :
    (fun t => _updateEffect fp t)^[k] s =
      (fun t : VibeLED => { t._effectChase with _step := u16 ((t._effectChase._step : Int) + 1) })^[k]
        s := by
  induction k generalizing s with
  | zero => rfl
  | succ k ih =>
    rw [Function.iterate_succ_apply, Function.iterate_succ_apply]
    have e : _updateEffect fp s =
        { s._effectChase with _step := u16 ((s._effectChase._step : Int) + 1) } := by
      unfold _updateEffect
      rw [h, runEffect_chase]
    rw [e]
    exact ih _ ((effectChase_currentEffect s).trans h)

/-- C10: on a valid strip with group size `N = _groupEnd - _groupStart + 1`, after
`_effectChase` runs at step `s` the element at index `p = _groupStart + (s mod N)`
lies in the group and is the only lit one: every group element `i` is on (BINARY)
iff `i = p`, and is `color1` at `i = p` and `(0,0,0)` elsewhere (COLOR).  On the
5-element BINARY strip with CHASE selected, the first six dispatcher calls light
elements 0, 1, 2, 3, 4 and then 0 again. -/
theorem chase_lights_one (fp : FloatOps) (s : VibeLED) (hv : s.Valid) :
    (s._groupStart ≤ s._groupStart + s._step % (s._groupEnd - s._groupStart + 1) ∧
      s._groupStart + s._step % (s._groupEnd - s._groupStart + 1) ≤ s._groupEnd) ∧
    (∀ i, s._groupStart ≤ i → i ≤ s._groupEnd →
      (s._ledType = LED_TYPE_SINGLE →
        s._effectChase._ledStates[i]? =
          some (decide (i = s._groupStart + s._step % (s._groupEnd - s._groupStart + 1)))) ∧
      (s._ledType = LED_TYPE_RGB →
        s._effectChase._ledColors[i]? =
          some (if i = s._groupStart + s._step % (s._groupEnd - s._groupStart + 1) then
            s._effectParams.color1 else ⟨0, 0, 0⟩))) ∧
    (List.range 6).map
        (fun k => ((fun t => _updateEffect fp t)^[k + 1]
          (sampleSingle.setEffect EFFECT_CHASE))._ledStates) =
      [[true, false, false, false, false], [false, true, false, false, false],
       [false, false, true, false, false], [false, false, false, true, false],
       [false, false, false, false, true], [true, false, false, false, false]] := by
  have hp := chase_position s hv
  obtain ⟨_, _, h3, h4, h5, h6, h7, _⟩ := hv
  have hm : s._step % (s._groupEnd - s._groupStart + 1) < s._groupEnd - s._groupStart + 1 :=
    Nat.mod_lt _ (by omega)
  refine ⟨⟨by omega, by omega⟩, ?_, ?_⟩
  · intro i hi1 hi2
    constructor
    · intro ht
      have hl := h6 ht
      rw [effectChase_states s ht, hp]
      exact forUpTo_set_inside _ _ _ _ _ hi1 hi2 (by omega)
    · intro ht
      have hl := h7 ht
      have ht' : ¬ s._ledType = LED_TYPE_SINGLE := by
        rw [ht]
        decide
      rw [effectChase_colors s ht', hp]
      exact forUpTo_set_inside _ _ _ _ _ hi1 hi2 (by omega)
  · have h0 : (sampleSingle.setEffect EFFECT_CHASE)._currentEffect = EFFECT_CHASE := rfl
    simp only [iterate_updateEffect_chase fp _ _ h0]
    decide

theorem chase_lights_one_witness :
    (sampleRGB.setGroup 2 6).Valid ∧
    (_effectChase { sampleRGB.setGroup 2 6 with _step := 13 })._ledColors[5]? =
      some ⟨255, 255, 255⟩ ∧
    (_effectChase { sampleRGB.setGroup 2 6 with _step := 13 })._ledColors[4]? =
      some ⟨0, 0, 0⟩ :=
  ⟨by decide,
    (((chase_lights_one hostFloat { sampleRGB.setGroup 2 6 with _step := 13 } (by decide)).2.1
      5 (by decide) (by decide)).2 (by decide)).trans (by decide),
    (((chase_lights_one hostFloat { sampleRGB.setGroup 2 6 with _step := 13 } (by decide)).2.1
      4 (by decide) (by decide)).2 (by decide)).trans (by decide)⟩

end VibeLED

namespace VibeLED

theorem setEffect_ite (s a b : VibeLED) (c : Prop) [Decidable c]
    (h1 : ∃ e, a = s.setEffect e) (h2 : ∃ e, b = s.setEffect e) :
    ∃ e, (if c then a else b) = s.setEffect e := by
  split <;> assumption

theorem setEffectName_eq (s : VibeLED) (effectName : String) :
    ∃ e, s.setEffectName effectName = s.setEffect e :=
  setEffect_ite s _ _ _ ⟨_, rfl⟩ <|
  setEffect_ite s _ _ _ ⟨_, rfl⟩ <|
  setEffect_ite s _ _ _ ⟨_, rfl⟩ <|
  setEffect_ite s _ _ _ ⟨_, rfl⟩ <|
  setEffect_ite s _ _ _ ⟨_, rfl⟩ <|
  setEffect_ite s _ _ _ ⟨_, rfl⟩ <|
  setEffect_ite s _ _ _ ⟨_, rfl⟩ <|
  setEffect_ite s _ _ _ ⟨_, rfl⟩ <|
  setEffect_ite s _ _ _ ⟨_, rfl⟩ <|
  setEffect_ite s _ _ _ ⟨_, rfl⟩ <|
  setEffect_ite s _ _ _ ⟨_, rfl⟩ <|
  setEffect_ite s _ _ _ ⟨_, rfl⟩ <|
  setEffect_ite s _ _ _ ⟨_, rfl⟩ <|
  setEffect_ite s _ _ _ ⟨_, rfl⟩ <|
  setEffect_ite s _ _ _ ⟨_, rfl⟩ <|
  setEffect_ite s _ _ _ ⟨_, rfl⟩ <|
  setEffect_ite s _ _ _ ⟨_, rfl⟩ <|
  setEffect_ite s _ _ _ ⟨_, rfl⟩ <|
  setEffect_ite s _ _ _ ⟨_, rfl⟩ <|
  setEffect_ite s _ _ _ ⟨_, rfl⟩ <|
  setEffect_ite s _ _ _ ⟨_, rfl⟩ <|
  ⟨_, rfl⟩

/-- The part of the representation invariant that every public call maintains
for a strip constructed with type `ty` and `n` elements. -/
theorem call_invariant (fp : FloatOps) (ty n : Nat) (hn1 : 1 ≤ n) (hn2 : n < 65536)
    (s : VibeLED) (op : Op)
    (h : s._ledType = ty ∧ s._numLeds = n ∧ s._ledStates.length = (if ty = LED_TYPE_SINGLE then n else 0) ∧
      s._ledColors.length = (if ty = LED_TYPE_SINGLE then 0 else n) ∧
      s._groupStart ≤ s._groupEnd ∧ s._groupEnd ≤ n - 1) :
    (s.call fp op)._ledType = ty ∧ (s.call fp op)._numLeds = n ∧
    (s.call fp op)._ledStates.length = (if ty = LED_TYPE_SINGLE then n else 0) ∧
    (s.call fp op)._ledColors.length = (if ty = LED_TYPE_SINGLE then 0 else n) ∧
    (s.call fp op)._groupStart ≤ (s.call fp op)._groupEnd ∧ (s.call fp op)._groupEnd ≤ n - 1 := by
  obtain ⟨h1, h2, h3, h4, h5, h6⟩ := h
  cases op with
  | begin =>
    simp only [call]
    unfold begin _applyStates
    split
    · exact ⟨h1, h2, (forBelow_length _ _ _ (by simp)).trans h3, h4, h5, h6⟩
    · exact ⟨h1, h2, h3, (forBelow_length _ _ _ (by simp)).trans h4, h5, h6⟩
  | update now =>
    simp only [call]
    unfold update _applyStates
    split
    · obtain ⟨f1, f2, f3, f4, _, _, _, f8, f9⟩ := frame_updateEffect fp { s with _lastUpdate := now }
      exact ⟨f1.trans h1, f2.trans h2, f8.trans h3, f9.trans h4, by rw [f3, f4]; exact h5,
        by rw [f4]; exact h6⟩
    · exact ⟨h1, h2, h3, h4, h5, h6⟩
  | clear =>
    simp only [call]
    unfold clear _applyStates
    split
    · exact ⟨h1, h2, (forBelow_length _ _ _ (by simp)).trans h3, h4, h5, h6⟩
    · exact ⟨h1, h2, h3, (forBelow_length _ _ _ (by simp)).trans h4, h5, h6⟩
  | setBrightness brightness => exact ⟨h1, h2, h3, h4, h5, h6⟩
  | setDelay ms => exact ⟨h1, h2, h3, h4, h5, h6⟩
  | setColorRGB r g b => exact ⟨h1, h2, h3, h4, h5, h6⟩
  | setColor color => exact ⟨h1, h2, h3, h4, h5, h6⟩
  | setEffect effect => exact ⟨h1, h2, h3, h4, h5, h6⟩
  | setEffectParams effect params => exact ⟨h1, h2, h3, h4, h5, h6⟩
  | setEffectSpeed effect speed => exact ⟨h1, h2, h3, h4, h5, h6⟩
  | setEffectSpeedColor effect speed color => exact ⟨h1, h2, h3, h4, h5, h6⟩
  | setEffectSpeedRGB effect speed r g b => exact ⟨h1, h2, h3, h4, h5, h6⟩
  | setEffectName effectName =>
    simp only [call]
    obtain ⟨e, he⟩ := setEffectName_eq s effectName
    rw [he]
    exact ⟨h1, h2, h3, h4, h5, h6⟩
  | setGroup startLed endLed =>
    obtain ⟨g1, g2⟩ := setGroup_bounds s startLed endLed (by omega) (by omega)
    simp only [call]
    refine ⟨h1, h2, h3, h4, ?_, ?_⟩
    · rw [g1, g2]
      omega
    · rw [g2]
      omega
  | resetGroup =>
    simp only [call]
    refine ⟨h1, h2, h3, h4, Nat.zero_le _, ?_⟩
    show u16 ((s._numLeds : Int) - 1) ≤ n - 1
    unfold u16
    omega
  | setLED led state =>
    simp only [call]
    unfold setLED
    split
    · exact ⟨h1, h2, (List.length_set _ _ _).trans h3, h4, h5, h6⟩
    · exact ⟨h1, h2, h3, h4, h5, h6⟩
  | setLEDRGB led r g b =>
    simp only [call]
    unfold setLEDRGB
    split
    · exact ⟨h1, h2, h3, (List.length_set _ _ _).trans h4, h5, h6⟩
    · exact ⟨h1, h2, h3, h4, h5, h6⟩
  | setLEDColor led color =>
    simp only [call]
    unfold setLEDColor
    split
    · exact ⟨h1, h2, h3, (List.length_set _ _ _).trans h4, h5, h6⟩
    · exact ⟨h1, h2, h3, h4, h5, h6⟩

theorem calls_invariant (fp : FloatOps) (ty n : Nat) (hn1 : 1 ≤ n) (hn2 : n < 65536)
    (ops : List Op) (s : VibeLED)
    (h : s._ledType = ty ∧ s._numLeds = n ∧ s._ledStates.length = (if ty = LED_TYPE_SINGLE then n else 0) ∧
      s._ledColors.length = (if ty = LED_TYPE_SINGLE then 0 else n) ∧
      s._groupStart ≤ s._groupEnd ∧ s._groupEnd ≤ n - 1) :
    (s.calls fp ops)._ledType = ty ∧ (s.calls fp ops)._numLeds = n ∧
    (s.calls fp ops)._ledStates.length = (if ty = LED_TYPE_SINGLE then n else 0) ∧
    (s.calls fp ops)._ledColors.length = (if ty = LED_TYPE_SINGLE then 0 else n) ∧
    (s.calls fp ops)._groupStart ≤ (s.calls fp ops)._groupEnd ∧
    (s.calls fp ops)._groupEnd ≤ n - 1 := by
  unfold calls
  exact foldl_invariant
    (fun t : VibeLED => t._ledType = ty ∧ t._numLeds = n ∧
      t._ledStates.length = (if ty = LED_TYPE_SINGLE then n else 0) ∧
      t._ledColors.length = (if ty = LED_TYPE_SINGLE then 0 else n) ∧
      t._groupStart ≤ t._groupEnd ∧ t._groupEnd ≤ n - 1)
    (call fp) ops s h (fun t op _ ht => call_invariant fp ty n hn1 hn2 t op ht)

/-- C3: in every state reached from either constructor with `1 ≤ numLeds ≤ 65535`
by any sequence of public calls (`begin`, `update`, `clear`, `setBrightness`,
`setDelay`, both `setColor`, all six `setEffect`, `setGroup`, `resetGroup`, all
three `setLED`), `_ledType` and `_numLeds` are the ones set by the constructor,
the buffer of that type has `numLeds` elements, and
`0 ≤ _groupStart ≤ _groupEnd ≤ numLeds - 1`. -/
theorem reachable_invariant (fp : FloatOps) (ops : List Op) (numLeds : Nat)
    (hn1 : 1 ≤ numLeds) (hn2 : numLeds < 65536) (pin rPin gPin bPin : Nat)
    (garbage : Nat → Bool) (rnd : Nat → Nat) :
    (((mkSingle pin numLeds garbage rnd).calls fp ops)._ledType = LED_TYPE_SINGLE ∧
      ((mkSingle pin numLeds garbage rnd).calls fp ops)._numLeds = numLeds ∧
      ((mkSingle pin numLeds garbage rnd).calls fp ops)._ledStates.length = numLeds ∧
      0 ≤ ((mkSingle pin numLeds garbage rnd).calls fp ops)._groupStart ∧
      ((mkSingle pin numLeds garbage rnd).calls fp ops)._groupStart ≤
        ((mkSingle pin numLeds garbage rnd).calls fp ops)._groupEnd ∧
      ((mkSingle pin numLeds garbage rnd).calls fp ops)._groupEnd ≤ numLeds - 1) ∧
    (((mkRGB rPin gPin bPin numLeds rnd).calls fp ops)._ledType = LED_TYPE_RGB ∧
      ((mkRGB rPin gPin bPin numLeds rnd).calls fp ops)._numLeds = numLeds ∧
      ((mkRGB rPin gPin bPin numLeds rnd).calls fp ops)._ledColors.length = numLeds ∧
      0 ≤ ((mkRGB rPin gPin bPin numLeds rnd).calls fp ops)._groupStart ∧
      ((mkRGB rPin gPin bPin numLeds rnd).calls fp ops)._groupStart ≤
        ((mkRGB rPin gPin bPin numLeds rnd).calls fp ops)._groupEnd ∧
      ((mkRGB rPin gPin bPin numLeds rnd).calls fp ops)._groupEnd ≤ numLeds - 1) := by
  have hge : u16 ((numLeds : Int) - 1) ≤ numLeds - 1 := by
    unfold u16
    omega
  constructor
  · obtain ⟨a1, a2, a3, _, a5, a6⟩ := calls_invariant fp LED_TYPE_SINGLE numLeds hn1 hn2 ops
      (mkSingle pin numLeds garbage rnd)
      ⟨rfl, rfl, by simp [mkSingle], by simp [mkSingle], Nat.zero_le _, hge⟩
    rw [if_pos rfl] at a3
    exact ⟨a1, a2, a3, Nat.zero_le _, a5, a6⟩
  · obtain ⟨a1, a2, _, a4, a5, a6⟩ := calls_invariant fp LED_TYPE_RGB numLeds hn1 hn2 ops
      (mkRGB rPin gPin bPin numLeds rnd)
      ⟨rfl, rfl, by simp [mkRGB, LED_TYPE_RGB, LED_TYPE_SINGLE],
        by simp [mkRGB, LED_TYPE_RGB, LED_TYPE_SINGLE], Nat.zero_le _, hge⟩
    rw [if_neg (by decide)] at a4
    exact ⟨a1, a2, a4, Nat.zero_le _, a5, a6⟩

theorem reachable_invariant_witness :
    (1 ≤ 5 ∧ 5 < 65536) ∧
    ((mkRGB 9 10 11 5 (fun _ => 0)).calls hostFloat
      [Op.begin, Op.setGroup 4 4, Op.setEffect EFFECT_CYLON, Op.update 100, Op.update 200,
        Op.setGroup 7 1, Op.setEffectName "Fire", Op.update 300])._ledColors.length = 5 :=
  ⟨by decide,
    (reachable_invariant hostFloat
      [Op.begin, Op.setGroup 4 4, Op.setEffect EFFECT_CYLON, Op.update 100, Op.update 200,
        Op.setGroup 7 1, Op.setEffectName "Fire", Op.update 300] 5 (by decide) (by decide)
      13 9 10 11 (fun _ => false) (fun _ => 0)).2.2.2.1⟩

end VibeLED

namespace VibeLED

/-- C1 (code defect): the state `cylonInput` is reached through the public
interface (construct a 2-element COLOR strip, `begin`, `setGroup(0, 0)`,
`setEffect(EFFECT_CYLON)`, one due `update`); it is valid and its group is
`[0, 0]`.  One more dispatcher call stores `color1` at index 1, outside the
group: element 1 is `(0,0,0)` before the call and `(255,255,255)` after it. -/
theorem cylon_one_element_group_escapes (fp : FloatOps) :
    (mkRGB 9 10 11 2 (fun _ => 0)).calls fp
      [Op.begin, Op.setGroup 0 0, Op.setEffect EFFECT_CYLON, Op.update 100] = cylonInput ∧
    cylonInput.Valid ∧ cylonInput._groupStart = 0 ∧ cylonInput._groupEnd = 0 ∧
    cylonInput._ledColors[1]? = some ⟨0, 0, 0⟩ ∧
    (cylonInput._updateEffect fp)._ledColors[1]? = some ⟨255, 255, 255⟩ :=
  ⟨rfl, by decide, rfl, rfl, rfl, rfl⟩

end VibeLED

/-! ## Group isolation of the individual effects -/

theorem forUpTo_outside {α : Type} (lo hi : Nat) (body : Nat → List α → List α) (buf : List α)
    (hb : ∀ i b j, lo ≤ i → i ≤ hi → j ≠ i → (body i b)[j]? = b[j]?)
    (j : Nat) (hj : j < lo ∨ hi < j) : (forUpTo lo hi body buf)[j]? = buf[j]? :=
  forUpTo_invariant (fun b => b[j]? = buf[j]?) lo hi body buf rfl
    (fun i t h1 h2 ht => (hb i t j h1 h2 (by omega)).trans ht)

theorem forDownAbove_outside {α : Type} (hi lo : Nat) (body : Nat → List α → List α)
    (buf : List α) (hb : ∀ i b j, lo < i → i ≤ hi → j ≠ i → (body i b)[j]? = b[j]?)
    (j : Nat) (hj : j < lo ∨ hi < j) : (forDownAbove hi lo body buf)[j]? = buf[j]? :=
  forDownAbove_invariant (fun b => b[j]? = buf[j]?) hi lo body buf rfl
    (fun i t h1 h2 ht => (hb i t j h1 h2 (by omega)).trans ht)

theorem forBelow_outside {α : Type} (n gs : Nat) (body : Nat → List α → List α) (buf : List α)
    (hb : ∀ i b j, i < n → j ≠ gs + i → (body i b)[j]? = b[j]?)
    (j : Nat) (hj : j < gs ∨ gs + n ≤ j) : (forBelow n body buf)[j]? = buf[j]? :=
  forBelow_invariant (fun b => b[j]? = buf[j]?) n body buf rfl
    (fun i t h1 ht => (hb i t j h1 (by omega)).trans ht)

namespace VibeLED

theorem Iso.isoRefl (s : VibeLED) : Iso s s :=
  ⟨Frame.refl s, fun _ _ => ⟨rfl, rfl⟩⟩

theorem Iso.isoTrans {s t u : VibeLED} (h1 : Iso s t) (h2 : Iso t u) : Iso s u := by
  refine ⟨h1.1.trans h2.1, ?_⟩
  intro j hj
  have hg1 := h1.1.2.2.1
  have hg2 := h1.1.2.2.2.1
  have a := h2.2 j (by rw [hg1, hg2]; exact hj)
  have b := h1.2 j hj
  exact ⟨a.1.trans b.1, a.2.trans b.2⟩

theorem Iso.isoIte {s a b : VibeLED} (c : Prop) [Decidable c] (h1 : Iso s a) (h2 : Iso s b) :
    Iso s (if c then a else b) := by
  split <;> assumption

theorem Iso.of_bufs {s t : VibeLED} (h : Frame s t) (h1 : t._ledStates = s._ledStates)
    (h2 : t._ledColors = s._ledColors) : Iso s t :=
  ⟨h, fun _ _ => ⟨by rw [h1], by rw [h2]⟩⟩

theorem Iso.isoRandom (s : VibeLED) (n : Nat) : Iso s (s.random n).2 := by
  refine Iso.of_bufs (Frame.random s n) ?_ ?_
  · unfold VibeLED.random
    split <;> rfl
  · unfold VibeLED.random
    split <;> rfl

theorem Iso.isoRandomRange (s : VibeLED) (a b : Nat) : Iso s (s.randomRange a b).2 := by
  unfold VibeLED.randomRange
  split
  · exact Iso.isoRefl s
  · exact Iso.isoRandom s _

theorem Iso.isoHeatSet (s : VibeLED) (i v : Nat) : Iso s (s.heatSet i v) :=
  Iso.of_bufs (Frame.heatSet s i v) rfl rfl

theorem Iso.isoEffect (s : VibeLED) (e : Nat) : Iso s { s with _currentEffect := e } :=
  Iso.of_bufs (Frame.effect s e) rfl rfl

theorem Iso.isoStates (s : VibeLED) (b : List Bool) (h : b.length = s._ledStates.length)
    (ho : ∀ j, (j < s._groupStart ∨ s._groupEnd < j) → b[j]? = s._ledStates[j]?) :
    Iso s { s with _ledStates := b } :=
  ⟨Frame.states s b h, fun j hj => ⟨ho j hj, rfl⟩⟩

theorem Iso.isoColors (s : VibeLED) (b : List Color) (h : b.length = s._ledColors.length)
    (ho : ∀ j, (j < s._groupStart ∨ s._groupEnd < j) → b[j]? = s._ledColors[j]?) :
    Iso s { s with _ledColors := b } :=
  ⟨Frame.colors s b h, fun j hj => ⟨rfl, ho j hj⟩⟩

theorem Iso.setState (s : VibeLED) (i : Nat) (v : Bool) (h1 : s._groupStart ≤ i)
    (h2 : i ≤ s._groupEnd) : Iso s { s with _ledStates := s._ledStates.set i v } :=
  Iso.isoStates s _ (by simp) (fun j hj => List.getElem?_set_ne (by omega))

theorem Iso.setColor (s : VibeLED) (i : Nat) (v : Color) (h1 : s._groupStart ≤ i)
    (h2 : i ≤ s._groupEnd) : Iso s { s with _ledColors := s._ledColors.set i v } :=
  Iso.isoColors s _ (by simp) (fun j hj => List.getElem?_set_ne (by omega))

/-- A loop over the group that stores at its own index only. -/
theorem Iso.statesLoop (s : VibeLED) (body : Nat → List Bool → List Bool)
    (hl : ∀ i b, (body i b).length = b.length)
    (hb : ∀ i b j, j ≠ i → (body i b)[j]? = b[j]?) :
    Iso s { s with _ledStates := forUpTo s._groupStart s._groupEnd body s._ledStates } :=
  Iso.isoStates s _ (forUpTo_length _ _ _ _ hl)
    (fun j hj => forUpTo_outside _ _ _ _ (fun i b j _ _ h => hb i b j h) j hj)

theorem Iso.colorsLoop (s : VibeLED) (body : Nat → List Color → List Color)
    (hl : ∀ i b, (body i b).length = b.length)
    (hb : ∀ i b j, j ≠ i → (body i b)[j]? = b[j]?) :
    Iso s { s with _ledColors := forUpTo s._groupStart s._groupEnd body s._ledColors } :=
  Iso.isoColors s _ (forUpTo_length _ _ _ _ hl)
    (fun j hj => forUpTo_outside _ _ _ _ (fun i b j _ _ h => hb i b j h) j hj)

theorem forBelow_iso (n : Nat) (body : Nat → VibeLED → VibeLED) (s s1 : VibeLED)
    (h0 : Iso s s1) (h : ∀ i t, i < n → Frame s t → Iso t (body i t)) :
    Iso s (forBelow n body s1) :=
  forBelow_invariant (fun t => Iso s t) n body s1 h0 (fun i t hi ht => ht.isoTrans (h i t hi ht.1))

theorem forUpTo_iso (lo hi : Nat) (body : Nat → VibeLED → VibeLED) (s s1 : VibeLED)
    (h0 : Iso s s1) (h : ∀ i t, lo ≤ i → i ≤ hi → Frame s t → Iso t (body i t)) :
    Iso s (forUpTo lo hi body s1) :=
  forUpTo_invariant (fun t => Iso s t) lo hi body s1 h0
    (fun i t h1 h2 ht => ht.isoTrans (h i t h1 h2 ht.1))

theorem forDownTo_iso (hi lo : Nat) (body : Nat → VibeLED → VibeLED) (s s1 : VibeLED)
    (h0 : Iso s s1) (h : ∀ i t, Iso t (body i t)) : Iso s (forDownTo hi lo body s1) :=
  forDownTo_invariant (fun t => Iso s t) hi lo body s1 h0 (fun i t _ _ ht => ht.isoTrans (h i t))

theorem iso_effectNone (s : VibeLED) : Iso s s._effectNone := by
  unfold _effectNone
  split
  · exact Iso.statesLoop s _ (by simp) (fun i b j h => List.getElem?_set_ne (Ne.symm h))
  · exact Iso.colorsLoop s _ (by simp) (fun i b j h => List.getElem?_set_ne (Ne.symm h))

theorem iso_effectStatic (s : VibeLED) : Iso s s._effectStatic := by
  unfold _effectStatic
  split
  · exact Iso.statesLoop s _ (by simp) (fun i b j h => List.getElem?_set_ne (Ne.symm h))
  · exact Iso.colorsLoop s _ (by simp) (fun i b j h => List.getElem?_set_ne (Ne.symm h))

theorem iso_effectBlink (s : VibeLED) : Iso s s._effectBlink := by
  unfold _effectBlink
  split
  · exact Iso.statesLoop s _ (by simp) (fun i b j h => List.getElem?_set_ne (Ne.symm h))
  · exact Iso.colorsLoop s _ (by simp) (fun i b j h => List.getElem?_set_ne (Ne.symm h))

theorem iso_applyIntensity (fp : FloatOps) (x : fp.F) (s : VibeLED) :
    Iso s (applyIntensity fp x s) := by
  unfold applyIntensity
  split
  · exact Iso.statesLoop s _ (by simp) (fun i b j h => List.getElem?_set_ne (Ne.symm h))
  · exact Iso.colorsLoop s _ (by simp) (fun i b j h => List.getElem?_set_ne (Ne.symm h))

theorem iso_effectFadeIn (fp : FloatOps) (s : VibeLED) : Iso s (s._effectFadeIn fp) :=
  Iso.isoIte _ ((iso_applyIntensity fp _ s).isoTrans (Iso.isoEffect _ _)) (iso_applyIntensity fp _ s)

theorem iso_effectFadeOut (fp : FloatOps) (s : VibeLED) : Iso s (s._effectFadeOut fp) :=
  Iso.isoIte _ ((iso_applyIntensity fp _ s).isoTrans (Iso.isoEffect _ _)) (iso_applyIntensity fp _ s)

theorem iso_effectKnightRider (fp : FloatOps) (s : VibeLED) :
    Iso s (s._effectKnightRider fp) := by
  unfold _effectKnightRider
  simp only []
  split
  · exact Iso.statesLoop s _ (by simp) (fun i b j h => List.getElem?_set_ne (Ne.symm h))
  · refine Iso.colorsLoop s _ ?_ ?_
    · intro i b
      split
      · simp
      · split <;> simp
    · intro i b j h
      split
      · exact List.getElem?_set_ne (Ne.symm h)
      · split <;> exact List.getElem?_set_ne (Ne.symm h)

end VibeLED

namespace VibeLED

theorem bouncePosition_lt (n step : Nat) (h1 : 1 ≤ n) (h2 : n < 65536)
    (h3 : ¬ (n = 1 ∧ step % 2 = 1)) : bouncePosition n step < n := by
  by_cases hn : n = 1
  · subst hn
    have hs : step % 2 = 0 := by omega
    have hc : bounceCycleLength 1 = 2 := by decide
    unfold bouncePosition
    simp only [hc, hs]
    decide
  · have hc : 2 ≤ bounceCycleLength n ∧
        (bounceCycleLength n = 2 * n - 2 ∨ bounceCycleLength n < n) := by
      unfold bounceCycleLength u16
      split_ifs <;> omega
    have hm : step % bounceCycleLength n < bounceCycleLength n := Nat.mod_lt _ (by omega)
    unfold bouncePosition
    simp only []
    generalize step % bounceCycleLength n = cp at hm
    generalize bounceCycleLength n = cl at hm hc
    unfold u16
    split_ifs <;> omega

theorem iso_effectCylon (fp : FloatOps) (s : VibeLED) (hv : s.Valid)
    (hc : ¬ (s._ledType = LED_TYPE_RGB ∧ s._groupStart = s._groupEnd ∧ s._step % 2 = 1)) :
    Iso s (s._effectCylon fp) := by
  have hg := groupSize_eq s hv
  obtain ⟨v1, _, v3, v4, v5, _⟩ := hv
  unfold _effectCylon
  simp only []
  split
  · exact Iso.statesLoop s _ (by simp) (fun i b j h => List.getElem?_set_ne (Ne.symm h))
  · rename_i ht
    have ht' : s._ledType = LED_TYPE_RGB := by
      rcases v1 with v1 | v1
      · exact absurd v1 ht
      · exact v1
    have hp : bouncePosition s.groupSize s._step < s.groupSize := by
      apply bouncePosition_lt
      · omega
      · omega
      · intro h
        exact hc ⟨ht', by omega, h.2⟩
    refine Iso.isoColors s _ ?_ ?_
    · rw [List.length_set]
      exact forUpTo_length _ _ _ _ (by simp)
    · intro j hj
      rw [List.getElem?_set_ne (by omega)]
      exact forUpTo_outside _ _ _ _
        (fun i b j _ _ h => List.getElem?_set_ne (Ne.symm h)) j hj

theorem iso_effectMeteor (fp : FloatOps) (s : VibeLED) (hv : s.Valid) :
    Iso s (s._effectMeteor fp) := by
  have hg := groupSize_eq s hv
  obtain ⟨_, _, _, v4, v5, _⟩ := hv
  unfold _effectMeteor
  simp only []
  apply forBelow_iso
  · exact Iso.isoIte _
      (Iso.statesLoop s _ (by simp) (fun i b j h => List.getElem?_set_ne (Ne.symm h)))
      (Iso.colorsLoop s _ (by simp) (fun i b j h => List.getElem?_set_ne (Ne.symm h)))
  · intro i t _ hf
    have e1 : t._groupStart = s._groupStart := hf.2.2.1
    have e2 : t._groupEnd = s._groupEnd := hf.2.2.2.1
    split
    · rename_i hidx
      exact Iso.isoIte _ (Iso.setState t _ _ (by omega) (by omega))
        (Iso.setColor t _ _ (by omega) (by omega))
    · exact Iso.isoRefl t

theorem iso_effectFire (s : VibeLED) (hv : s.Valid) : Iso s s._effectFire := by
  have hg := groupSize_eq s hv
  obtain ⟨_, _, _, v4, v5, _⟩ := hv
  unfold _effectFire
  simp only []
  refine Iso.isoIte _ ?_ ?_
  · have h0 : Iso s (match s.heat with
        | none => { s with heat := some (List.replicate s.groupSize 0) }
        | some _ => s) := by
      split
      · exact Iso.of_bufs (by simp [Frame]) rfl rfl
      · exact Iso.isoRefl s
    have h1 := forBelow_iso s.groupSize
      (fun i t =>
        if u8 (t.randomRange 0 (100 / s.groupSize + 2)).1 >
            (t.randomRange 0 (100 / s.groupSize + 2)).2.heatGet i then
          (t.randomRange 0 (100 / s.groupSize + 2)).2.heatSet i 0
        else
          (t.randomRange 0 (100 / s.groupSize + 2)).2.heatSet i
            (u8 (((t.randomRange 0 (100 / s.groupSize + 2)).2.heatGet i : Int) -
              u8 (t.randomRange 0 (100 / s.groupSize + 2)).1)))
      s _ h0
      (fun i t _ _ => Iso.isoIte _ ((Iso.isoRandomRange t _ _).isoTrans (Iso.isoHeatSet _ _ _))
        ((Iso.isoRandomRange t _ _).isoTrans (Iso.isoHeatSet _ _ _)))
    have h2 := forDownTo_iso (u16 ((s.groupSize : Int) - 1)) 2
      (fun i t =>
        t.heatSet i (u8 (((t.heatGet (i - 1) + t.heatGet (i - 2) + t.heatGet (i - 2)) / 3 : Nat))))
      s _ h1 (fun i t => Iso.isoHeatSet _ _ _)
    apply forBelow_iso
    · refine Iso.isoIte _ ?_ ?_
      · exact (h2.isoTrans (Iso.isoRandom _ _)).isoTrans ((Iso.isoRandom _ _).isoTrans
          ((Iso.isoRandomRange _ _ _).isoTrans (Iso.isoHeatSet _ _ _)))
      · exact h2.isoTrans (Iso.isoRandom _ _)
    · intro i t hi hf
      have e1 : t._groupStart = s._groupStart := hf.2.2.1
      have e2 : t._groupEnd = s._groupEnd := hf.2.2.2.1
      exact Iso.setColor t _ _ (by omega) (by omega)
  · apply forUpTo_iso _ _ _ _ _ (Iso.isoRefl s)
    intro i t hi1 hi2 hf
    have e1 : t._groupStart = s._groupStart := hf.2.2.1
    have e2 : t._groupEnd = s._groupEnd := hf.2.2.2.1
    refine (Iso.isoRandom t 100).isoTrans (Iso.setState _ _ _ ?_ ?_)
    · rw [(Frame.random t 100).2.2.1]
      omega
    · rw [(Frame.random t 100).2.2.2.1]
      omega

end VibeLED

namespace VibeLED

theorem iso_effectWaterfall (s : VibeLED) (hv : s.Valid) : Iso s s._effectWaterfall := by
  obtain ⟨_, _, _, v4, v5, _⟩ := hv
  have eS : (s.random 100).2._ledStates = s._ledStates := by
    unfold VibeLED.random
    split <;> rfl
  have eC : (s.random 100).2._ledColors = s._ledColors := by
    unfold VibeLED.random
    split <;> rfl
  have eg1 : (s.random 100).2._groupStart = s._groupStart := (Frame.random s 100).2.2.1
  have eg2 : (s.random 100).2._groupEnd = s._groupEnd := (Frame.random s 100).2.2.2.1
  unfold _effectWaterfall
  simp only []
  refine Iso.isoIte _ ?_ (Iso.isoIte _ ?_ ?_)
  · refine (Iso.isoRandom s 100).isoTrans (Iso.isoStates _ _ ?_ ?_)
    · rw [eS, List.length_set]
      exact forDownAbove_length _ _ _ _ (by simp)
    · intro j hj
      rw [eg1, eg2] at hj
      rw [eS, List.getElem?_set_ne (by omega)]
      exact forDownAbove_outside _ _ _ _
        (fun i b j _ _ h => List.getElem?_set_ne (Ne.symm h)) j hj
  · refine (Iso.isoRandom s 100).isoTrans (Iso.isoColors _ _ ?_ ?_)
    · rw [eC, List.length_set]
      exact forDownAbove_length _ _ _ _ (by simp)
    · intro j hj
      rw [eg1, eg2] at hj
      rw [eC, List.getElem?_set_ne (by omega)]
      exact forDownAbove_outside _ _ _ _
        (fun i b j _ _ h => List.getElem?_set_ne (Ne.symm h)) j hj
  · refine (Iso.isoRandom s 100).isoTrans (Iso.isoColors _ _ ?_ ?_)
    · rw [eC, List.length_set]
      exact forDownAbove_length _ _ _ _ (by simp)
    · intro j hj
      rw [eg1, eg2] at hj
      rw [eC, List.getElem?_set_ne (by omega)]
      exact forDownAbove_outside _ _ _ _
        (fun i b j _ _ h => List.getElem?_set_ne (Ne.symm h)) j hj

theorem iso_effectChase (s : VibeLED) : Iso s s._effectChase := by
  unfold _effectChase
  simp only []
  split
  · exact Iso.statesLoop s _ (by simp) (fun i b j h => List.getElem?_set_ne (Ne.symm h))
  · refine Iso.colorsLoop s _ ?_ ?_
    · intro i b
      split <;> simp
    · intro i b j h
      split <;> exact List.getElem?_set_ne (Ne.symm h)

theorem iso_fillUpTo (position : Nat) (s : VibeLED) : Iso s (fillUpTo position s) := by
  unfold fillUpTo
  split
  · exact Iso.statesLoop s _ (by simp) (fun i b j h => List.getElem?_set_ne (Ne.symm h))
  · refine Iso.colorsLoop s _ ?_ ?_
    · intro i b
      split <;> simp
    · intro i b j h
      split <;> exact List.getElem?_set_ne (Ne.symm h)

theorem iso_effectStack (s : VibeLED) : Iso s s._effectStack :=
  Iso.isoIte _ (iso_fillUpTo _ s) (iso_fillUpTo _ s)

theorem iso_effectRainbow (fp : FloatOps) (s : VibeLED) (hv : s.Valid) :
    Iso s (s._effectRainbow fp) := by
  have hg := groupSize_eq s hv
  obtain ⟨_, _, _, v4, v5, _⟩ := hv
  unfold _effectRainbow
  simp only []
  split
  · refine Iso.isoColors s _ (forBelow_length _ _ _ (by simp)) ?_
    intro j hj
    exact forBelow_outside _ s._groupStart _ _
      (fun i b j _ h => List.getElem?_set_ne (Ne.symm h)) j (by omega)
  · refine Iso.isoStates s _ (forBelow_length _ _ _ (by simp)) ?_
    intro j hj
    exact forBelow_outside _ s._groupStart _ _
      (fun i b j _ h => List.getElem?_set_ne (Ne.symm h)) j (by omega)

theorem random_lt (s : VibeLED) (n : Nat) (h : 0 < n) : (s.random n).1 < n := by
  unfold VibeLED.random
  rw [if_neg (by omega)]
  exact Nat.mod_lt _ h

theorem iso_effectSparkle (fp : FloatOps) (s : VibeLED) (hv : s.Valid) :
    Iso s (s._effectSparkle fp) := by
  have hg := groupSize_eq s hv
  obtain ⟨_, _, _, v4, v5, _⟩ := hv
  have hg' : ∀ t : VibeLED, Frame s t → t.groupSize = s.groupSize := by
    intro t hf
    unfold groupSize
    rw [hf.2.2.1, hf.2.2.2.1]
  unfold _effectSparkle
  simp only []
  have h0 : Iso s (if s._ledType = LED_TYPE_SINGLE then
      { s with _ledStates :=
          (forUpTo s._groupStart s._groupEnd (fun i b => b.set i false) s._ledStates) }
    else
      { s with _ledColors :=
          (forUpTo s._groupStart s._groupEnd
            (fun i b => b.set i (scaleColor fp (b.getD i ⟨0, 0, 0⟩) (fp.dec 8 1)))
            s._ledColors) }) :=
    Iso.isoIte _
      (Iso.statesLoop s _ (by simp) (fun i b j h => List.getElem?_set_ne (Ne.symm h)))
      (Iso.colorsLoop s _ (by simp) (fun i b j h => List.getElem?_set_ne (Ne.symm h)))
  rw [hg' _ h0.1]
  apply forBelow_iso _ _ _ _ h0
  intro i t _ hf
  have e1 : t._groupStart = s._groupStart := hf.2.2.1
  have e2 : t._groupEnd = s._groupEnd := hf.2.2.2.1
  have hr := random_lt t s.groupSize (by omega)
  have hu : u16 ((t.random s.groupSize).1 : Int) = (t.random s.groupSize).1 :=
    u16_of_lt _ (by omega)
  rw [hu]
  have f1 : (t.random s.groupSize).2._groupStart = s._groupStart :=
    (Frame.random t _).2.2.1.trans e1
  have f2 : (t.random s.groupSize).2._groupEnd = s._groupEnd :=
    (Frame.random t _).2.2.2.1.trans e2
  apply Iso.isoTrans (Iso.isoRandom t _)
  exact Iso.isoIte _ (Iso.setState _ _ _ (by omega) (by omega))
    (Iso.setColor _ _ _ (by omega) (by omega))

end VibeLED

namespace VibeLED

theorem iso_effectMarquee (s : VibeLED) (hv : s.Valid) : Iso s s._effectMarquee := by
  have hg := groupSize_eq s hv
  obtain ⟨_, _, _, v4, v5, _⟩ := hv
  unfold _effectMarquee
  simp only []
  apply forBelow_iso _ _ _ _ (Iso.isoRefl s)
  intro i t _ hf
  have e1 : t._groupStart = s._groupStart := hf.2.2.1
  have e2 : t._groupEnd = s._groupEnd := hf.2.2.2.1
  exact Iso.isoIte _ (Iso.setState _ _ _ (by omega) (by omega))
    (Iso.setColor _ _ _ (by omega) (by omega))

theorem iso_effectBounce (fp : FloatOps) (s : VibeLED) : Iso s (s._effectBounce fp) := by
  unfold _effectBounce
  simp only []
  split
  · exact Iso.statesLoop s _ (by simp) (fun i b j h => List.getElem?_set_ne (Ne.symm h))
  · refine Iso.colorsLoop s _ ?_ ?_
    · intro i b
      split <;> simp
    · intro i b j h
      split <;> exact List.getElem?_set_ne (Ne.symm h)

theorem iso_effectColorWipe (s : VibeLED) : Iso s s._effectColorWipe := by
  unfold _effectColorWipe
  simp only []
  refine Iso.isoIte _ (iso_fillUpTo _ s) (Iso.isoIte _ ?_ ?_)
  · exact Iso.statesLoop s _ (by simp) (fun i b j h => List.getElem?_set_ne (Ne.symm h))
  · refine Iso.colorsLoop s _ ?_ ?_
    · intro i b
      split <;> simp
    · intro i b j h
      split <;> exact List.getElem?_set_ne (Ne.symm h)

theorem iso_effectRandomBlink (s : VibeLED) (hv : s.Valid) : Iso s s._effectRandomBlink := by
  have hg := groupSize_eq s hv
  obtain ⟨_, _, _, v4, v5, _⟩ := hv
  unfold _effectRandomBlink
  simp only []
  refine Iso.isoIte _ ?_ (Iso.isoRefl s)
  apply forBelow_iso _ _ _ _ (Iso.isoRefl s)
  intro i t _ hf
  have e1 : t._groupStart = s._groupStart := hf.2.2.1
  have e2 : t._groupEnd = s._groupEnd := hf.2.2.2.1
  have r1 := Frame.random t 100
  have r2 := Frame.random (t.random 100).2 256
  have r3 := Frame.random ((t.random 100).2.random 256).2 256
  have r4 := Frame.random (((t.random 100).2.random 256).2.random 256).2 256
  have g1 := r1.2.2.1
  have g1' := r1.2.2.2.1
  have g2 := r2.2.2.1
  have g2' := r2.2.2.2.1
  have g3 := r3.2.2.1
  have g3' := r3.2.2.2.1
  have g4 := r4.2.2.1
  have g4' := r4.2.2.2.1
  refine Iso.isoIte _ ?_ (Iso.isoIte _ ?_ ?_)
  · exact (Iso.isoRandom t _).isoTrans (Iso.setState _ _ _ (by omega) (by omega))
  · exact (Iso.isoRandom t _).isoTrans ((Iso.isoRandom _ _).isoTrans ((Iso.isoRandom _ _).isoTrans
      ((Iso.isoRandom _ _).isoTrans (Iso.setColor _ _ _ (by omega) (by omega)))))
  · exact (Iso.isoRandom t _).isoTrans (Iso.setColor _ _ _ (by omega) (by omega))

theorem iso_effectSnake (fp : FloatOps) (s : VibeLED) (hv : s.Valid) :
    Iso s (s._effectSnake fp) := by
  have hg := groupSize_eq s hv
  obtain ⟨_, _, _, v4, v5, _⟩ := hv
  unfold _effectSnake
  simp only []
  apply forBelow_iso
  · exact Iso.isoIte _
      (Iso.statesLoop s _ (by simp) (fun i b j h => List.getElem?_set_ne (Ne.symm h)))
      (Iso.colorsLoop s _ (by simp) (fun i b j h => List.getElem?_set_ne (Ne.symm h)))
  · intro i t _ hf
    have e1 : t._groupStart = s._groupStart := hf.2.2.1
    have e2 : t._groupEnd = s._groupEnd := hf.2.2.2.1
    have hm : (t._step + i) % s.groupSize < s.groupSize := Nat.mod_lt _ (by omega)
    have hu : u16 (((t._step + i) % s.groupSize : Nat) : Int) = (t._step + i) % s.groupSize :=
      u16_of_lt _ (by omega)
    rw [hu]
    exact Iso.isoIte _ (Iso.setState _ _ _ (by omega) (by omega))
      (Iso.setColor _ _ _ (by omega) (by omega))

theorem iso_effectWave (fp : FloatOps) (s : VibeLED) (hv : s.Valid) :
    Iso s (s._effectWave fp) := by
  have hg := groupSize_eq s hv
  obtain ⟨_, _, _, v4, v5, _⟩ := hv
  unfold _effectWave
  simp only []
  apply forBelow_iso _ _ _ _ (Iso.isoRefl s)
  intro i t _ hf
  have e1 : t._groupStart = s._groupStart := hf.2.2.1
  have e2 : t._groupEnd = s._groupEnd := hf.2.2.2.1
  exact Iso.isoIte _ (Iso.setState _ _ _ (by omega) (by omega))
    (Iso.setColor _ _ _ (by omega) (by omega))

/-- Group isolation of the dispatcher's switch: on a valid strip every
algorithm leaves the elements outside the group as they were, except
`_effectCylon` on a COLOR strip with a one-element group at an odd step. -/
theorem iso_runEffect (fp : FloatOps) (e : Nat) (s : VibeLED) (hv : s.Valid)
    (hc : ¬ (e = EFFECT_CYLON ∧ s._ledType = LED_TYPE_RGB ∧ s._groupStart = s._groupEnd ∧
      s._step % 2 = 1)) :
    Iso s (runEffect fp e s) := by
  unfold runEffect
  refine Iso.isoIte _ (iso_effectNone s) <| Iso.isoIte _ (iso_effectStatic s) <|
    Iso.isoIte _ (iso_effectBlink s) <| Iso.isoIte _ (iso_applyIntensity fp _ s) <|
    Iso.isoIte _ (iso_applyIntensity fp _ s) <| Iso.isoIte _ (iso_effectFadeIn fp s) <|
    Iso.isoIte _ (iso_effectFadeOut fp s) <| Iso.isoIte _ (iso_effectKnightRider fp s) <| ?_
  by_cases he : e = EFFECT_CYLON
  · rw [if_pos he]
    exact iso_effectCylon fp s hv (fun h => hc ⟨he, h⟩)
  · rw [if_neg he]
    exact Iso.isoIte _ (iso_effectMeteor fp s hv) <| Iso.isoIte _ (iso_effectFire s hv) <|
      Iso.isoIte _ (iso_effectWaterfall s hv) <| Iso.isoIte _ (iso_effectChase s) <|
      Iso.isoIte _ (iso_effectStack s) <| Iso.isoIte _ (iso_effectRainbow fp s hv) <|
      Iso.isoIte _ (iso_effectSparkle fp s hv) <| Iso.isoIte _ (iso_effectMarquee s hv) <|
      Iso.isoIte _ (iso_effectBounce fp s) <| Iso.isoIte _ (iso_effectColorWipe s) <|
      Iso.isoIte _ (iso_effectRandomBlink s hv) <| Iso.isoIte _ (iso_effectSnake fp s hv) <|
      Iso.isoIte _ (iso_effectWave fp s hv) <| iso_effectNone s

/-- Group isolation of `_updateEffect`: on a valid strip one dispatcher call
leaves every buffer element outside `[_groupStart, _groupEnd]` unchanged, unless
the effect is CYLON on a COLOR strip with a one-element group at an odd step. -/
theorem updateEffect_isolated (fp : FloatOps) (s : VibeLED) (hv : s.Valid)
    (hc : ¬ (s._currentEffect = EFFECT_CYLON ∧ s._ledType = LED_TYPE_RGB ∧
      s._groupStart = s._groupEnd ∧ s._step % 2 = 1))
    (j : Nat) (hj : j < s._groupStart ∨ s._groupEnd < j) :
    (s._updateEffect fp)._ledStates[j]? = s._ledStates[j]? ∧
    (s._updateEffect fp)._ledColors[j]? = s._ledColors[j]? :=
  (iso_runEffect fp s._currentEffect s hv hc).2 j hj

end VibeLED

/-! ## Position functions of the cycling effects -/

namespace VibeLED

theorem succ_mod_cases (s l : Nat) (hl : 0 < l) :
    (s % l + 1 < l ∧ (s + 1) % l = s % l + 1) ∨ (s % l + 1 = l ∧ (s + 1) % l = 0) := by
  have hm : s % l < l := Nat.mod_lt _ hl
  rw [Nat.add_mod]
  by_cases h1 : l = 1
  · subst h1
    right
    simp [Nat.mod_one]
  · have h1' : 1 % l = 1 := Nat.mod_eq_of_lt (by omega)
    rw [h1']
    by_cases h : s % l + 1 < l
    · left
      exact ⟨h, Nat.mod_eq_of_lt h⟩
    · right
      have e : s % l + 1 = l := by omega
      exact ⟨e, by rw [e, Nat.mod_self]⟩

theorem bouncePosition_eq_spec (n s : Nat) (hn : 2 ≤ n) (hn2 : n ≤ 32768) :
    bouncePosition n s = bounceSpec n s := by
  have hc : bounceCycleLength n = 2 * n - 2 := by
    unfold bounceCycleLength u16
    split_ifs <;> omega
  have hm : s % (2 * n - 2) < 2 * n - 2 := Nat.mod_lt _ (by omega)
  unfold bouncePosition bounceSpec
  simp only [hc]
  generalize s % (2 * n - 2) = c at hm
  unfold u16
  split_ifs <;> omega

theorem bounceSpec_props (n s : Nat) (hn : 2 ≤ n) :
    bounceSpec n s ≤ n - 1 ∧
    bounceSpec n (s + (2 * n - 2)) = bounceSpec n s ∧
    (bounceSpec n (s + 1) = bounceSpec n s + 1 ∨ bounceSpec n (s + 1) + 1 = bounceSpec n s) ∧
    (bounceSpec n (s + 1) = bounceSpec n s + 1 → bounceSpec n (s + 2) + 1 = bounceSpec n (s + 1) →
      bounceSpec n (s + 1) = n - 1) ∧
    (bounceSpec n (s + 1) + 1 = bounceSpec n s → bounceSpec n (s + 2) = bounceSpec n (s + 1) + 1 →
      bounceSpec n (s + 1) = 0) := by
  have hl : 0 < 2 * n - 2 := by omega
  have hm : s % (2 * n - 2) < 2 * n - 2 := Nat.mod_lt _ hl
  have h1 := succ_mod_cases s (2 * n - 2) hl
  have h2 := succ_mod_cases (s + 1) (2 * n - 2) hl
  have hp : (s + (2 * n - 2)) % (2 * n - 2) = s % (2 * n - 2) := Nat.add_mod_right _ _
  unfold bounceSpec
  rw [hp]
  have e2 : s + 2 = s + 1 + 1 := rfl
  rw [e2]
  generalize (s + 1 + 1) % (2 * n - 2) = c2 at h2
  generalize (s + 1) % (2 * n - 2) = c1 at h1 h2
  generalize s % (2 * n - 2) = c at h1 hm
  refine ⟨?_, rfl, ?_, ?_, ?_⟩
  · split_ifs <;> omega
  · split_ifs <;> omega
  · split_ifs <;> omega
  · split_ifs <;> omega

/-- C18: for a group of `N ≥ 2` elements and a step `s` with `s + 2N - 2 < 2^16`,
the position computed by `_effectKnightRider` is the `p(s)` of the
specification (`c` if `c < N`, else `(2N - 2) - c`, with `c = s mod (2N - 2)`);
it lies in `[0, N - 1]`, has period `2N - 2`, moves by exactly one element per
tick, and changes direction only at position `N - 1` (after rising) and at
position `0` (after falling). -/
theorem knightRider_bounce (n s : Nat) (hn : 2 ≤ n) (hs : s + 2 * n - 2 < 65536) :
    bouncePosition n s = bounceSpec n s ∧
    (0 ≤ bouncePosition n s ∧ bouncePosition n s ≤ n - 1) ∧
    bouncePosition n (s + (2 * n - 2)) = bouncePosition n s ∧
    (bouncePosition n (s + 1) = bouncePosition n s + 1 ∨
      bouncePosition n (s + 1) + 1 = bouncePosition n s) ∧
    (bouncePosition n (s + 1) = bouncePosition n s + 1 →
      bouncePosition n (s + 2) + 1 = bouncePosition n (s + 1) →
      bouncePosition n (s + 1) = n - 1) ∧
    (bouncePosition n (s + 1) + 1 = bouncePosition n s →
      bouncePosition n (s + 2) = bouncePosition n (s + 1) + 1 →
      bouncePosition n (s + 1) = 0) := by
  have hn2 : n ≤ 32768 := by omega
  rw [bouncePosition_eq_spec n s hn hn2, bouncePosition_eq_spec n (s + 1) hn hn2,
    bouncePosition_eq_spec n (s + 2) hn hn2, bouncePosition_eq_spec n (s + (2 * n - 2)) hn hn2]
  obtain ⟨a1, a2, a3, a4, a5⟩ := bounceSpec_props n s hn
  exact ⟨rfl, ⟨Nat.zero_le _, a1⟩, a2, a3, a4, a5⟩

theorem knightRider_bounce_witness :
    (2 ≤ 5 ∧ 7 + 2 * 5 - 2 < 65536) ∧
    bouncePosition 5 7 = 1 ∧ bouncePosition 5 (7 + 1) = 0 ∧ bouncePosition 5 (7 + 2) = 1 ∧
    bouncePosition 5 (7 + (2 * 5 - 2)) = bouncePosition 5 7 :=
  ⟨by decide, by decide, by decide, by decide,
    (knightRider_bounce 5 7 (by decide) (by decide)).2.2.1⟩

end VibeLED


namespace VibeLED

/-- On a valid BINARY strip `_effectKnightRider` and `_effectCylon` light exactly
the element at `_groupStart + position`, which lies in the group, unless the
group has one element and the step is odd. -/
theorem bounce_binary_lights_one (fp : FloatOps) (s : VibeLED) (hv : s.Valid)
    (ht : s._ledType = LED_TYPE_SINGLE)
    (hc : ¬ (s._groupStart = s._groupEnd ∧ s._step % 2 = 1)) :
    bouncePosition s.groupSize s._step < s.groupSize ∧
    ∀ i, s._groupStart ≤ i → i ≤ s._groupEnd →
      (s._effectKnightRider fp)._ledStates[i]? =
        some (decide (i = s._groupStart + bouncePosition s.groupSize s._step)) ∧
      (s._effectCylon fp)._ledStates[i]? =
        some (decide (i = s._groupStart + bouncePosition s.groupSize s._step)) := by
  have hg := groupSize_eq s hv
  obtain ⟨_, _, _, v4, v5, v6, _⟩ := hv
  have hl := v6 ht
  constructor
  · apply bouncePosition_lt
    · omega
    · omega
    · intro h
      exact hc ⟨by omega, h.2⟩
  · intro i hi1 hi2
    constructor
    · unfold _effectKnightRider
      simp only []
      rw [if_pos ht]
      exact forUpTo_set_inside _ _ _ _ _ hi1 hi2 (by omega)
    · unfold _effectCylon
      simp only []
      rw [if_pos ht]
      exact forUpTo_set_inside _ _ _ _ _ hi1 hi2 (by omega)

/-- C16 (code defect): the state `knightInput` is reached through the public
interface (3-element BINARY strip, `begin`, `setGroup(1, 1)`,
`setEffect(EFFECT_KNIGHT_RIDER)`, one due `update`); it is valid and its group
has one element.  At its step 1 the position computed by `_effectKnightRider`
and `_effectCylon` is 1, outside `[0, N - 1] = [0, 0]`, and after either call no
element of the strip is lit. -/
theorem bounce_one_element_group_dark (fp : FloatOps) :
    (mkSingle 13 3 (fun _ => false) (fun _ => 0)).calls fp
      [Op.begin, Op.setGroup 1 1, Op.setEffect EFFECT_KNIGHT_RIDER, Op.update 100] =
        knightInput ∧
    knightInput.Valid ∧ knightInput.groupSize = 1 ∧
    bouncePosition knightInput.groupSize knightInput._step = 1 ∧
    (knightInput._effectKnightRider fp)._ledStates = [false, false, false] ∧
    (knightInput._effectCylon fp)._ledStates = [false, false, false] ∧
    (knightInput._updateEffect fp)._ledStates = [false, false, false] :=
  ⟨rfl, by decide, by decide, by decide, rfl, rfl, rfl⟩

end VibeLED


namespace VibeLED

theorem valid_updateEffect (fp : FloatOps) (s : VibeLED) (hv : s.Valid) :
    (s._updateEffect fp).Valid := by
  obtain ⟨f1, f2, f3, f4, _, _, _, f8, f9⟩ := frame_updateEffect fp s
  have hs := updateEffect_step fp s
  obtain ⟨v1, v2, v3, v4, v5, v6, v7, _⟩ := hv
  refine ⟨by rw [f1]; exact v1, by rw [f2]; exact v2, by rw [f2]; exact v3,
    by rw [f3, f4]; exact v4, by rw [f4, f2]; exact v5, ?_, ?_, ?_⟩
  · intro h
    rw [f8, f2]
    exact v6 (f1 ▸ h)
  · intro h
    rw [f9, f2]
    exact v7 (f1 ▸ h)
  · rw [hs]
    exact Nat.mod_lt _ (by decide)

theorem updateEffect_chase (fp : FloatOps) (s : VibeLED) (he : s._currentEffect = EFFECT_CHASE) :
    (s._updateEffect fp)._ledStates = s._effectChase._ledStates ∧
    (s._updateEffect fp)._ledColors = s._effectChase._ledColors ∧
    (s._updateEffect fp)._currentEffect = EFFECT_CHASE := by
  unfold _updateEffect
  rw [he, runEffect_chase]
  exact ⟨rfl, rfl, (effectChase_currentEffect s).trans he⟩

/-- Element-wise description of the frame of `_effectChase` on a valid strip. -/
theorem effectChase_elem (s : VibeLED) (hv : s.Valid) (i : Nat) (hi1 : s._groupStart ≤ i)
    (hi2 : i ≤ s._groupEnd) :
    (s._ledType = LED_TYPE_SINGLE →
      s._effectChase._ledStates[i]? =
        some (decide (i = s._groupStart + s._step % (s._groupEnd - s._groupStart + 1)))) ∧
    (s._ledType = LED_TYPE_RGB →
      s._effectChase._ledColors[i]? =
        some (if i = s._groupStart + s._step % (s._groupEnd - s._groupStart + 1) then
          s._effectParams.color1 else ⟨0, 0, 0⟩)) := by
  have hp := chase_position s hv
  obtain ⟨_, _, h3, h4, h5, h6, h7, _⟩ := hv
  constructor
  · intro ht
    have hl := h6 ht
    rw [effectChase_states s ht, hp]
    exact forUpTo_set_inside _ _ _ _ _ hi1 hi2 (by omega)
  · intro ht
    have hl := h7 ht
    have ht' : ¬ s._ledType = LED_TYPE_SINGLE := by
      rw [ht]
      decide
    rw [effectChase_colors s ht', hp]
    exact forUpTo_set_inside _ _ _ _ _ hi1 hi2 (by omega)

/-- The state after `k` dispatcher calls of a running CHASE, as long as the step
counter does not wrap. -/
theorem chase_iterate_state (fp : FloatOps) (s : VibeLED) (hv : s.Valid)
    (he : s._currentEffect = EFFECT_CHASE) (k : Nat) (hk : s._step + k < 65536) :
    ((fun t => _updateEffect fp t)^[k] s).Valid ∧
    ((fun t => _updateEffect fp t)^[k] s)._currentEffect = EFFECT_CHASE ∧
    ((fun t => _updateEffect fp t)^[k] s)._step = s._step + k ∧
    ((fun t => _updateEffect fp t)^[k] s)._ledType = s._ledType ∧
    ((fun t => _updateEffect fp t)^[k] s)._groupStart = s._groupStart ∧
    ((fun t => _updateEffect fp t)^[k] s)._groupEnd = s._groupEnd ∧
    ((fun t => _updateEffect fp t)^[k] s)._effectParams = s._effectParams := by
  induction k with
  | zero => exact ⟨hv, he, rfl, rfl, rfl, rfl, rfl⟩
  | succ k ih =>
    obtain ⟨a1, a2, a3, a4, a5, a6, a7⟩ := ih (by omega)
    rw [Function.iterate_succ_apply']
    obtain ⟨f1, _, f3, f4, f5, _⟩ := frame_updateEffect fp ((fun t => _updateEffect fp t)^[k] s)
    refine ⟨valid_updateEffect fp _ a1, (updateEffect_chase fp _ a2).2.2, ?_, f1.trans a4,
      f3.trans a5, f4.trans a6, f5.trans a7⟩
    show (_updateEffect fp ((fun t => _updateEffect fp t)^[k] s))._step = s._step + (k + 1)
    rw [updateEffect_step, a3]
    omega

/-- The frame after `k + 1` dispatcher calls of a running CHASE lights the
element at relative position `(step + k) mod N`. -/
theorem chase_frame_after (fp : FloatOps) (s : VibeLED) (hv : s.Valid)
    (he : s._currentEffect = EFFECT_CHASE) (k : Nat) (hk : s._step + k < 65536)
    (i : Nat) (hi1 : s._groupStart ≤ i) (hi2 : i ≤ s._groupEnd) :
    (s._ledType = LED_TYPE_SINGLE →
      ((fun t => _updateEffect fp t)^[k + 1] s)._ledStates[i]? =
        some (decide (i = s._groupStart +
          (s._step + k) % (s._groupEnd - s._groupStart + 1)))) ∧
    (s._ledType = LED_TYPE_RGB →
      ((fun t => _updateEffect fp t)^[k + 1] s)._ledColors[i]? =
        some (if i = s._groupStart + (s._step + k) % (s._groupEnd - s._groupStart + 1) then
          s._effectParams.color1 else ⟨0, 0, 0⟩)) := by
  obtain ⟨a1, a2, a3, a4, a5, a6, a7⟩ := chase_iterate_state fp s hv he k hk
  obtain ⟨u1, u2, _⟩ := updateEffect_chase fp _ a2
  have e := effectChase_elem _ a1 i (by rw [a5]; exact hi1) (by rw [a6]; exact hi2)
  rw [a3, a4, a5, a6, a7] at e
  rw [Function.iterate_succ_apply']
  constructor
  · intro ht
    have := e.1 ht
    rw [← u1] at this
    exact this
  · intro ht
    have := e.2 ht
    rw [← u2] at this
    exact this

end VibeLED


namespace VibeLED

/-- Reducing a wrapped step counter modulo `n` agrees with reducing the
unwrapped count iff the counter did not wrap or `n` divides `2^16`. -/
theorem wrap_mod_iff (a n : Nat) (h : a < 131072) :
    (a % 65536) % n = a % n ↔ (a < 65536 ∨ n ∣ 65536) := by
  by_cases h1 : a < 65536
  · rw [Nat.mod_eq_of_lt h1]
    exact ⟨fun _ => Or.inl h1, fun _ => rfl⟩
  · have e : a % 65536 = a - 65536 := by omega
    rw [e]
    have hd : (a - 65536) % n = a % n ↔ n ∣ a - (a - 65536) :=
      Nat.modEq_iff_dvd' (Nat.sub_le a 65536)
    have e2 : a - (a - 65536) = 65536 := by omega
    rw [e2] at hd
    constructor
    · intro hm
      exact Or.inr (hd.1 hm)
    · intro hm
      rcases hm with hm | hm
      · exact absurd hm h1
      · exact hd.2 hm

/-- The state after `k` dispatcher calls of a running CHASE, with the 16-bit
wrap of the step counter. -/
theorem chase_iterate_wrap (fp : FloatOps) (s : VibeLED) (hv : s.Valid)
    (he : s._currentEffect = EFFECT_CHASE) (k : Nat) :
    ((fun t => _updateEffect fp t)^[k] s).Valid ∧
    ((fun t => _updateEffect fp t)^[k] s)._currentEffect = EFFECT_CHASE ∧
    ((fun t => _updateEffect fp t)^[k] s)._step = (s._step + k) % 65536 ∧
    ((fun t => _updateEffect fp t)^[k] s)._ledType = s._ledType ∧
    ((fun t => _updateEffect fp t)^[k] s)._groupStart = s._groupStart ∧
    ((fun t => _updateEffect fp t)^[k] s)._groupEnd = s._groupEnd ∧
    ((fun t => _updateEffect fp t)^[k] s)._effectParams = s._effectParams := by
  induction k with
  | zero =>
    refine ⟨hv, he, ?_, rfl, rfl, rfl, rfl⟩
    have := hv.2.2.2.2.2.2.2
    show s._step = (s._step + 0) % 65536
    omega
  | succ k ih =>
    obtain ⟨a1, a2, a3, a4, a5, a6, a7⟩ := ih
    rw [Function.iterate_succ_apply']
    obtain ⟨f1, _, f3, f4, f5, _⟩ := frame_updateEffect fp ((fun t => _updateEffect fp t)^[k] s)
    refine ⟨valid_updateEffect fp _ a1, (updateEffect_chase fp _ a2).2.2, ?_, f1.trans a4,
      f3.trans a5, f4.trans a6, f5.trans a7⟩
    show (_updateEffect fp ((fun t => _updateEffect fp t)^[k] s))._step =
      (s._step + (k + 1)) % 65536
    rw [updateEffect_step, a3]
    omega

/-- The frame after `k + 1` dispatcher calls of a running CHASE lights the
element at relative position `((step + k) mod 2^16) mod N`. -/
theorem chase_frame_wrap (fp : FloatOps) (s : VibeLED) (hv : s.Valid)
    (he : s._currentEffect = EFFECT_CHASE) (k : Nat)
    (i : Nat) (hi1 : s._groupStart ≤ i) (hi2 : i ≤ s._groupEnd) :
    (s._ledType = LED_TYPE_SINGLE →
      ((fun t => _updateEffect fp t)^[k + 1] s)._ledStates[i]? =
        some (decide (i = s._groupStart +
          ((s._step + k) % 65536) % (s._groupEnd - s._groupStart + 1)))) ∧
    (s._ledType = LED_TYPE_RGB →
      ((fun t => _updateEffect fp t)^[k + 1] s)._ledColors[i]? =
        some (if i = s._groupStart +
            ((s._step + k) % 65536) % (s._groupEnd - s._groupStart + 1) then
          s._effectParams.color1 else ⟨0, 0, 0⟩)) := by
  obtain ⟨a1, a2, a3, a4, a5, a6, a7⟩ := chase_iterate_wrap fp s hv he k
  obtain ⟨u1, u2, _⟩ := updateEffect_chase fp _ a2
  have e := effectChase_elem _ a1 i (by rw [a5]; exact hi1) (by rw [a6]; exact hi2)
  rw [a3, a4, a5, a6, a7] at e
  rw [Function.iterate_succ_apply']
  constructor
  · intro ht
    have := e.1 ht
    rw [← u1] at this
    exact this
  · intro ht
    have := e.2 ht
    rw [← u2] at this
    exact this

/-- C11 (amended): with CHASE running on a valid strip of group size
`N = _groupEnd - _groupStart + 1` at the 16-bit step `s`, for every group
element and both modes (BINARY: on iff at the position; COLOR: `color1` there,
black elsewhere): the first dispatcher call lights relative position `s mod N`;
the second call lights `((s + 1) mod 2^16) mod N`; the call after `N` further
calls lights `((s + N) mod 2^16) mod N`.  The second position is
`(s mod N + 1) mod N` iff `s + 1 < 2^16` or `N` divides `2^16`, and the position
after `N` further calls is `s mod N` again iff `s + N < 2^16` or `N` divides
`2^16`; in those cases the frames are stated with these positions.  At
`s = 65535` the second call lights position 0, which is one step after
`65535 mod N` iff `N` divides `2^16`. -/
theorem chase_advances (fp : FloatOps) (s : VibeLED) (hv : s.Valid)
    (he : s._currentEffect = EFFECT_CHASE) :
    (∀ i, s._groupStart ≤ i → i ≤ s._groupEnd →
      (s._ledType = LED_TYPE_SINGLE →
        (s._updateEffect fp)._ledStates[i]? =
          some (decide (i = s._groupStart +
            s._step % (s._groupEnd - s._groupStart + 1))) ∧
        ((s._updateEffect fp)._updateEffect fp)._ledStates[i]? =
          some (decide (i = s._groupStart +
            ((s._step + 1) % 65536) % (s._groupEnd - s._groupStart + 1))) ∧
        ((fun t => _updateEffect fp t)^[s._groupEnd - s._groupStart + 1]
          (s._updateEffect fp))._ledStates[i]? =
          some (decide (i = s._groupStart +
            ((s._step + (s._groupEnd - s._groupStart + 1)) % 65536) %
              (s._groupEnd - s._groupStart + 1)))) ∧
      (s._ledType = LED_TYPE_RGB →
        (s._updateEffect fp)._ledColors[i]? =
          some (if i = s._groupStart + s._step % (s._groupEnd - s._groupStart + 1) then
            s._effectParams.color1 else ⟨0, 0, 0⟩) ∧
        ((s._updateEffect fp)._updateEffect fp)._ledColors[i]? =
          some (if i = s._groupStart +
              ((s._step + 1) % 65536) % (s._groupEnd - s._groupStart + 1) then
            s._effectParams.color1 else ⟨0, 0, 0⟩) ∧
        ((fun t => _updateEffect fp t)^[s._groupEnd - s._groupStart + 1]
          (s._updateEffect fp))._ledColors[i]? =
          some (if i = s._groupStart +
              ((s._step + (s._groupEnd - s._groupStart + 1)) % 65536) %
                (s._groupEnd - s._groupStart + 1) then
            s._effectParams.color1 else ⟨0, 0, 0⟩))) ∧
    (((s._step + 1) % 65536) % (s._groupEnd - s._groupStart + 1) =
        (s._step % (s._groupEnd - s._groupStart + 1) + 1) % (s._groupEnd - s._groupStart + 1) ↔
      (s._step + 1 < 65536 ∨ (s._groupEnd - s._groupStart + 1) ∣ 65536)) ∧
    (((s._step + (s._groupEnd - s._groupStart + 1)) % 65536) %
        (s._groupEnd - s._groupStart + 1) = s._step % (s._groupEnd - s._groupStart + 1) ↔
      (s._step + (s._groupEnd - s._groupStart + 1) < 65536 ∨
        (s._groupEnd - s._groupStart + 1) ∣ 65536)) ∧
    ((s._step + 1 < 65536 ∨ (s._groupEnd - s._groupStart + 1) ∣ 65536) →
      ∀ i, s._groupStart ≤ i → i ≤ s._groupEnd →
        (s._ledType = LED_TYPE_SINGLE →
          ((s._updateEffect fp)._updateEffect fp)._ledStates[i]? =
            some (decide (i = s._groupStart +
              (s._step % (s._groupEnd - s._groupStart + 1) + 1) %
                (s._groupEnd - s._groupStart + 1)))) ∧
        (s._ledType = LED_TYPE_RGB →
          ((s._updateEffect fp)._updateEffect fp)._ledColors[i]? =
            some (if i = s._groupStart +
                (s._step % (s._groupEnd - s._groupStart + 1) + 1) %
                  (s._groupEnd - s._groupStart + 1) then
              s._effectParams.color1 else ⟨0, 0, 0⟩))) ∧
    ((s._step + (s._groupEnd - s._groupStart + 1) < 65536 ∨
        (s._groupEnd - s._groupStart + 1) ∣ 65536) →
      ∀ i, s._groupStart ≤ i → i ≤ s._groupEnd →
        (s._ledType = LED_TYPE_SINGLE →
          ((fun t => _updateEffect fp t)^[s._groupEnd - s._groupStart + 1]
            (s._updateEffect fp))._ledStates[i]? =
            some (decide (i = s._groupStart +
              s._step % (s._groupEnd - s._groupStart + 1)))) ∧
        (s._ledType = LED_TYPE_RGB →
          ((fun t => _updateEffect fp t)^[s._groupEnd - s._groupStart + 1]
            (s._updateEffect fp))._ledColors[i]? =
            some (if i = s._groupStart + s._step % (s._groupEnd - s._groupStart + 1) then
              s._effectParams.color1 else ⟨0, 0, 0⟩))) ∧
    (s._step = 65535 →
      ((s._step + 1) % 65536) % (s._groupEnd - s._groupStart + 1) = 0 ∧
      ((s._step % (s._groupEnd - s._groupStart + 1) + 1) % (s._groupEnd - s._groupStart + 1) = 0 ↔
        (s._groupEnd - s._groupStart + 1) ∣ 65536)) := by
  have hs : s._step < 65536 := hv.2.2.2.2.2.2.2
  have hN : s._groupEnd - s._groupStart + 1 < 65536 := by
    obtain ⟨_, _, h3, h4, h5, _⟩ := hv
    omega
  have hmod1 : (s._step + 1) % (s._groupEnd - s._groupStart + 1) =
      (s._step % (s._groupEnd - s._groupStart + 1) + 1) % (s._groupEnd - s._groupStart + 1) := by
    rw [Nat.add_mod]
    simp
  have hmodN : (s._step + (s._groupEnd - s._groupStart + 1)) %
      (s._groupEnd - s._groupStart + 1) = s._step % (s._groupEnd - s._groupStart + 1) :=
    Nat.add_mod_right _ _
  have hiff1 := wrap_mod_iff (s._step + 1) (s._groupEnd - s._groupStart + 1) (by omega)
  have hiffN := wrap_mod_iff (s._step + (s._groupEnd - s._groupStart + 1))
    (s._groupEnd - s._groupStart + 1) (by omega)
  rw [hmod1] at hiff1
  rw [hmodN] at hiffN
  have hframes : ∀ i, s._groupStart ≤ i → i ≤ s._groupEnd →
      (s._ledType = LED_TYPE_SINGLE →
        (s._updateEffect fp)._ledStates[i]? =
          some (decide (i = s._groupStart +
            s._step % (s._groupEnd - s._groupStart + 1))) ∧
        ((s._updateEffect fp)._updateEffect fp)._ledStates[i]? =
          some (decide (i = s._groupStart +
            ((s._step + 1) % 65536) % (s._groupEnd - s._groupStart + 1))) ∧
        ((fun t => _updateEffect fp t)^[s._groupEnd - s._groupStart + 1]
          (s._updateEffect fp))._ledStates[i]? =
          some (decide (i = s._groupStart +
            ((s._step + (s._groupEnd - s._groupStart + 1)) % 65536) %
              (s._groupEnd - s._groupStart + 1)))) ∧
      (s._ledType = LED_TYPE_RGB →
        (s._updateEffect fp)._ledColors[i]? =
          some (if i = s._groupStart + s._step % (s._groupEnd - s._groupStart + 1) then
            s._effectParams.color1 else ⟨0, 0, 0⟩) ∧
        ((s._updateEffect fp)._updateEffect fp)._ledColors[i]? =
          some (if i = s._groupStart +
              ((s._step + 1) % 65536) % (s._groupEnd - s._groupStart + 1) then
            s._effectParams.color1 else ⟨0, 0, 0⟩) ∧
        ((fun t => _updateEffect fp t)^[s._groupEnd - s._groupStart + 1]
          (s._updateEffect fp))._ledColors[i]? =
          some (if i = s._groupStart +
              ((s._step + (s._groupEnd - s._groupStart + 1)) % 65536) %
                (s._groupEnd - s._groupStart + 1) then
            s._effectParams.color1 else ⟨0, 0, 0⟩)) := by
    intro i hi1 hi2
    have h0 := chase_frame_wrap fp s hv he 0 i hi1 hi2
    have h1 := chase_frame_wrap fp s hv he 1 i hi1 hi2
    have hN := chase_frame_wrap fp s hv he (s._groupEnd - s._groupStart + 1) i hi1 hi2
    have e0 : (s._step + 0) % 65536 = s._step := by omega
    rw [e0] at h0
    rw [Function.iterate_succ_apply] at hN
    exact ⟨fun ht => ⟨h0.1 ht, h1.1 ht, hN.1 ht⟩, fun ht => ⟨h0.2 ht, h1.2 ht, hN.2 ht⟩⟩
  refine ⟨hframes, hiff1, hiffN, ?_, ?_, ?_⟩
  · intro hc i hi1 hi2
    obtain ⟨hb, hr⟩ := hframes i hi1 hi2
    constructor
    · intro ht
      have := (hb ht).2.1
      rw [hiff1.2 hc] at this
      exact this
    · intro ht
      have := (hr ht).2.1
      rw [hiff1.2 hc] at this
      exact this
  · intro hc i hi1 hi2
    obtain ⟨hb, hr⟩ := hframes i hi1 hi2
    constructor
    · intro ht
      have := (hb ht).2.2
      rw [hiffN.2 hc] at this
      exact this
    · intro ht
      have := (hr ht).2.2
      rw [hiffN.2 hc] at this
      exact this
  · intro h65
    have e0 : ((s._step + 1) % 65536) % (s._groupEnd - s._groupStart + 1) = 0 := by
      rw [h65]
      rfl
    refine ⟨e0, ?_⟩
    rw [← e0]
    constructor
    · intro h
      rcases hiff1.1 h.symm with h' | h'
      · omega
      · exact h'
    · intro h
      exact (hiff1.2 (Or.inr h)).symm

theorem chase_advances_witness :
    ((sampleSingle.setEffect EFFECT_CHASE).Valid ∧
      (sampleSingle.setEffect EFFECT_CHASE)._currentEffect = EFFECT_CHASE) ∧
    (((sampleSingle.setEffect EFFECT_CHASE)._updateEffect hostFloat)._updateEffect
      hostFloat)._ledStates[1]? = some true ∧
    (chaseWrapInput.Valid ∧ chaseWrapInput._currentEffect = EFFECT_CHASE ∧
      chaseWrapInput._step = 65535) ∧
    ((chaseWrapInput._updateEffect hostFloat)._updateEffect hostFloat)._ledStates[0]? =
      some true ∧
    ¬ (chaseWrapInput._groupEnd - chaseWrapInput._groupStart + 1) ∣ 65536 ∧
    (chaseWrapInput._step % (chaseWrapInput._groupEnd - chaseWrapInput._groupStart + 1) + 1) %
      (chaseWrapInput._groupEnd - chaseWrapInput._groupStart + 1) ≠ 0 :=
  ⟨⟨by decide, by decide⟩,
    ((((chase_advances hostFloat (sampleSingle.setEffect EFFECT_CHASE) (by decide)
      (by decide)).1 1 (by decide) (by decide)).1 (by decide)).2.1).trans (by decide),
    ⟨by decide, by decide, by decide⟩,
    ((((chase_advances hostFloat chaseWrapInput (by decide) (by decide)).1 0 (by decide)
      (by decide)).1 (by decide)).2.1).trans (by decide),
    by decide,
    fun h => absurd (((chase_advances hostFloat chaseWrapInput (by decide)
      (by decide)).2.2.2.2.2 (by decide)).2.1 h) (by decide)⟩

theorem chase_wrap_counterexample :
    chaseWrapInput.Valid ∧ chaseWrapInput._currentEffect = EFFECT_CHASE ∧
    chaseWrapInput._step = 65535 ∧
    (chaseWrapInput._updateEffect hostFloat)._step = 0 ∧
    (chaseWrapInput._updateEffect hostFloat)._ledStates = [true, false, false] ∧
    ((chaseWrapInput._updateEffect hostFloat)._updateEffect hostFloat)._ledStates =
      [true, false, false] ∧
    ((chaseWrapInput._updateEffect hostFloat)._updateEffect hostFloat)._ledStates[(0 + 1) % 3]? =
      some false := by
  decide

end VibeLED


theorem forUpTo_ite_set {α : Type} (lo hi : Nat) (c : Nat → Prop) [DecidablePred c] (x y : α)
    (buf : List α) :
    forUpTo lo hi (fun i b => if c i then b.set i x else b.set i y) buf =
      forUpTo lo hi (fun i b => b.set i (if c i then x else y)) buf := by
  congr 1
  funext i b
  by_cases h : c i
  · rw [if_pos h, if_pos h]
  · rw [if_neg h, if_neg h]

namespace VibeLED

/-- Element-wise description of the loop `fillUpTo` on a valid strip. -/
theorem fillUpTo_elem (position : Nat) (s : VibeLED) (hv : s.Valid) (i : Nat)
    (hi1 : s._groupStart ≤ i) (hi2 : i ≤ s._groupEnd) :
    (s._ledType = LED_TYPE_SINGLE →
      (fillUpTo position s)._ledStates[i]? = some (decide (i ≤ s._groupStart + position))) ∧
    (s._ledType = LED_TYPE_RGB →
      (fillUpTo position s)._ledColors[i]? =
        some (if i ≤ s._groupStart + position then s._effectParams.color1 else ⟨0, 0, 0⟩)) := by
  obtain ⟨_, _, h3, h4, h5, h6, h7, _⟩ := hv
  constructor
  · intro ht
    have hl := h6 ht
    unfold fillUpTo
    rw [if_pos ht]
    exact forUpTo_set_inside _ _ _ _ _ hi1 hi2 (by omega)
  · intro ht
    have hl := h7 ht
    have ht' : ¬ s._ledType = LED_TYPE_SINGLE := by
      rw [ht]
      decide
    unfold fillUpTo
    rw [if_neg ht']
    show (forUpTo s._groupStart s._groupEnd _ s._ledColors)[i]? = _
    rw [forUpTo_ite_set s._groupStart s._groupEnd (fun i => i ≤ s._groupStart + position)]
    exact forUpTo_set_inside _ _ _ _ _ hi1 hi2 (by omega)

theorem colorWipe_position (s : VibeLED) (hv : s.Valid) :
    s.groupSize = s._groupEnd - s._groupStart + 1 ∧
    u16 ((s._step % (s.groupSize * 2) : Nat) : Int) =
      s._step % (2 * (s._groupEnd - s._groupStart + 1)) := by
  have hg := groupSize_eq s hv
  obtain ⟨_, _, h3, h4, h5, _, _, h8⟩ := hv
  refine ⟨hg, ?_⟩
  rw [hg, Nat.mul_comm]
  have h : s._step % (2 * (s._groupEnd - s._groupStart + 1)) ≤ s._step := Nat.mod_le _ _
  exact u16_of_lt _ (by omega)

/-- C19: on a valid strip with group size `N = _groupEnd - _groupStart + 1` and
`p = _step mod 2N`, after `_effectColorWipe`: if `p < N` a group element is lit
(on / `color1`) iff its relative index is at most `p`, and off / black otherwise;
if `p ≥ N` a group element is dark iff its relative index is at most `p - N`, and
lit otherwise.  Hence every group element is lit at `p = N - 1` and dark at
`p = 2N - 1`. -/
theorem colorWipe_frames (s : VibeLED) (hv : s.Valid) :
    (∀ i, s._groupStart ≤ i → i ≤ s._groupEnd →
      (s._step % (2 * (s._groupEnd - s._groupStart + 1)) < s._groupEnd - s._groupStart + 1 →
        (s._ledType = LED_TYPE_SINGLE →
          s._effectColorWipe._ledStates[i]? =
            some (decide (i - s._groupStart ≤
              s._step % (2 * (s._groupEnd - s._groupStart + 1))))) ∧
        (s._ledType = LED_TYPE_RGB →
          s._effectColorWipe._ledColors[i]? =
            some (if i - s._groupStart ≤ s._step % (2 * (s._groupEnd - s._groupStart + 1))
              then s._effectParams.color1 else ⟨0, 0, 0⟩))) ∧
      (s._groupEnd - s._groupStart + 1 ≤ s._step % (2 * (s._groupEnd - s._groupStart + 1)) →
        (s._ledType = LED_TYPE_SINGLE →
          s._effectColorWipe._ledStates[i]? =
            some (decide (¬ i - s._groupStart ≤
              s._step % (2 * (s._groupEnd - s._groupStart + 1)) -
                (s._groupEnd - s._groupStart + 1)))) ∧
        (s._ledType = LED_TYPE_RGB →
          s._effectColorWipe._ledColors[i]? =
            some (if i - s._groupStart ≤
                s._step % (2 * (s._groupEnd - s._groupStart + 1)) -
                  (s._groupEnd - s._groupStart + 1)
              then ⟨0, 0, 0⟩ else s._effectParams.color1))) ∧
      (s._step % (2 * (s._groupEnd - s._groupStart + 1)) = s._groupEnd - s._groupStart →
        (s._ledType = LED_TYPE_SINGLE → s._effectColorWipe._ledStates[i]? = some true) ∧
        (s._ledType = LED_TYPE_RGB →
          s._effectColorWipe._ledColors[i]? = some s._effectParams.color1)) ∧
      (s._step % (2 * (s._groupEnd - s._groupStart + 1)) =
          2 * (s._groupEnd - s._groupStart + 1) - 1 →
        (s._ledType = LED_TYPE_SINGLE → s._effectColorWipe._ledStates[i]? = some false) ∧
        (s._ledType = LED_TYPE_RGB → s._effectColorWipe._ledColors[i]? = some ⟨0, 0, 0⟩))) := by
  obtain ⟨hg, hp⟩ := colorWipe_position s hv
  have hv' := hv
  obtain ⟨_, _, h3, h4, h5, h6, h7, _⟩ := hv
  have hin : ∀ i, s._groupStart ≤ i → i ≤ s._groupEnd →
      (s._step % (2 * (s._groupEnd - s._groupStart + 1)) < s._groupEnd - s._groupStart + 1 →
        (s._ledType = LED_TYPE_SINGLE →
          s._effectColorWipe._ledStates[i]? =
            some (decide (i - s._groupStart ≤
              s._step % (2 * (s._groupEnd - s._groupStart + 1))))) ∧
        (s._ledType = LED_TYPE_RGB →
          s._effectColorWipe._ledColors[i]? =
            some (if i - s._groupStart ≤ s._step % (2 * (s._groupEnd - s._groupStart + 1))
              then s._effectParams.color1 else ⟨0, 0, 0⟩))) := by
    intro i hi1 hi2 hlt
    have e : s._effectColorWipe =
        fillUpTo (s._step % (2 * (s._groupEnd - s._groupStart + 1))) s := by
      unfold _effectColorWipe
      simp only []
      rw [hp, hg, if_pos hlt]
    rw [e]
    obtain ⟨a, b⟩ := fillUpTo_elem (s._step % (2 * (s._groupEnd - s._groupStart + 1))) s hv' i
      hi1 hi2
    have hiff : (i ≤ s._groupStart + s._step % (2 * (s._groupEnd - s._groupStart + 1))) ↔
        (i - s._groupStart ≤ s._step % (2 * (s._groupEnd - s._groupStart + 1))) := by omega
    constructor
    · intro ht
      rw [a ht]
      simp only [hiff]
    · intro ht
      rw [b ht]
      simp only [hiff]
  have hout : ∀ i, s._groupStart ≤ i → i ≤ s._groupEnd →
      (s._groupEnd - s._groupStart + 1 ≤ s._step % (2 * (s._groupEnd - s._groupStart + 1)) →
        (s._ledType = LED_TYPE_SINGLE →
          s._effectColorWipe._ledStates[i]? =
            some (decide (¬ i - s._groupStart ≤
              s._step % (2 * (s._groupEnd - s._groupStart + 1)) -
                (s._groupEnd - s._groupStart + 1)))) ∧
        (s._ledType = LED_TYPE_RGB →
          s._effectColorWipe._ledColors[i]? =
            some (if i - s._groupStart ≤
                s._step % (2 * (s._groupEnd - s._groupStart + 1)) -
                  (s._groupEnd - s._groupStart + 1)
              then ⟨0, 0, 0⟩ else s._effectParams.color1))) := by
    intro i hi1 hi2 hge
    have hnlt : ¬ s._step % (2 * (s._groupEnd - s._groupStart + 1)) <
        s._groupEnd - s._groupStart + 1 := by omega
    have hm : s._step % (2 * (s._groupEnd - s._groupStart + 1)) <
        2 * (s._groupEnd - s._groupStart + 1) := Nat.mod_lt _ (by omega)
    have hq : u16 (((s._step % (2 * (s._groupEnd - s._groupStart + 1)) : Nat) : Int) -
        ((s._groupEnd - s._groupStart + 1 : Nat) : Int)) =
        s._step % (2 * (s._groupEnd - s._groupStart + 1)) -
          (s._groupEnd - s._groupStart + 1) := by
      unfold u16
      omega
    have hiff : (i > s._groupStart + (s._step % (2 * (s._groupEnd - s._groupStart + 1)) -
        (s._groupEnd - s._groupStart + 1))) ↔
        (¬ i - s._groupStart ≤ s._step % (2 * (s._groupEnd - s._groupStart + 1)) -
          (s._groupEnd - s._groupStart + 1)) := by omega
    constructor
    · intro ht
      have hl := h6 ht
      unfold _effectColorWipe
      simp only []
      rw [hp, hg, if_neg hnlt, if_pos ht, hq]
      show (forUpTo s._groupStart s._groupEnd _ s._ledStates)[i]? = _
      rw [forUpTo_set_inside _ _ _ _ _ hi1 hi2 (by omega)]
      simp only [hiff]
    · intro ht
      have hl := h7 ht
      have ht' : ¬ s._ledType = LED_TYPE_SINGLE := by
        rw [ht]
        decide
      unfold _effectColorWipe
      simp only []
      rw [hp, hg, if_neg hnlt, if_neg ht', hq]
      show (forUpTo s._groupStart s._groupEnd _ s._ledColors)[i]? = _
      rw [forUpTo_ite_set s._groupStart s._groupEnd
        (fun i => i > s._groupStart + (s._step % (2 * (s._groupEnd - s._groupStart + 1)) -
          (s._groupEnd - s._groupStart + 1)))]
      rw [forUpTo_set_inside _ _ _ _ _ hi1 hi2 (by omega)]
      by_cases hc : i - s._groupStart ≤ s._step % (2 * (s._groupEnd - s._groupStart + 1)) -
          (s._groupEnd - s._groupStart + 1)
      · rw [if_neg (by omega), if_pos hc]
      · rw [if_pos (by omega), if_neg hc]
  intro i hi1 hi2
  refine ⟨hin i hi1 hi2, hout i hi1 hi2, ?_, ?_⟩
  · intro hpe
    obtain ⟨a, b⟩ := hin i hi1 hi2 (by omega)
    constructor
    · intro ht
      rw [a ht]
      simp only [hpe]
      have : i - s._groupStart ≤ s._groupEnd - s._groupStart := by omega
      simp [this]
    · intro ht
      rw [b ht, if_pos (by omega)]
  · intro hpe
    obtain ⟨a, b⟩ := hout i hi1 hi2 (by omega)
    constructor
    · intro ht
      rw [a ht]
      have : i - s._groupStart ≤ s._step % (2 * (s._groupEnd - s._groupStart + 1)) -
          (s._groupEnd - s._groupStart + 1) := by omega
      simp [this]
    · intro ht
      rw [b ht, if_pos (by omega)]

theorem colorWipe_frames_witness :
    (_effectColorWipe { sampleSingle with _step := 12 })._ledStates[2]? = some true ∧
    (_effectColorWipe { sampleSingle with _step := 16 })._ledStates[1]? = some false :=
  ⟨((((colorWipe_frames { sampleSingle with _step := 12 } (by decide)) 2 (by decide)
      (by decide)).1 (by decide)).1 (by decide)).trans (by decide),
    ((((colorWipe_frames { sampleSingle with _step := 16 } (by decide)) 1 (by decide)
      (by decide)).2.1 (by decide)).1 (by decide)).trans (by decide)⟩

end VibeLED


namespace VibeLED

theorem effectStack_eq (s : VibeLED) :
    s._effectStack = fillUpTo (stackPosition s.groupSize s._step) s := by
  unfold _effectStack stackPosition
  simp only []
  split <;> rfl

theorem fillUpTo_step (position st : Nat) (s : VibeLED) :
    (fillUpTo position { s with _step := st })._ledStates = (fillUpTo position s)._ledStates ∧
    (fillUpTo position { s with _step := st })._ledColors = (fillUpTo position s)._ledColors := by
  unfold fillUpTo
  simp only []
  split <;> exact ⟨rfl, rfl⟩

theorem stackPosition_eq (n st : Nat) (hn1 : 1 ≤ n) (hn : n ≤ 32767) :
    stackPosition n st = if st % (2 * n) < n then st % (2 * n) else 2 * n - st % (2 * n) := by
  have hc : u16 ((n : Int) * 2) = 2 * n := by
    unfold u16
    omega
  have hm : st % (2 * n) < 2 * n := Nat.mod_lt _ (by omega)
  unfold stackPosition
  rw [hc]
  generalize st % (2 * n) = c at hm
  unfold u16
  split_ifs <;> omega

theorem stackPosition_facts (n : Nat) (hn1 : 1 ≤ n) (hn : n ≤ 32767) :
    stackPosition n 0 = 0 ∧ stackPosition n (n - 1) = n - 1 ∧
    (∀ st, stackPosition n (st + 2 * n) = stackPosition n st) ∧
    (∀ d, 0 < d → d < 2 * n → 1 ≤ stackPosition n d) := by
  refine ⟨?_, ?_, ?_, ?_⟩
  · rw [stackPosition_eq n 0 hn1 hn]
    simp
  · rw [stackPosition_eq n (n - 1) hn1 hn]
    have e : (n - 1) % (2 * n) = n - 1 := Nat.mod_eq_of_lt (by omega)
    rw [e, if_pos (by omega)]
  · intro st
    rw [stackPosition_eq n _ hn1 hn, stackPosition_eq n st hn1 hn, Nat.add_mod_right]
  · intro d h1 h2
    rw [stackPosition_eq n d hn1 hn]
    have e : d % (2 * n) = d := Nat.mod_eq_of_lt h2
    rw [e]
    split_ifs <;> omega

theorem valid_withStep (s : VibeLED) (hv : s.Valid) (st : Nat) (h : st < 65536) :
    Valid { s with _step := st } := by
  obtain ⟨v1, v2, v3, v4, v5, v6, v7, _⟩ := hv
  exact ⟨v1, v2, v3, v4, v5, v6, v7, h⟩

/-- Element-wise description of the frame of `_effectStack` at step `st`. -/
theorem stack_elem (s : VibeLED) (hv : s.Valid) (st : Nat) (hst : st < 65536) (i : Nat)
    (hi1 : s._groupStart ≤ i) (hi2 : i ≤ s._groupEnd) :
    (s._ledType = LED_TYPE_SINGLE →
      (_effectStack { s with _step := st })._ledStates[i]? =
        some (decide (i ≤ s._groupStart +
          stackPosition (s._groupEnd - s._groupStart + 1) st))) ∧
    (s._ledType = LED_TYPE_RGB →
      (_effectStack { s with _step := st })._ledColors[i]? =
        some (if i ≤ s._groupStart + stackPosition (s._groupEnd - s._groupStart + 1) st then
          s._effectParams.color1 else ⟨0, 0, 0⟩)) := by
  have hv' := valid_withStep s hv st hst
  have hg : VibeLED.groupSize { s with _step := st } = s._groupEnd - s._groupStart + 1 :=
    groupSize_eq _ hv'
  rw [effectStack_eq, hg]
  exact fillUpTo_elem _ _ hv' i hi1 hi2

theorem stack_buffers (s : VibeLED) (hv : s.Valid) (st : Nat) :
    (_effectStack { s with _step := st })._ledStates =
      (fillUpTo (stackPosition (s._groupEnd - s._groupStart + 1) st) s)._ledStates ∧
    (_effectStack { s with _step := st })._ledColors =
      (fillUpTo (stackPosition (s._groupEnd - s._groupStart + 1) st) s)._ledColors := by
  rw [effectStack_eq]
  show (fillUpTo (stackPosition s.groupSize st) { s with _step := st })._ledStates = _ ∧
    (fillUpTo (stackPosition s.groupSize st) { s with _step := st })._ledColors = _
  rw [groupSize_eq s hv]
  exact fillUpTo_step _ st s

/-- C12 (amended): on a valid strip with group size `N = _groupEnd - _groupStart + 1`,
`1 ≤ N ≤ 32767`: the frame of `_effectStack` at step 0 lights only the first
group element; the frame at step `N - 1` lights every group element; the frame
at step `st + 2N` has the buffers of the frame at step `st`
(`st + 2N < 2^16`); for `N ≥ 2` every shift `0 < d < 2N` is told apart at step 0
(the frame at step `d` lights the second group element, the frame at step 0 does
not); for `N = 1` the single group element is lit at every step. -/
theorem stack_cycle (s : VibeLED) (hv : s.Valid)
    (hn : s._groupEnd - s._groupStart + 1 ≤ 32767) :
    (∀ i, s._groupStart ≤ i → i ≤ s._groupEnd →
      (s._ledType = LED_TYPE_SINGLE →
        (_effectStack { s with _step := 0 })._ledStates[i]? =
          some (decide (i = s._groupStart))) ∧
      (s._ledType = LED_TYPE_RGB →
        (_effectStack { s with _step := 0 })._ledColors[i]? =
          some (if i = s._groupStart then s._effectParams.color1 else ⟨0, 0, 0⟩))) ∧
    (∀ i, s._groupStart ≤ i → i ≤ s._groupEnd →
      (s._ledType = LED_TYPE_SINGLE →
        (_effectStack { s with _step := s._groupEnd - s._groupStart })._ledStates[i]? =
          some true) ∧
      (s._ledType = LED_TYPE_RGB →
        (_effectStack { s with _step := s._groupEnd - s._groupStart })._ledColors[i]? =
          some s._effectParams.color1)) ∧
    (∀ st, st + 2 * (s._groupEnd - s._groupStart + 1) < 65536 →
      (_effectStack { s with _step := st + 2 * (s._groupEnd - s._groupStart + 1) })._ledStates =
        (_effectStack { s with _step := st })._ledStates ∧
      (_effectStack { s with _step := st + 2 * (s._groupEnd - s._groupStart + 1) })._ledColors =
        (_effectStack { s with _step := st })._ledColors) ∧
    (2 ≤ s._groupEnd - s._groupStart + 1 →
      ∀ d, 0 < d → d < 2 * (s._groupEnd - s._groupStart + 1) →
        (s._ledType = LED_TYPE_SINGLE →
          (_effectStack { s with _step := d })._ledStates[s._groupStart + 1]? = some true ∧
          (_effectStack { s with _step := 0 })._ledStates[s._groupStart + 1]? = some false ∧
          (_effectStack { s with _step := d })._ledStates ≠
            (_effectStack { s with _step := 0 })._ledStates) ∧
        (s._ledType = LED_TYPE_RGB →
          (_effectStack { s with _step := d })._ledColors[s._groupStart + 1]? =
            some s._effectParams.color1 ∧
          (_effectStack { s with _step := 0 })._ledColors[s._groupStart + 1]? =
            some ⟨0, 0, 0⟩)) ∧
    (s._groupEnd - s._groupStart + 1 = 1 →
      ∀ st, st < 65536 →
        (s._ledType = LED_TYPE_SINGLE →
          (_effectStack { s with _step := st })._ledStates[s._groupStart]? = some true) ∧
        (s._ledType = LED_TYPE_RGB →
          (_effectStack { s with _step := st })._ledColors[s._groupStart]? =
            some s._effectParams.color1)) := by
  have hv' := hv
  obtain ⟨_, _, v3, v4, v5, _⟩ := hv
  obtain ⟨p0, p1, p2, p3⟩ := stackPosition_facts (s._groupEnd - s._groupStart + 1) (by omega) hn
  have e1 : s._groupEnd - s._groupStart + 1 - 1 = s._groupEnd - s._groupStart := by omega
  rw [e1] at p1
  refine ⟨?_, ?_, ?_, ?_, ?_⟩
  · intro i hi1 hi2
    obtain ⟨a, b⟩ := stack_elem s hv' 0 (by decide) i hi1 hi2
    rw [p0] at a b
    have hiff : (i ≤ s._groupStart + 0) ↔ (i = s._groupStart) := by omega
    constructor
    · intro ht
      rw [a ht]
      simp only [hiff]
    · intro ht
      rw [b ht]
      simp only [hiff]
  · intro i hi1 hi2
    obtain ⟨a, b⟩ := stack_elem s hv' (s._groupEnd - s._groupStart) (by omega) i hi1 hi2
    rw [p1] at a b
    have hle : i ≤ s._groupStart + (s._groupEnd - s._groupStart) := by omega
    constructor
    · intro ht
      rw [a ht]
      simp [hle]
    · intro ht
      rw [b ht, if_pos hle]
  · intro st hst
    obtain ⟨x1, x2⟩ := stack_buffers s hv' (st + 2 * (s._groupEnd - s._groupStart + 1))
    obtain ⟨y1, y2⟩ := stack_buffers s hv' st
    rw [x1, x2, y1, y2, p2 st]
    exact ⟨rfl, rfl⟩
  · intro h2 d hd1 hd2
    obtain ⟨a, b⟩ := stack_elem s hv' d (by omega) (s._groupStart + 1) (by omega) (by omega)
    obtain ⟨a0, b0⟩ := stack_elem s hv' 0 (by decide) (s._groupStart + 1) (by omega) (by omega)
    rw [p0] at a0 b0
    have hp := p3 d hd1 hd2
    have hle : s._groupStart + 1 ≤
        s._groupStart + stackPosition (s._groupEnd - s._groupStart + 1) d := by omega
    constructor
    · intro ht
      have ha : (_effectStack { s with _step := d })._ledStates[s._groupStart + 1]? =
          some true := by
        rw [a ht]
        simp [hle]
      have ha0 : (_effectStack { s with _step := 0 })._ledStates[s._groupStart + 1]? =
          some false := by
        rw [a0 ht]
        simp
      refine ⟨ha, ha0, ?_⟩
      intro heq
      rw [heq, ha0] at ha
      exact absurd ha (by decide)
    · intro ht
      constructor
      · rw [b ht, if_pos hle]
      · rw [b0 ht, if_neg (by omega)]
  · intro h1 st hst
    obtain ⟨a, b⟩ := stack_elem s hv' st hst s._groupStart (by omega) (by omega)
    constructor
    · intro ht
      rw [a ht]
      simp
    · intro ht
      rw [b ht, if_pos (by omega)]

theorem stack_cycle_witness :
    (sampleSingle.Valid ∧ sampleSingle._groupEnd - sampleSingle._groupStart + 1 ≤ 32767) ∧
    (_effectStack { sampleSingle with _step := 0 })._ledStates[3]? = some false ∧
    (_effectStack { sampleSingle with _step := 4 })._ledStates[3]? = some true ∧
    (_effectStack { sampleSingle with _step := 7 })._ledStates ≠
      (_effectStack { sampleSingle with _step := 0 })._ledStates :=
  ⟨by decide,
    (((stack_cycle sampleSingle (by decide) (by decide)).1 3 (by decide) (by decide)).1
      (by decide)).trans (by decide),
    ((stack_cycle sampleSingle (by decide) (by decide)).2.1 3 (by decide) (by decide)).1
      (by decide),
    (((stack_cycle sampleSingle (by decide) (by decide)).2.2.2.1 (by decide) 7 (by decide)
      (by decide)).1 (by decide)).2.2⟩

theorem stack_one_element_constant :
    stackOneInput.Valid ∧ stackOneInput._ledType = LED_TYPE_SINGLE ∧
    stackOneInput._groupEnd - stackOneInput._groupStart + 1 = 1 ∧
    ¬ ∃ st, (_effectStack { stackOneInput with _step := st + 1 })._ledStates ≠
      (_effectStack { stackOneInput with _step := st })._ledStates := by
  have h : ∀ st, (_effectStack { stackOneInput with _step := st })._ledStates =
      [false, false, true, false, false] := by
    intro st
    rw [(stack_buffers stackOneInput (by decide) st).1]
    have hn : stackOneInput._groupEnd - stackOneInput._groupStart + 1 = 1 := by decide
    rw [hn, stackPosition_eq 1 st (by decide) (by decide)]
    rcases Nat.mod_two_eq_zero_or_one st with h0 | h0
    · simp only [Nat.mul_one, h0]
      decide
    · simp only [Nat.mul_one, h0]
      decide
  refine ⟨by decide, by decide, by decide, ?_⟩
  rintro ⟨st, hst⟩
  exact hst ((h (st + 1)).trans (h st).symm)

end VibeLED


/-! ## Effects other than the fades keep `_currentEffect` -/

namespace VibeLED

theorem keeps_ite {a b : VibeLED} {e : Nat} (c : Prop) [Decidable c]
    (h1 : a._currentEffect = e) (h2 : b._currentEffect = e) :
    (if c then a else b)._currentEffect = e := by
  split <;> assumption

theorem forBelow_keeps (n : Nat) (body : Nat → VibeLED → VibeLED) (s1 : VibeLED) (e : Nat)
    (h0 : s1._currentEffect = e) (h : ∀ i t, (body i t)._currentEffect = t._currentEffect) :
    (forBelow n body s1)._currentEffect = e :=
  forBelow_invariant (fun t => t._currentEffect = e) n body s1 h0
    (fun i t _ ht => (h i t).trans ht)

theorem forUpTo_keeps (lo hi : Nat) (body : Nat → VibeLED → VibeLED) (s1 : VibeLED) (e : Nat)
    (h0 : s1._currentEffect = e) (h : ∀ i t, (body i t)._currentEffect = t._currentEffect) :
    (forUpTo lo hi body s1)._currentEffect = e :=
  forUpTo_invariant (fun t => t._currentEffect = e) lo hi body s1 h0
    (fun i t _ _ ht => (h i t).trans ht)

theorem forDownTo_keeps (hi lo : Nat) (body : Nat → VibeLED → VibeLED) (s1 : VibeLED) (e : Nat)
    (h0 : s1._currentEffect = e) (h : ∀ i t, (body i t)._currentEffect = t._currentEffect) :
    (forDownTo hi lo body s1)._currentEffect = e :=
  forDownTo_invariant (fun t => t._currentEffect = e) hi lo body s1 h0
    (fun i t _ _ ht => (h i t).trans ht)

theorem keeps_random (s : VibeLED) (n : Nat) :
    (s.random n).2._currentEffect = s._currentEffect := by
  unfold VibeLED.random
  split <;> rfl

theorem keeps_randomRange (s : VibeLED) (a b : Nat) :
    (s.randomRange a b).2._currentEffect = s._currentEffect := by
  unfold VibeLED.randomRange
  split
  · rfl
  · exact keeps_random s _

theorem keeps_effectNone (s : VibeLED) : s._effectNone._currentEffect = s._currentEffect :=
  keeps_ite _ rfl rfl

theorem keeps_effectStatic (s : VibeLED) : s._effectStatic._currentEffect = s._currentEffect :=
  keeps_ite _ rfl rfl

theorem keeps_applyIntensity (fp : FloatOps) (x : fp.F) (s : VibeLED) :
    (applyIntensity fp x s)._currentEffect = s._currentEffect :=
  keeps_ite _ rfl rfl

theorem keeps_effectKnightRider (fp : FloatOps) (s : VibeLED) :
    (s._effectKnightRider fp)._currentEffect = s._currentEffect :=
  keeps_ite _ rfl rfl

theorem keeps_effectCylon (fp : FloatOps) (s : VibeLED) :
    (s._effectCylon fp)._currentEffect = s._currentEffect :=
  keeps_ite _ rfl rfl

theorem keeps_effectMeteor (fp : FloatOps) (s : VibeLED) :
    (s._effectMeteor fp)._currentEffect = s._currentEffect := by
  unfold _effectMeteor
  simp only []
  apply forBelow_keeps
  · exact keeps_ite _ rfl rfl
  · intro i t
    exact keeps_ite _ (keeps_ite _ rfl rfl) rfl

theorem keeps_effectFire (s : VibeLED) : s._effectFire._currentEffect = s._currentEffect := by
  unfold _effectFire
  simp only []
  refine keeps_ite _ ?_ ?_
  · have h0 : (match s.heat with
        | none => { s with heat := some (List.replicate s.groupSize 0) }
        | some _ => s)._currentEffect = s._currentEffect := by
      split <;> rfl
    apply forBelow_keeps
    · refine keeps_ite _ ?_ ?_
      · show (VibeLED.heatSet _ _ _)._currentEffect = _
        refine (keeps_randomRange _ _ _).trans ((keeps_random _ _).trans ((keeps_random _ _).trans ?_))
        apply forDownTo_keeps
        · apply forBelow_keeps _ _ _ _ h0
          intro i t
          exact keeps_ite _ (keeps_randomRange t _ _) (keeps_randomRange t _ _)
        · intro i t
          rfl
      · refine (keeps_random _ _).trans ?_
        apply forDownTo_keeps
        · apply forBelow_keeps _ _ _ _ h0
          intro i t
          exact keeps_ite _ (keeps_randomRange t _ _) (keeps_randomRange t _ _)
        · intro i t
          rfl
    · intro i t
      rfl
  · apply forUpTo_keeps _ _ _ _ _ rfl
    intro i t
    exact keeps_random t 100

theorem keeps_effectWaterfall (s : VibeLED) :
    s._effectWaterfall._currentEffect = s._currentEffect := by
  unfold _effectWaterfall
  simp only []
  exact keeps_ite _ (keeps_random s 100)
    (keeps_ite _ (keeps_random s 100) (keeps_random s 100))

theorem keeps_fillUpTo (position : Nat) (s : VibeLED) :
    (fillUpTo position s)._currentEffect = s._currentEffect :=
  keeps_ite _ rfl rfl

theorem keeps_effectStack (s : VibeLED) : s._effectStack._currentEffect = s._currentEffect :=
  keeps_ite _ (keeps_fillUpTo _ s) (keeps_fillUpTo _ s)

theorem keeps_effectRainbow (fp : FloatOps) (s : VibeLED) :
    (s._effectRainbow fp)._currentEffect = s._currentEffect :=
  keeps_ite _ rfl rfl

theorem keeps_effectSparkle (fp : FloatOps) (s : VibeLED) :
    (s._effectSparkle fp)._currentEffect = s._currentEffect := by
  unfold _effectSparkle
  simp only []
  apply forBelow_keeps
  · exact keeps_ite _ rfl rfl
  · intro i t
    exact keeps_ite _ (keeps_random t _) (keeps_random t _)

theorem keeps_effectMarquee (s : VibeLED) :
    s._effectMarquee._currentEffect = s._currentEffect := by
  unfold _effectMarquee
  simp only []
  apply forBelow_keeps _ _ _ _ rfl
  intro i t
  exact keeps_ite _ rfl rfl

theorem keeps_effectBounce (fp : FloatOps) (s : VibeLED) :
    (s._effectBounce fp)._currentEffect = s._currentEffect :=
  keeps_ite _ rfl rfl

theorem keeps_effectColorWipe (s : VibeLED) :
    s._effectColorWipe._currentEffect = s._currentEffect :=
  keeps_ite _ (keeps_fillUpTo _ s) (keeps_ite _ rfl rfl)

theorem keeps_effectRandomBlink (s : VibeLED) :
    s._effectRandomBlink._currentEffect = s._currentEffect := by
  unfold _effectRandomBlink
  simp only []
  refine keeps_ite _ ?_ rfl
  apply forBelow_keeps _ _ _ _ rfl
  intro i t
  refine keeps_ite _ (keeps_random t _) (keeps_ite _ ?_ (keeps_random t _))
  exact (keeps_random _ _).trans ((keeps_random _ _).trans
    ((keeps_random _ _).trans (keeps_random t _)))

theorem keeps_effectSnake (fp : FloatOps) (s : VibeLED) :
    (s._effectSnake fp)._currentEffect = s._currentEffect := by
  unfold _effectSnake
  simp only []
  apply forBelow_keeps
  · exact keeps_ite _ rfl rfl
  · intro i t
    exact keeps_ite _ rfl rfl

theorem keeps_effectWave (fp : FloatOps) (s : VibeLED) :
    (s._effectWave fp)._currentEffect = s._currentEffect := by
  unfold _effectWave
  simp only []
  apply forBelow_keeps _ _ _ _ rfl
  intro i t
  exact keeps_ite _ rfl rfl

/-- The switch of the dispatcher keeps `_currentEffect` for every identifier
other than `EFFECT_FADE_IN` and `EFFECT_FADE_OUT`. -/
theorem keeps_runEffect (fp : FloatOps) (e : Nat) (s : VibeLED)
    (h1 : e ≠ EFFECT_FADE_IN) (h2 : e ≠ EFFECT_FADE_OUT) :
    (runEffect fp e s)._currentEffect = s._currentEffect := by
  unfold runEffect
  refine keeps_ite _ (keeps_effectNone s) <| keeps_ite _ (keeps_effectStatic s) <|
    keeps_ite _ (effectBlink_currentEffect s) <| keeps_ite _ (keeps_applyIntensity fp _ s) <|
    keeps_ite _ (keeps_applyIntensity fp _ s) <| ?_
  rw [if_neg h1, if_neg h2]
  exact keeps_ite _ (keeps_effectKnightRider fp s) <| keeps_ite _ (keeps_effectCylon fp s) <|
    keeps_ite _ (keeps_effectMeteor fp s) <| keeps_ite _ (keeps_effectFire s) <|
    keeps_ite _ (keeps_effectWaterfall s) <| keeps_ite _ (effectChase_currentEffect s) <|
    keeps_ite _ (keeps_effectStack s) <| keeps_ite _ (keeps_effectRainbow fp s) <|
    keeps_ite _ (keeps_effectSparkle fp s) <| keeps_ite _ (keeps_effectMarquee s) <|
    keeps_ite _ (keeps_effectBounce fp s) <| keeps_ite _ (keeps_effectColorWipe s) <|
    keeps_ite _ (keeps_effectRandomBlink s) <| keeps_ite _ (keeps_effectSnake fp s) <|
    keeps_ite _ (keeps_effectWave fp s) <| keeps_effectNone s

end VibeLED


theorem exactFloat_fadeExact : exactFloat.FadeExact := by
  refine ⟨?_, ?_, ?_, ?_⟩
  · intro n _
    have h100 : (0 : ℚ) < 100 := by norm_num
    refine ⟨?_, ?_, ?_, ?_⟩
    · show decide ((((1 : Int) : ℚ)) < ((n : Int) : ℚ) / ((100 : Int) : ℚ)) = true ↔ 100 < n
      rw [decide_eq_true_iff]
      push_cast
      rw [lt_div_iff h100]
      constructor
      · intro h
        have : ((100 : Nat) : ℚ) < (n : ℚ) := by
          push_cast
          linarith
        exact_mod_cast this
      · intro h
        have : ((100 : Nat) : ℚ) < (n : ℚ) := by exact_mod_cast h
        push_cast at this
        linarith
    · show decide ((((1 : Int) : ℚ)) ≤ ((n : Int) : ℚ) / ((100 : Int) : ℚ)) = true ↔ 100 ≤ n
      rw [decide_eq_true_iff]
      push_cast
      rw [le_div_iff h100]
      constructor
      · intro h
        have : ((100 : Nat) : ℚ) ≤ (n : ℚ) := by
          push_cast
          linarith
        exact_mod_cast this
      · intro h
        have : ((100 : Nat) : ℚ) ≤ (n : ℚ) := by exact_mod_cast h
        push_cast at this
        linarith
    · show decide ((((1 : Int) : ℚ)) - ((n : Int) : ℚ) / ((100 : Int) : ℚ) < ((0 : Int) : ℚ)) = true ↔
        100 < n
      rw [decide_eq_true_iff]
      push_cast
      rw [sub_neg, lt_div_iff h100]
      constructor
      · intro h
        have : ((100 : Nat) : ℚ) < (n : ℚ) := by
          push_cast
          linarith
        exact_mod_cast this
      · intro h
        have : ((100 : Nat) : ℚ) < (n : ℚ) := by exact_mod_cast h
        push_cast at this
        linarith
    · show decide ((((1 : Int) : ℚ)) - ((n : Int) : ℚ) / ((100 : Int) : ℚ) ≤ ((0 : Int) : ℚ)) = true ↔
        100 ≤ n
      rw [decide_eq_true_iff]
      push_cast
      rw [sub_nonpos, le_div_iff h100]
      constructor
      · intro h
        have : ((100 : Nat) : ℚ) ≤ (n : ℚ) := by
          push_cast
          linarith
        exact_mod_cast this
      · intro h
        have : ((100 : Nat) : ℚ) ≤ (n : ℚ) := by exact_mod_cast h
        push_cast at this
        linarith
  · show decide ((((1 : Int) : ℚ)) ≤ ((1 : Int) : ℚ)) = true
    simp
  · show decide ((((0 : Int) : ℚ)) ≤ ((0 : Int) : ℚ)) = true
    simp
  · intro c hc
    show u8 ⌊(((c : Int) : ℚ)) * ((((100 : Int) : ℚ)) / ((100 : Int) : ℚ))⌋ = c
    have e : (((c : Int) : ℚ)) * ((((100 : Int) : ℚ)) / ((100 : Int) : ℚ)) = ((c : Int) : ℚ) := by
      push_cast
      norm_num
    rw [e, Int.floor_intCast]
    unfold u8
    omega


namespace VibeLED

theorem runEffect_fadeIn (fp : FloatOps) (s : VibeLED) :
    runEffect fp EFFECT_FADE_IN s = s._effectFadeIn fp := by
  unfold runEffect
  rw [if_neg (by decide), if_neg (by decide), if_neg (by decide), if_neg (by decide),
    if_neg (by decide), if_pos rfl]

theorem runEffect_fadeOut (fp : FloatOps) (s : VibeLED) :
    runEffect fp EFFECT_FADE_OUT s = s._effectFadeOut fp := by
  unfold runEffect
  rw [if_neg (by decide), if_neg (by decide), if_neg (by decide), if_neg (by decide),
    if_neg (by decide), if_neg (by decide), if_pos rfl]

theorem runEffect_static (fp : FloatOps) (s : VibeLED) :
    runEffect fp EFFECT_STATIC s = s._effectStatic := by
  unfold runEffect
  rw [if_neg (by decide), if_pos rfl]

theorem updateEffect_currentEffect (fp : FloatOps) (s : VibeLED) :
    (s._updateEffect fp)._currentEffect = (runEffect fp s._currentEffect s)._currentEffect :=
  rfl

/-- The intensity test at the end of `_effectFadeIn` under exact comparisons. -/
theorem fadeIn_test (fp : FloatOps) (hfp : fp.FadeExact) (n : Nat) (hn : n < 65536) :
    (fp.le (fp.ofInt 1)
      (if fp.lt (fp.ofInt 1) (fp.div (fp.ofInt (n : Int)) (fp.ofInt 100)) = true then fp.ofInt 1
        else fp.div (fp.ofInt (n : Int)) (fp.ofInt 100)) = true) ↔ 100 ≤ n := by
  obtain ⟨h, h1, _, _⟩ := hfp
  obtain ⟨a, b, _, _⟩ := h n hn
  by_cases hc : fp.lt (fp.ofInt 1) (fp.div (fp.ofInt (n : Int)) (fp.ofInt 100)) = true
  · rw [if_pos hc]
    have := a.1 hc
    constructor
    · intro _
      omega
    · intro _
      exact h1
  · rw [if_neg hc]
    exact b

/-- The intensity test at the end of `_effectFadeOut` under exact comparisons. -/
theorem fadeOut_test (fp : FloatOps) (hfp : fp.FadeExact) (n : Nat) (hn : n < 65536) :
    (fp.le
      (if fp.lt (fp.sub (fp.ofInt 1) (fp.div (fp.ofInt (n : Int)) (fp.ofInt 100)))
          (fp.ofInt 0) = true then fp.ofInt 0
        else fp.sub (fp.ofInt 1) (fp.div (fp.ofInt (n : Int)) (fp.ofInt 100)))
      (fp.ofInt 0) = true) ↔ 100 ≤ n := by
  obtain ⟨h, _, h0, _⟩ := hfp
  obtain ⟨_, _, a, b⟩ := h n hn
  by_cases hc : fp.lt (fp.sub (fp.ofInt 1) (fp.div (fp.ofInt (n : Int)) (fp.ofInt 100)))
      (fp.ofInt 0) = true
  · rw [if_pos hc]
    have := a.1 hc
    constructor
    · intro _
      omega
    · intro _
      exact h0
  · rw [if_neg hc]
    exact b

theorem fadeIn_currentEffect (fp : FloatOps) (hfp : fp.FadeExact) (s : VibeLED)
    (hs : s._step < 65536) :
    (s._effectFadeIn fp)._currentEffect =
      if 100 ≤ s._step then EFFECT_STATIC else s._currentEffect := by
  have ht := fadeIn_test fp hfp s._step hs
  unfold _effectFadeIn
  simp only []
  by_cases hc : 100 ≤ s._step
  · rw [if_pos (ht.2 hc), if_pos hc]
  · rw [if_neg (fun h => hc (ht.1 h)), if_neg hc]
    exact keeps_applyIntensity fp _ s

theorem fadeOut_currentEffect (fp : FloatOps) (hfp : fp.FadeExact) (s : VibeLED)
    (hs : s._step < 65536) :
    (s._effectFadeOut fp)._currentEffect =
      if 100 ≤ s._step then EFFECT_NONE else s._currentEffect := by
  have ht := fadeOut_test fp hfp s._step hs
  unfold _effectFadeOut
  simp only []
  by_cases hc : 100 ≤ s._step
  · rw [if_pos (ht.2 hc), if_pos hc]
  · rw [if_neg (fun h => hc (ht.1 h)), if_neg hc]
    exact keeps_applyIntensity fp _ s

/-- C14: assuming the float comparisons of the two fade intensities are exact
(`FadeExact`), one call of `_updateEffect` at a 16-bit step changes
`_currentEffect` iff the running effect is `EFFECT_FADE_IN` with `_step ≥ 100`
(it becomes `EFFECT_STATIC`) or `EFFECT_FADE_OUT` with `_step ≥ 100` (it becomes
`EFFECT_NONE`); in every other case `_currentEffect` is the same after the call. -/
theorem only_fades_change_effect (fp : FloatOps) (hfp : fp.FadeExact) (s : VibeLED)
    (hs : s._step < 65536) :
    ((s._updateEffect fp)._currentEffect ≠ s._currentEffect ↔
      (s._currentEffect = EFFECT_FADE_IN ∧ 100 ≤ s._step) ∨
      (s._currentEffect = EFFECT_FADE_OUT ∧ 100 ≤ s._step)) ∧
    (s._currentEffect = EFFECT_FADE_IN → 100 ≤ s._step →
      (s._updateEffect fp)._currentEffect = EFFECT_STATIC) ∧
    (s._currentEffect = EFFECT_FADE_OUT → 100 ≤ s._step →
      (s._updateEffect fp)._currentEffect = EFFECT_NONE) ∧
    (¬ ((s._currentEffect = EFFECT_FADE_IN ∧ 100 ≤ s._step) ∨
        (s._currentEffect = EFFECT_FADE_OUT ∧ 100 ≤ s._step)) →
      (s._updateEffect fp)._currentEffect = s._currentEffect) := by
  have hin : s._currentEffect = EFFECT_FADE_IN →
      (s._updateEffect fp)._currentEffect =
        if 100 ≤ s._step then EFFECT_STATIC else s._currentEffect := by
    intro he
    rw [updateEffect_currentEffect, he, runEffect_fadeIn, fadeIn_currentEffect fp hfp s hs, he]
  have hout : s._currentEffect = EFFECT_FADE_OUT →
      (s._updateEffect fp)._currentEffect =
        if 100 ≤ s._step then EFFECT_NONE else s._currentEffect := by
    intro he
    rw [updateEffect_currentEffect, he, runEffect_fadeOut, fadeOut_currentEffect fp hfp s hs, he]
  have hother : s._currentEffect ≠ EFFECT_FADE_IN → s._currentEffect ≠ EFFECT_FADE_OUT →
      (s._updateEffect fp)._currentEffect = s._currentEffect := by
    intro h1 h2
    rw [updateEffect_currentEffect]
    exact keeps_runEffect fp _ s h1 h2
  have hkeep : ¬ ((s._currentEffect = EFFECT_FADE_IN ∧ 100 ≤ s._step) ∨
        (s._currentEffect = EFFECT_FADE_OUT ∧ 100 ≤ s._step)) →
      (s._updateEffect fp)._currentEffect = s._currentEffect := by
    intro hn
    by_cases h1 : s._currentEffect = EFFECT_FADE_IN
    · rw [hin h1, if_neg (fun h => hn (Or.inl ⟨h1, h⟩))]
    · by_cases h2 : s._currentEffect = EFFECT_FADE_OUT
      · rw [hout h2, if_neg (fun h => hn (Or.inr ⟨h2, h⟩))]
      · exact hother h1 h2
  have hI : s._currentEffect = EFFECT_FADE_IN → 100 ≤ s._step →
      (s._updateEffect fp)._currentEffect = EFFECT_STATIC := by
    intro h1 h2
    rw [hin h1, if_pos h2]
  have hO : s._currentEffect = EFFECT_FADE_OUT → 100 ≤ s._step →
      (s._updateEffect fp)._currentEffect = EFFECT_NONE := by
    intro h1 h2
    rw [hout h1, if_pos h2]
  refine ⟨⟨?_, ?_⟩, hI, hO, hkeep⟩
  · intro hne
    by_contra hn
    exact hne (hkeep hn)
  · rintro (⟨h1, h2⟩ | ⟨h1, h2⟩)
    · rw [hI h1 h2, h1]
      decide
    · rw [hO h1 h2, h1]
      decide

theorem only_fades_change_effect_witness :
    (exactFloat.FadeExact ∧
      ({ sampleRGB.setEffect EFFECT_FADE_OUT with _step := 100 } : VibeLED)._step < 65536) ∧
    (_updateEffect exactFloat
      { sampleRGB.setEffect EFFECT_FADE_OUT with _step := 100 })._currentEffect = EFFECT_NONE :=
  ⟨⟨exactFloat_fadeExact, by decide⟩,
    (only_fades_change_effect exactFloat exactFloat_fadeExact
      { sampleRGB.setEffect EFFECT_FADE_OUT with _step := 100 } (by decide)).2.2.1
      rfl (by decide)⟩

end VibeLED


/-! ## Colour conversions of RAINBOW and FIRE -/

namespace VibeLED

set_option maxRecDepth 1000000 in
/-- C25: for every hue in `0..255` the conversion `rainbowColor` of
`_effectRainbow` yields a colour whose largest channel is 255 and whose
smallest channel is 0; the region `hue / 43` is at most 5 and the remainder
`(hue - region * 43) * 6` lies in `0..255`, so the stores into `uint8_t` do not
wrap: the colour is the one given by the untruncated region and remainder. -/
theorem rainbowColor_saturated (hue : Nat) (h : hue < 256) :
    max (max (rainbowColor hue).r (rainbowColor hue).g) (rainbowColor hue).b = 255 ∧
    min (min (rainbowColor hue).r (rainbowColor hue).g) (rainbowColor hue).b = 0 ∧
    rainbowRegion hue ≤ 5 ∧
    0 ≤ rainbowRemainder hue ∧ rainbowRemainder hue ≤ 255 ∧
    rainbowColor hue =
      (if rainbowRegion hue = 0 then ⟨255, (rainbowRemainder hue).toNat, 0⟩
       else if rainbowRegion hue = 1 then ⟨255 - (rainbowRemainder hue).toNat, 255, 0⟩
       else if rainbowRegion hue = 2 then ⟨0, 255, (rainbowRemainder hue).toNat⟩
       else if rainbowRegion hue = 3 then ⟨0, 255 - (rainbowRemainder hue).toNat, 255⟩
       else if rainbowRegion hue = 4 then ⟨(rainbowRemainder hue).toNat, 0, 255⟩
       else ⟨255, 0, 255 - (rainbowRemainder hue).toNat⟩) := by
  revert hue
  decide

set_option maxRecDepth 100000 in
theorem rainbowColor_saturated_witness :
    max (max (rainbowColor 100).r (rainbowColor 100).g) (rainbowColor 100).b = 255 ∧
    min (min (rainbowColor 100).r (rainbowColor 100).g) (rainbowColor 100).b = 0 ∧
    rainbowRegion 100 ≤ 5 ∧ rainbowRemainder 100 = 84 ∧
    rainbowColor 100 = ⟨0, 255, 84⟩ :=
  ⟨(rainbowColor_saturated 100 (by decide)).1, (rainbowColor_saturated 100 (by decide)).2.1,
    (rainbowColor_saturated 100 (by decide)).2.2.1, by decide, by decide⟩

theorem fireColor_eq (h : Nat) (hh : h < 256) :
    fireColor h =
      if h < 85 then ⟨3 * h, 0, 0⟩
      else if h < 170 then ⟨255, 3 * (h - 85), 0⟩ else ⟨255, 255, 3 * (h - 170)⟩ := by
  unfold fireColor u8
  split_ifs
  · have e : (((h : Int) * 3) % 256).toNat = 3 * h := by omega
    rw [e]
  · have e : ((((h : Int) - 85) * 3) % 256).toNat = 3 * (h - 85) := by omega
    rw [e]
  · have e : ((((h : Int) - 170) * 3) % 256).toNat = 3 * (h - 170) := by omega
    rw [e]

/-- C26: for every heat value `h` in `0..255` the colour written by
`_effectFire` is `(3h, 0, 0)` below 85, `(255, 3(h - 85), 0)` from 85 to 169 and
`(255, 255, 3(h - 170))` from 170; every channel value is at most 255, so the
8-bit stores do not wrap; and each channel is non-decreasing in `h`. -/
theorem fireColor_ramp (h : Nat) (hh : h < 256) :
    (h < 85 → fireColor h = ⟨3 * h, 0, 0⟩ ∧ 3 * h ≤ 255) ∧
    (85 ≤ h → h < 170 → fireColor h = ⟨255, 3 * (h - 85), 0⟩ ∧ 3 * (h - 85) ≤ 255) ∧
    (170 ≤ h → fireColor h = ⟨255, 255, 3 * (h - 170)⟩ ∧ 3 * (h - 170) ≤ 255) ∧
    (∀ h2, h ≤ h2 → h2 < 256 →
      (fireColor h).r ≤ (fireColor h2).r ∧ (fireColor h).g ≤ (fireColor h2).g ∧
      (fireColor h).b ≤ (fireColor h2).b) := by
  refine ⟨?_, ?_, ?_, ?_⟩
  · intro h1
    rw [fireColor_eq h hh, if_pos h1]
    exact ⟨rfl, by omega⟩
  · intro h1 h2
    rw [fireColor_eq h hh, if_neg (by omega), if_pos h2]
    exact ⟨rfl, by omega⟩
  · intro h1
    rw [fireColor_eq h hh, if_neg (by omega), if_neg (by omega)]
    exact ⟨rfl, by omega⟩
  · intro h2 h12 h2lt
    rw [fireColor_eq h hh, fireColor_eq h2 h2lt]
    split_ifs <;> dsimp only <;> refine ⟨?_, ?_, ?_⟩ <;> omega

theorem fireColor_ramp_witness :
    fireColor 100 = ⟨255, 45, 0⟩ ∧ 3 * (100 - 85) ≤ 255 ∧
    (fireColor 100).g ≤ (fireColor 200).g :=
  ⟨((fireColor_ramp 100 (by decide)).2.1 (by decide) (by decide)).1,
    ((fireColor_ramp 100 (by decide)).2.1 (by decide) (by decide)).2,
    ((fireColor_ramp 100 (by decide)).2.2.2 200 (by decide) (by decide)).2.1⟩

end VibeLED


/-! ## Further loop lemmas -/

theorem forBelow_succ {σ : Type} (n : Nat) (body : Nat → σ → σ) (s : σ) :
    forBelow (n + 1) body s = body n (forBelow n body s) := by
  unfold forBelow
  rw [List.range'_concat, List.foldl_append]
  simp

theorem forBelow_zero {σ : Type} (body : Nat → σ → σ) (s : σ) : forBelow 0 body s = s := rfl

theorem forDownAbove_succ {σ : Type} (hi lo : Nat) (h : lo ≤ hi) (body : Nat → σ → σ) (s : σ) :
    forDownAbove (hi + 1) lo body s = forDownAbove hi lo body (body (hi + 1) s) := by
  unfold forDownAbove
  have e : hi + 1 - lo = (hi - lo) + 1 := by omega
  rw [e, List.range'_concat, List.reverse_append]
  have e2 : lo + 1 + 1 * (hi - lo) = hi + 1 := by omega
  rw [e2]
  simp

theorem forDownAbove_self {σ : Type} (hi lo : Nat) (h : hi ≤ lo) (body : Nat → σ → σ) (s : σ) :
    forDownAbove hi lo body s = s := by
  unfold forDownAbove
  have e : hi - lo = 0 := by omega
  rw [e]
  rfl

/-- The shifting loop `for (i = hi; i > lo; i--) buf[i] = buf[i - 1]`. -/
theorem forDownAbove_shift {α : Type} (d : α) (hi lo : Nat) (buf : List α) (j : Nat)
    (hlen : hi < buf.length) :
    (forDownAbove hi lo (fun i b => b.set i (b.getD (i - 1) d)) buf)[j]? =
      if lo < j ∧ j ≤ hi then buf[j - 1]? else buf[j]? := by
  induction hi generalizing buf with
  | zero =>
    rw [forDownAbove_self 0 lo (by omega)]
    have h : ¬ (lo < j ∧ j ≤ 0) := by omega
    rw [if_neg h]
  | succ hi ih =>
    by_cases hlo : lo ≤ hi
    · rw [forDownAbove_succ hi lo hlo, ih _ (by rw [List.length_set]; omega)]
      by_cases h1 : lo < j ∧ j ≤ hi
      · have h2 : lo < j ∧ j ≤ hi + 1 := by omega
        rw [if_pos h1, if_pos h2, List.getElem?_set]
        have h3 : ¬ hi + 1 = j - 1 := by omega
        rw [if_neg h3]
      · rw [if_neg h1, List.getElem?_set]
        by_cases h4 : hi + 1 = j
        · subst h4
          have h2 : lo < hi + 1 ∧ hi + 1 ≤ hi + 1 := by omega
          have h5 : hi < buf.length := by omega
          rw [if_pos rfl, if_pos hlen, if_pos h2, List.getD_eq_getElem?_getD]
          have e : hi + 1 - 1 = hi := by omega
          rw [e, List.getElem?_eq_getElem h5]
          rfl
        · have h2 : ¬ (lo < j ∧ j ≤ hi + 1) := by omega
          rw [if_neg h4, if_neg h2]
    · rw [forDownAbove_self (hi + 1) lo (by omega)]
      have h : ¬ (lo < j ∧ j ≤ hi + 1) := by omega
      rw [if_neg h]

/-- A loop that stores one fixed value at positions `g i`, for the `i` that
pass the test `c`. -/
theorem forBelow_mark {α : Type} (v : α) (g : Nat → Nat) (c : Nat → Prop) [DecidablePred c]
    (n : Nat) (buf : List α) (j : Nat) (hj : j < buf.length) :
    (forBelow n (fun i b => if c i then b.set (g i) v else b) buf)[j]? =
      if ∃ i, i < n ∧ c i ∧ g i = j then some v else buf[j]? := by
  induction n with
  | zero =>
    have h : ¬ ∃ i, i < 0 ∧ c i ∧ g i = j := by
      rintro ⟨i, hi, _⟩
      omega
    rw [forBelow_zero, if_neg h]
  | succ n ih =>
    have hl : (forBelow n (fun i b => if c i then b.set (g i) v else b) buf).length =
        buf.length := by
      apply VibeLED.forBelow_length
      intro i b
      split_ifs
      · rw [List.length_set]
      · rfl
    rw [forBelow_succ]
    by_cases hc : c n ∧ g n = j
    · have h : ∃ i, i < n + 1 ∧ c i ∧ g i = j := ⟨n, by omega, hc.1, hc.2⟩
      rw [if_pos h]
      show (if c n then _ else _)[j]? = _
      rw [if_pos hc.1, List.getElem?_set, if_pos hc.2, hl, hc.2, if_pos hj]
    · have hiff : (∃ i, i < n + 1 ∧ c i ∧ g i = j) ↔ (∃ i, i < n ∧ c i ∧ g i = j) := by
        constructor
        · rintro ⟨i, hi, h1, h2⟩
          have : i ≠ n := by
            rintro rfl
            exact hc ⟨h1, h2⟩
          exact ⟨i, by omega, h1, h2⟩
        · rintro ⟨i, hi, h1, h2⟩
          exact ⟨i, by omega, h1, h2⟩
      rw [if_congr hiff rfl rfl, ← ih]
      show (if c n then _ else _)[j]? = _
      by_cases h1 : c n
      · rw [if_pos h1, List.getElem?_set]
        have : ¬ g n = j := fun h => hc ⟨h1, h⟩
        rw [if_neg this]
      · rw [if_neg h1]

/-- A loop that stores `f i` at the distinct positions `lo + i`. -/
theorem forBelow_set_offset {α : Type} (f : Nat → α) (lo n : Nat) (buf : List α) (j : Nat) :
    (forBelow n (fun i b => b.set (lo + i) (f i)) buf)[j]? =
      if lo ≤ j ∧ j < lo + n ∧ j < buf.length then some (f (j - lo)) else buf[j]? := by
  induction n with
  | zero =>
    have h : ¬ (lo ≤ j ∧ j < lo + 0 ∧ j < buf.length) := by omega
    rw [forBelow_zero, if_neg h]
  | succ n ih =>
    have hl : (forBelow n (fun i b => b.set (lo + i) (f i)) buf).length = buf.length := by
      apply VibeLED.forBelow_length
      intro i b
      rw [List.length_set]
    rw [forBelow_succ, List.getElem?_set, hl, ih]
    by_cases h1 : lo + n = j
    · subst h1
      have e : lo + n - lo = n := by omega
      by_cases h2 : lo + n < buf.length
      · have h3 : lo ≤ lo + n ∧ lo + n < lo + (n + 1) ∧ lo + n < buf.length := by omega
        rw [if_pos rfl, if_pos h2, if_pos h3, e]
      · have h3 : ¬ (lo ≤ lo + n ∧ lo + n < lo + (n + 1) ∧ lo + n < buf.length) := by omega
        have h4 : ¬ (lo ≤ lo + n ∧ lo + n < lo + n ∧ lo + n < buf.length) := by omega
        rw [if_pos rfl, if_neg h2, if_neg h3, List.getElem?_eq_none (by omega)]
    · rw [if_neg h1]
      by_cases h2 : lo ≤ j ∧ j < lo + n ∧ j < buf.length
      · have h3 : lo ≤ j ∧ j < lo + (n + 1) ∧ j < buf.length := by omega
        rw [if_pos h2, if_pos h3]
      · have h3 : ¬ (lo ≤ j ∧ j < lo + (n + 1) ∧ j < buf.length) := by omega
        rw [if_neg h2, if_neg h3]

namespace VibeLED

theorem runEffect_meteor (fp : FloatOps) (s : VibeLED) :
    runEffect fp EFFECT_METEOR s = s._effectMeteor fp := by
  unfold runEffect
  rw [if_neg (by decide), if_neg (by decide), if_neg (by decide), if_neg (by decide), if_neg (by decide), if_neg (by decide), if_neg (by decide), if_neg (by decide), if_neg (by decide), if_pos rfl]

theorem runEffect_fire (fp : FloatOps) (s : VibeLED) :
    runEffect fp EFFECT_FIRE s = s._effectFire := by
  unfold runEffect
  rw [if_neg (by decide), if_neg (by decide), if_neg (by decide), if_neg (by decide), if_neg (by decide), if_neg (by decide), if_neg (by decide), if_neg (by decide), if_neg (by decide), if_neg (by decide), if_pos rfl]

theorem runEffect_waterfall (fp : FloatOps) (s : VibeLED) :
    runEffect fp EFFECT_WATERFALL s = s._effectWaterfall := by
  unfold runEffect
  rw [if_neg (by decide), if_neg (by decide), if_neg (by decide), if_neg (by decide), if_neg (by decide), if_neg (by decide), if_neg (by decide), if_neg (by decide), if_neg (by decide), if_neg (by decide), if_neg (by decide), if_pos rfl]

theorem runEffect_rainbow (fp : FloatOps) (s : VibeLED) :
    runEffect fp EFFECT_RAINBOW s = s._effectRainbow fp := by
  unfold runEffect
  rw [if_neg (by decide), if_neg (by decide), if_neg (by decide), if_neg (by decide), if_neg (by decide), if_neg (by decide), if_neg (by decide), if_neg (by decide), if_neg (by decide), if_neg (by decide), if_neg (by decide), if_neg (by decide), if_neg (by decide), if_neg (by decide), if_pos rfl]

theorem runEffect_sparkle (fp : FloatOps) (s : VibeLED) :
    runEffect fp EFFECT_SPARKLE s = s._effectSparkle fp := by
  unfold runEffect
  rw [if_neg (by decide), if_neg (by decide), if_neg (by decide), if_neg (by decide), if_neg (by decide), if_neg (by decide), if_neg (by decide), if_neg (by decide), if_neg (by decide), if_neg (by decide), if_neg (by decide), if_neg (by decide), if_neg (by decide), if_neg (by decide), if_neg (by decide), if_pos rfl]

theorem runEffect_bounce (fp : FloatOps) (s : VibeLED) :
    runEffect fp EFFECT_BOUNCE s = s._effectBounce fp := by
  unfold runEffect
  rw [if_neg (by decide), if_neg (by decide), if_neg (by decide), if_neg (by decide), if_neg (by decide), if_neg (by decide), if_neg (by decide), if_neg (by decide), if_neg (by decide), if_neg (by decide), if_neg (by decide), if_neg (by decide), if_neg (by decide), if_neg (by decide), if_neg (by decide), if_neg (by decide), if_neg (by decide), if_pos rfl]

theorem runEffect_randomBlink (fp : FloatOps) (s : VibeLED) :
    runEffect fp EFFECT_RANDOM_BLINK s = s._effectRandomBlink := by
  unfold runEffect
  rw [if_neg (by decide), if_neg (by decide), if_neg (by decide), if_neg (by decide), if_neg (by decide), if_neg (by decide), if_neg (by decide), if_neg (by decide), if_neg (by decide), if_neg (by decide), if_neg (by decide), if_neg (by decide), if_neg (by decide), if_neg (by decide), if_neg (by decide), if_neg (by decide), if_neg (by decide), if_neg (by decide), if_neg (by decide), if_pos rfl]

theorem runEffect_snake (fp : FloatOps) (s : VibeLED) :
    runEffect fp EFFECT_SNAKE s = s._effectSnake fp := by
  unfold runEffect
  rw [if_neg (by decide), if_neg (by decide), if_neg (by decide), if_neg (by decide), if_neg (by decide), if_neg (by decide), if_neg (by decide), if_neg (by decide), if_neg (by decide), if_neg (by decide), if_neg (by decide), if_neg (by decide), if_neg (by decide), if_neg (by decide), if_neg (by decide), if_neg (by decide), if_neg (by decide), if_neg (by decide), if_neg (by decide), if_neg (by decide), if_pos rfl]

end VibeLED


/-! ## WATERFALL and RANDOM_BLINK -/

namespace VibeLED

theorem random_fst (s : VibeLED) (n : Nat) (h : n ≠ 0) :
    (s.random n).1 = s.rnd s.rndPos % n := by
  unfold random
  rw [if_neg h]

theorem random_snd (s : VibeLED) (n : Nat) (h : n ≠ 0) :
    (s.random n).2 = { s with rndPos := s.rndPos + 1 } := by
  unfold random
  rw [if_neg h]

/-- C22: after one `_effectWaterfall` call on a valid strip, every element at
an index `i` with `_groupStart < i ≤ _groupEnd` holds what element `i - 1` held
before the call, and the element at `_groupStart` is on / `color1` when the
draw `random(100)` is below 20 and off / black otherwise; the dispatcher runs
this method for `EFFECT_WATERFALL`. -/
theorem waterfall_shift (fp : FloatOps) (s : VibeLED) (hv : s.Valid) :
    runEffect fp EFFECT_WATERFALL s = s._effectWaterfall ∧
    (s._ledType = LED_TYPE_SINGLE →
      (∀ i, s._groupStart < i → i ≤ s._groupEnd →
        s._effectWaterfall._ledStates[i]? = s._ledStates[i - 1]?) ∧
      s._effectWaterfall._ledStates[s._groupStart]? =
        some (decide (s.rnd s.rndPos % 100 < 20)) ∧
      (s._effectWaterfall._ledStates[s._groupStart]? = some false ∨
        s._effectWaterfall._ledStates[s._groupStart]? = some true)) ∧
    (s._ledType = LED_TYPE_RGB →
      (∀ i, s._groupStart < i → i ≤ s._groupEnd →
        s._effectWaterfall._ledColors[i]? = s._ledColors[i - 1]?) ∧
      s._effectWaterfall._ledColors[s._groupStart]? =
        some (if s.rnd s.rndPos % 100 < 20 then s._effectParams.color1 else ⟨0, 0, 0⟩) ∧
      (s._effectWaterfall._ledColors[s._groupStart]? = some ⟨0, 0, 0⟩ ∨
        s._effectWaterfall._ledColors[s._groupStart]? = some s._effectParams.color1)) := by
  obtain ⟨hty, h1, h2, h3, h4, h5, h6, h7⟩ := hv
  refine ⟨runEffect_waterfall fp s, ?_, ?_⟩
  · intro ht
    have hlen := h5 ht
    have hsl : (forDownAbove s._groupEnd s._groupStart
        (fun i b => b.set i (b.getD (i - 1) false)) s._ledStates).length = s._ledStates.length :=
      forDownAbove_length _ _ _ _ (fun i b => by rw [List.length_set])
    have hst : s._effectWaterfall._ledStates =
        (forDownAbove s._groupEnd s._groupStart (fun i b => b.set i (b.getD (i - 1) false))
          s._ledStates).set s._groupStart (decide (s.rnd s.rndPos % 100 < 20)) := by
      unfold _effectWaterfall
      rw [if_pos ht, random_fst s 100 (by decide)]
    have hgs : s._effectWaterfall._ledStates[s._groupStart]? =
        some (decide (s.rnd s.rndPos % 100 < 20)) := by
      rw [hst, List.getElem?_set, if_pos rfl, hsl, if_pos (by omega)]
    refine ⟨?_, hgs, ?_⟩
    · intro i hi1 hi2
      rw [hst, List.getElem?_set, if_neg (by omega),
        forDownAbove_shift false _ _ _ _ (by omega), if_pos ⟨hi1, hi2⟩]
    · rw [hgs]
      cases decide (s.rnd s.rndPos % 100 < 20)
      · exact Or.inl rfl
      · exact Or.inr rfl
  · intro ht
    have hne : ¬ s._ledType = LED_TYPE_SINGLE := by
      rw [ht]
      decide
    have hlen := h6 ht
    have hsl : (forDownAbove s._groupEnd s._groupStart
        (fun i b => b.set i (b.getD (i - 1) ⟨0, 0, 0⟩)) s._ledColors).length =
          s._ledColors.length :=
      forDownAbove_length _ _ _ _ (fun i b => by rw [List.length_set])
    have hst : s._effectWaterfall._ledColors =
        (forDownAbove s._groupEnd s._groupStart (fun i b => b.set i (b.getD (i - 1) ⟨0, 0, 0⟩))
          s._ledColors).set s._groupStart
            (if s.rnd s.rndPos % 100 < 20 then s._effectParams.color1 else ⟨0, 0, 0⟩) := by
      unfold _effectWaterfall
      rw [if_neg hne, random_fst s 100 (by decide)]
      by_cases hd : s.rnd s.rndPos % 100 < 20
      · rw [if_pos hd, if_pos hd]
      · rw [if_neg hd, if_neg hd]
    have hgs : s._effectWaterfall._ledColors[s._groupStart]? =
        some (if s.rnd s.rndPos % 100 < 20 then s._effectParams.color1 else ⟨0, 0, 0⟩) := by
      rw [hst, List.getElem?_set, if_pos rfl, hsl, if_pos (by omega)]
    refine ⟨?_, hgs, ?_⟩
    · intro i hi1 hi2
      rw [hst, List.getElem?_set, if_neg (by omega),
        forDownAbove_shift _ _ _ _ _ (by omega), if_pos ⟨hi1, hi2⟩]
    · rw [hgs]
      by_cases hd : s.rnd s.rndPos % 100 < 20
      · rw [if_pos hd]
        exact Or.inr rfl
      · rw [if_neg hd]
        exact Or.inl rfl

theorem waterfall_shift_witness :
    sampleRGB.Valid ∧
    (∀ i, sampleRGB._groupStart < i → i ≤ sampleRGB._groupEnd →
      sampleRGB._effectWaterfall._ledColors[i]? = sampleRGB._ledColors[i - 1]?) ∧
    sampleRGB._effectWaterfall._ledColors[sampleRGB._groupStart]? =
      some sampleRGB._effectParams.color1 :=
  ⟨by decide, ((waterfall_shift hostFloat sampleRGB (by decide)).2.2 rfl).1,
    ((waterfall_shift hostFloat sampleRGB (by decide)).2.2 rfl).2.1⟩

/-- The BINARY loop of `_effectRandomBlink` in closed form. -/
theorem randomBlink_loop (s : VibeLED) (ht : s._ledType = LED_TYPE_SINGLE) (n : Nat) :
    forBelow n
      (fun i t =>
        let isOn : Bool := decide ((t.random 100).1 < 30)
        let t1 := (t.random 100).2
        if t1._ledType = LED_TYPE_SINGLE then
          { t1 with _ledStates := t1._ledStates.set (t1._groupStart + i) isOn }
        else
          if isOn then
            let r : Nat := u8 (t1.random 256).1
            let t2 := (t1.random 256).2
            let g : Nat := u8 (t2.random 256).1
            let t3 := (t2.random 256).2
            let b : Nat := u8 (t3.random 256).1
            let t4 := (t3.random 256).2
            { t4 with _ledColors := t4._ledColors.set (t4._groupStart + i) ⟨r, g, b⟩ }
          else
            { t1 with _ledColors := t1._ledColors.set (t1._groupStart + i) ⟨0, 0, 0⟩ })
      s =
    { s with
      rndPos := s.rndPos + n
      _ledStates :=
        (forBelow n
          (fun i b => b.set (s._groupStart + i) (decide (s.rnd (s.rndPos + i) % 100 < 30)))
          s._ledStates) } := by
  induction n with
  | zero => rfl
  | succ n ih =>
    rw [forBelow_succ, ih, forBelow_succ]
    simp only [random_fst _ 100 (by decide), random_snd _ 100 (by decide)]
    rw [if_pos ht]
    rfl

/-- C23: at a step with `_step mod 5 ≠ 0` one `_effectRandomBlink` call returns
the state it was given: both buffers and the cursor of the random source are
unchanged, also through the dispatcher.  At a step with `_step mod 5 = 0` on a
valid BINARY strip the call consumes one random value per group element and
stores `random(100) < 30` in each of them. -/
theorem randomBlink_holds (fp : FloatOps) (s : VibeLED) :
    (s._step % 5 ≠ 0 →
      s._effectRandomBlink = s ∧
      (runEffect fp EFFECT_RANDOM_BLINK s)._ledStates = s._ledStates ∧
      (runEffect fp EFFECT_RANDOM_BLINK s)._ledColors = s._ledColors ∧
      (runEffect fp EFFECT_RANDOM_BLINK s).rndPos = s.rndPos ∧
      (s._currentEffect = EFFECT_RANDOM_BLINK →
        (s._updateEffect fp)._ledStates = s._ledStates ∧
        (s._updateEffect fp)._ledColors = s._ledColors ∧
        (s._updateEffect fp).rndPos = s.rndPos)) ∧
    (s._step % 5 = 0 → s.Valid → s._ledType = LED_TYPE_SINGLE →
      s._effectRandomBlink.rndPos = s.rndPos + (s._groupEnd - s._groupStart + 1) ∧
      ∀ i, i < s._groupEnd - s._groupStart + 1 →
        s._effectRandomBlink._ledStates[s._groupStart + i]? =
          some (decide (s.rnd (s.rndPos + i) % 100 < 30))) := by
  constructor
  · intro h
    have e : s._effectRandomBlink = s := by
      unfold _effectRandomBlink
      rw [if_neg h]
    have e2 : runEffect fp EFFECT_RANDOM_BLINK s = s := by
      rw [runEffect_randomBlink, e]
    refine ⟨e, by rw [e2], by rw [e2], by rw [e2], ?_⟩
    intro hc
    unfold _updateEffect
    rw [hc, e2]
    exact ⟨rfl, rfl, rfl⟩
  · intro h hv ht
    have hg := groupSize_eq s hv
    obtain ⟨hty, h1, h2, h3, h4, h5, h6, h7⟩ := hv
    have e : s._effectRandomBlink =
        { s with
          rndPos := s.rndPos + s.groupSize
          _ledStates :=
            (forBelow s.groupSize
              (fun i b => b.set (s._groupStart + i) (decide (s.rnd (s.rndPos + i) % 100 < 30)))
              s._ledStates) } := by
      unfold _effectRandomBlink
      rw [if_pos h]
      exact randomBlink_loop s ht s.groupSize
    rw [e, hg]
    refine ⟨rfl, ?_⟩
    intro i hi
    show (forBelow _ _ s._ledStates)[s._groupStart + i]? = _
    rw [forBelow_set_offset, if_pos ⟨by omega, by omega, by rw [h5 ht]; omega⟩]
    have e3 : s._groupStart + i - s._groupStart = i := by omega
    rw [e3]

theorem randomBlink_holds_witness :
    ((sampleSingle.setEffect EFFECT_RANDOM_BLINK)._updateEffect hostFloat)._step % 5 ≠ 0 ∧
    ((sampleSingle.setEffect EFFECT_RANDOM_BLINK)._updateEffect hostFloat)._effectRandomBlink =
      ((sampleSingle.setEffect EFFECT_RANDOM_BLINK)._updateEffect hostFloat) ∧
    (sampleSingle._step % 5 = 0 ∧ sampleSingle.Valid ∧
      sampleSingle._ledType = LED_TYPE_SINGLE) ∧
    sampleSingle._effectRandomBlink.rndPos = 5 :=
  ⟨by decide,
    ((randomBlink_holds hostFloat
      ((sampleSingle.setEffect EFFECT_RANDOM_BLINK)._updateEffect hostFloat)).1 (by decide)).1,
    ⟨by decide, by decide, rfl⟩,
    ((randomBlink_holds hostFloat sampleSingle).2 (by decide) (by decide) rfl).1⟩

end VibeLED


/-! ## RAINBOW -/

namespace VibeLED

theorem rainbowHue_eq (i n st : Nat) : rainbowHue i n st = (i * 255 / n + st) % 256 := by
  unfold rainbowHue u8
  omega

theorem rainbowHue_succ (i n st : Nat) :
    rainbowHue i n ((st + 1) % 65536) = (rainbowHue i n st + 1) % 256 := by
  rw [rainbowHue_eq, rainbowHue_eq]
  omega

theorem effectRainbow_elem (fp : FloatOps) (s : VibeLED) (hv : s.Valid)
    (ht : s._ledType = LED_TYPE_RGB) (i : Nat) (hi : i < s._groupEnd - s._groupStart + 1) :
    (s._effectRainbow fp)._ledColors[s._groupStart + i]? =
      some (rainbowColor (rainbowHue i (s._groupEnd - s._groupStart + 1) s._step)) := by
  have hg := groupSize_eq s hv
  obtain ⟨hty, h1, h2, h3, h4, h5, h6, h7⟩ := hv
  unfold _effectRainbow
  simp only []
  rw [if_pos ht, hg]
  show (forBelow _ _ s._ledColors)[s._groupStart + i]? = _
  rw [forBelow_set_offset, if_pos ⟨by omega, by omega, by rw [h6 ht]; omega⟩]
  have e : s._groupStart + i - s._groupStart = i := by omega
  rw [e]

theorem updateEffect_rainbow (fp : FloatOps) (s : VibeLED)
    (he : s._currentEffect = EFFECT_RAINBOW) :
    (s._updateEffect fp)._ledColors = (s._effectRainbow fp)._ledColors ∧
    (s._updateEffect fp)._currentEffect = EFFECT_RAINBOW := by
  unfold _updateEffect
  rw [he, runEffect_rainbow]
  exact ⟨rfl, (keeps_effectRainbow fp s).trans he⟩

/-- C15: on a valid COLOR strip with group size `N = _groupEnd - _groupStart + 1`,
`_effectRainbow` stores at the group-relative index `i` the conversion of the hue
`rainbowHue i N _step = (i * 255 / N + _step) mod 256`; the hue of the next step
is `(hue + 1) mod 256`, also where the 16-bit step counter wraps, so the second
of two consecutive dispatcher calls stores the conversion of
`(hue(i, s) + 1) mod 256`; at step 0 the first group element is `(255, 0, 0)`. -/
theorem rainbow_hue_shift (fp : FloatOps) (s : VibeLED) (hv : s.Valid)
    (ht : s._ledType = LED_TYPE_RGB) :
    runEffect fp EFFECT_RAINBOW s = s._effectRainbow fp ∧
    (∀ i, i < s._groupEnd - s._groupStart + 1 →
      (s._effectRainbow fp)._ledColors[s._groupStart + i]? =
        some (rainbowColor (rainbowHue i (s._groupEnd - s._groupStart + 1) s._step))) ∧
    (∀ i st, rainbowHue i (s._groupEnd - s._groupStart + 1) st =
      (i * 255 / (s._groupEnd - s._groupStart + 1) + st) % 256) ∧
    (∀ i st, rainbowHue i (s._groupEnd - s._groupStart + 1) ((st + 1) % 65536) =
      (rainbowHue i (s._groupEnd - s._groupStart + 1) st + 1) % 256) ∧
    (s._currentEffect = EFFECT_RAINBOW →
      ∀ i, i < s._groupEnd - s._groupStart + 1 →
        (s._updateEffect fp)._ledColors[s._groupStart + i]? =
          some (rainbowColor (rainbowHue i (s._groupEnd - s._groupStart + 1) s._step)) ∧
        ((s._updateEffect fp)._updateEffect fp)._ledColors[s._groupStart + i]? =
          some (rainbowColor
            ((rainbowHue i (s._groupEnd - s._groupStart + 1) s._step + 1) % 256))) ∧
    (s._step = 0 → (s._effectRainbow fp)._ledColors[s._groupStart]? = some ⟨255, 0, 0⟩) := by
  refine ⟨runEffect_rainbow fp s, fun i hi => effectRainbow_elem fp s hv ht i hi,
    fun i st => rainbowHue_eq _ _ _, fun i st => rainbowHue_succ _ _ _, ?_, ?_⟩
  · intro he i hi
    obtain ⟨f1, f2, f3, f4, _⟩ := frame_updateEffect fp s
    have hv2 := valid_updateEffect fp s hv
    have hs := updateEffect_step fp s
    obtain ⟨u1, u2⟩ := updateEffect_rainbow fp s he
    obtain ⟨w1, _⟩ := updateEffect_rainbow fp (s._updateEffect fp) u2
    constructor
    · rw [u1]
      exact effectRainbow_elem fp s hv ht i hi
    · have := effectRainbow_elem fp (s._updateEffect fp) hv2 (f1.trans ht) i
        (by rw [f3, f4]; exact hi)
      rw [f3, f4, hs, rainbowHue_succ] at this
      rw [w1]
      exact this
  · intro h0
    have := effectRainbow_elem fp s hv ht 0 (by omega)
    rw [h0] at this
    rw [Nat.add_zero] at this
    rw [this, rainbowHue_eq]
    simp only [Nat.zero_mul, Nat.zero_div, Nat.zero_add, Nat.zero_mod]
    rfl

theorem rainbow_hue_shift_witness :
    (sampleRGB.Valid ∧ sampleRGB._ledType = LED_TYPE_RGB ∧ sampleRGB._step = 0 ∧
      sampleRGB._numLeds = 10) ∧
    (sampleRGB._effectRainbow hostFloat)._ledColors[sampleRGB._groupStart]? =
      some ⟨255, 0, 0⟩ :=
  ⟨⟨by decide, rfl, rfl, rfl⟩,
    (rainbow_hue_shift hostFloat sampleRGB (by decide) rfl).2.2.2.2.2 rfl⟩

end VibeLED


/-! ## SNAKE and SPARKLE -/

theorem forBelow_mark_all {α : Type} (v : α) (g : Nat → Nat) (n : Nat) (buf : List α) (j : Nat)
    (hj : j < buf.length) :
    (forBelow n (fun i b => b.set (g i) v) buf)[j]? =
      if ∃ i, i < n ∧ g i = j then some v else buf[j]? := by
  have e : (fun (i : Nat) (b : List α) => b.set (g i) v) =
      (fun i b => if (fun _ => True) i then b.set (g i) v else b) := by
    funext i b
    simp
  rw [e, forBelow_mark v g (fun _ => True) n buf j hj]
  simp

/-- The lit elements of a group of `n` elements are the image of the `l` indices
of a drawing loop. -/
theorem lit_eq_image (n l : Nat) (f : Nat → Nat) (hf : ∀ i, i < l → f i < n) (lit : Nat → Bool)
    (h : ∀ j, j < n → lit j = decide (∃ i, i < l ∧ f i = j)) :
    (Finset.range n).filter (fun j => lit j = true) = (Finset.range l).image f := by
  ext j
  simp only [Finset.mem_filter, Finset.mem_range, Finset.mem_image]
  constructor
  · rintro ⟨hj, hl⟩
    rw [h j hj, decide_eq_true_eq] at hl
    exact hl
  · rintro ⟨i, hi, rfl⟩
    refine ⟨hf i hi, ?_⟩
    rw [h _ (hf i hi), decide_eq_true_eq]
    exact ⟨i, hi, rfl⟩

namespace VibeLED

theorem snake_positions_distinct (n l st i1 i2 : Nat) (hl : l ≤ n) (h1 : i1 < l) (h2 : i2 < l)
    (h : (st + i1) % n = (st + i2) % n) : i1 = i2 := by
  have hm : st + i1 ≡ st + i2 [MOD n] := h
  exact Nat.ModEq.eq_of_lt_of_lt (Nat.ModEq.add_left_cancel' st hm) (by omega) (by omega)

/-- The BINARY drawing loop of `_effectSnake` in closed form. -/
theorem snake_loop (fp : FloatOps) (s : VibeLED) (ht : s._ledType = LED_TYPE_SINGLE)
    (numLeds snakeLength n : Nat) :
    forBelow n
      (fun i t =>
        let pos : Nat := u16 (((t._step + i) % numLeds : Nat) : Int)
        if t._ledType = LED_TYPE_SINGLE then
          { t with _ledStates := t._ledStates.set (t._groupStart + pos) true }
        else
          let intensity := fp.sub (fp.ofInt 1) (fp.div (fp.ofInt i) (fp.ofInt snakeLength))
          { t with _ledColors :=
              (t._ledColors.set (t._groupStart + pos)
                (scaleColor fp t._effectParams.color1 intensity)) })
      s =
    { s with
      _ledStates :=
        (forBelow n
          (fun i b => b.set (s._groupStart + u16 (((s._step + i) % numLeds : Nat) : Int)) true)
          s._ledStates) } := by
  induction n with
  | zero => rfl
  | succ n ih =>
    rw [forBelow_succ, ih, forBelow_succ]
    simp only []
    rw [if_pos ht]

theorem effectSnake_states (fp : FloatOps) (s : VibeLED) (ht : s._ledType = LED_TYPE_SINGLE) :
    (s._effectSnake fp)._ledStates =
      forBelow (u16 (max 1 (s.groupSize / 4) : Nat))
        (fun i b => b.set (s._groupStart + u16 (((s._step + i) % s.groupSize : Nat) : Int)) true)
        (forUpTo s._groupStart s._groupEnd (fun i b => b.set i false) s._ledStates) := by
  unfold _effectSnake
  simp only []
  rw [if_pos ht]
  exact congrArg (fun t => t._ledStates)
    (snake_loop fp { s with _ledStates :=
      (forUpTo s._groupStart s._groupEnd (fun i b => b.set i false) s._ledStates) } ht
      s.groupSize (u16 (max 1 (s.groupSize / 4) : Nat)) (u16 (max 1 (s.groupSize / 4) : Nat)))

/-- C21: after `_effectSnake` on a valid BINARY strip with group size
`N = _groupEnd - _groupStart + 1` and `L = max(1, N / 4)`, whatever the buffer
held before, the group element at relative position `j` is lit iff
`j = (_step + i) mod N` for some `i < L`; these `L` positions are pairwise
distinct, and exactly `L` elements of the group are lit. -/
theorem snake_frame (fp : FloatOps) (s : VibeLED) (hv : s.Valid)
    (ht : s._ledType = LED_TYPE_SINGLE) :
    (∀ j, j < s._groupEnd - s._groupStart + 1 →
      (s._effectSnake fp)._ledStates[s._groupStart + j]? =
        some (decide (∃ i, i < max 1 ((s._groupEnd - s._groupStart + 1) / 4) ∧
          (s._step + i) % (s._groupEnd - s._groupStart + 1) = j))) ∧
    (∀ i1 i2, i1 < max 1 ((s._groupEnd - s._groupStart + 1) / 4) →
      i2 < max 1 ((s._groupEnd - s._groupStart + 1) / 4) →
      (s._step + i1) % (s._groupEnd - s._groupStart + 1) =
        (s._step + i2) % (s._groupEnd - s._groupStart + 1) → i1 = i2) ∧
    ((Finset.range (s._groupEnd - s._groupStart + 1)).filter
      (fun j => (s._effectSnake fp)._ledStates.getD (s._groupStart + j) false = true)).card =
        max 1 ((s._groupEnd - s._groupStart + 1) / 4) ∧
    runEffect fp EFFECT_SNAKE s = s._effectSnake fp := by
  have hg := groupSize_eq s hv
  obtain ⟨hty, h1, h2, h3, h4, h5, h6, h7⟩ := hv
  have hlen := h5 ht
  have hL : u16 ((max 1 ((s._groupEnd - s._groupStart + 1) / 4) : Nat) : Int) =
      max 1 ((s._groupEnd - s._groupStart + 1) / 4) := by
    apply u16_of_lt
    omega
  have hLN : max 1 ((s._groupEnd - s._groupStart + 1) / 4) ≤ s._groupEnd - s._groupStart + 1 := by
    omega
  have hpos : ∀ i, u16 (((s._step + i) % (s._groupEnd - s._groupStart + 1) : Nat) : Int) =
      (s._step + i) % (s._groupEnd - s._groupStart + 1) := by
    intro i
    apply u16_of_lt
    have := Nat.mod_lt (s._step + i) (show 0 < s._groupEnd - s._groupStart + 1 by omega)
    omega
  have hclear : (forUpTo s._groupStart s._groupEnd (fun i b => b.set i false)
      s._ledStates).length = s._ledStates.length :=
    forUpTo_length _ _ _ _ (fun i b => by rw [List.length_set])
  have helem : ∀ j, j < s._groupEnd - s._groupStart + 1 →
      (s._effectSnake fp)._ledStates[s._groupStart + j]? =
        some (decide (∃ i, i < max 1 ((s._groupEnd - s._groupStart + 1) / 4) ∧
          (s._step + i) % (s._groupEnd - s._groupStart + 1) = j)) := by
    intro j hj
    rw [effectSnake_states fp s ht, hg, hL,
      forBelow_mark_all true _ _ _ _ (by rw [hclear, hlen]; omega)]
    have hiff : (∃ i, i < max 1 ((s._groupEnd - s._groupStart + 1) / 4) ∧
        s._groupStart + u16 (((s._step + i) % (s._groupEnd - s._groupStart + 1) : Nat) : Int) =
          s._groupStart + j) ↔
        (∃ i, i < max 1 ((s._groupEnd - s._groupStart + 1) / 4) ∧
          (s._step + i) % (s._groupEnd - s._groupStart + 1) = j) := by
      constructor
      · rintro ⟨i, hi, h⟩
        rw [hpos] at h
        exact ⟨i, hi, by omega⟩
      · rintro ⟨i, hi, h⟩
        exact ⟨i, hi, by rw [hpos, h]⟩
    by_cases hd : ∃ i, i < max 1 ((s._groupEnd - s._groupStart + 1) / 4) ∧
        (s._step + i) % (s._groupEnd - s._groupStart + 1) = j
    · rw [if_pos (hiff.2 hd), decide_eq_true hd]
    · rw [if_neg (fun h => hd (hiff.1 h)), decide_eq_false hd,
        forUpTo_set_inside _ _ _ _ _ (by omega) (by omega) (by rw [hlen]; omega)]
  refine ⟨helem, ?_, ?_, runEffect_snake fp s⟩
  · intro i1 i2 hi1 hi2 h
    exact snake_positions_distinct _ _ _ _ _ hLN hi1 hi2 h
  · rw [lit_eq_image (s._groupEnd - s._groupStart + 1)
      (max 1 ((s._groupEnd - s._groupStart + 1) / 4))
      (fun i => (s._step + i) % (s._groupEnd - s._groupStart + 1))
      (fun i _ => Nat.mod_lt _ (by omega))]
    · rw [Finset.card_image_of_injOn, Finset.card_range]
      intro i1 hi1 i2 hi2 h
      rw [Finset.coe_range, Set.mem_Iio] at hi1 hi2
      exact snake_positions_distinct _ _ _ _ _ hLN hi1 hi2 h
    · intro j hj
      rw [List.getD_eq_getElem?_getD, helem j hj]
      rfl

theorem snake_frame_witness :
    (sampleSingle.Valid ∧ sampleSingle._ledType = LED_TYPE_SINGLE) ∧
    ((Finset.range (sampleSingle._groupEnd - sampleSingle._groupStart + 1)).filter
      (fun j => (sampleSingle._effectSnake hostFloat)._ledStates.getD
        (sampleSingle._groupStart + j) false = true)).card =
        max 1 ((sampleSingle._groupEnd - sampleSingle._groupStart + 1) / 4) :=
  ⟨⟨by decide, rfl⟩, (snake_frame hostFloat sampleSingle (by decide) rfl).2.2.1⟩

/-- The BINARY drawing loop of `_effectSparkle` in closed form. -/
theorem sparkle_loop (s : VibeLED) (ht : s._ledType = LED_TYPE_SINGLE)
    (numLeds : Nat) (hn : numLeds ≠ 0) (n : Nat) :
    forBelow n
      (fun _ t =>
        let pos : Nat := u16 (t.random numLeds).1
        let t1 := (t.random numLeds).2
        if t1._ledType = LED_TYPE_SINGLE then
          { t1 with _ledStates := t1._ledStates.set (t1._groupStart + pos) true }
        else
          { t1 with _ledColors :=
              t1._ledColors.set (t1._groupStart + pos) t1._effectParams.color1 })
      s =
    { s with
      rndPos := s.rndPos + n
      _ledStates :=
        (forBelow n
          (fun i b => b.set (s._groupStart + u16 ((s.rnd (s.rndPos + i) % numLeds : Nat) : Int))
            true)
          s._ledStates) } := by
  induction n with
  | zero => rfl
  | succ n ih =>
    rw [forBelow_succ, ih, forBelow_succ]
    simp only [random_fst _ numLeds hn, random_snd _ numLeds hn]
    rw [if_pos ht]
    rfl

theorem effectSparkle_states (fp : FloatOps) (s : VibeLED) (hv : s.Valid)
    (ht : s._ledType = LED_TYPE_SINGLE) :
    (s._effectSparkle fp)._ledStates =
      forBelow (u16 (max 1 (s.groupSize / 10) : Nat))
        (fun i b =>
          b.set (s._groupStart + u16 ((s.rnd (s.rndPos + i) % s.groupSize : Nat) : Int)) true)
        (forUpTo s._groupStart s._groupEnd (fun i b => b.set i false) s._ledStates) ∧
    (s._effectSparkle fp).rndPos = s.rndPos + u16 (max 1 (s.groupSize / 10) : Nat) := by
  have hg := groupSize_eq s hv
  have hn : s.groupSize ≠ 0 := by omega
  unfold _effectSparkle
  simp only []
  rw [if_pos ht]
  have e := sparkle_loop { s with _ledStates :=
      (forUpTo s._groupStart s._groupEnd (fun i b => b.set i false) s._ledStates) } ht
      s.groupSize hn (u16 (max 1 (s.groupSize / 10) : Nat))
  exact ⟨congrArg (fun t => t._ledStates) e, congrArg (fun t => t.rndPos) e⟩

/-- C24: after `_effectSparkle` on a valid BINARY strip with group size
`N = _groupEnd - _groupStart + 1`, whatever the buffer held before and whatever
the random source yields, the group element at relative position `j` is lit iff
`j` is one of the `max(1, N / 10)` positions `random(N)` drawn by the call (each
below `N`); hence at least 1 and at most `max(1, N / 10)` elements of the group
are lit, and an element that was lit before stays lit only if it is drawn. -/
theorem sparkle_frame (fp : FloatOps) (s : VibeLED) (hv : s.Valid)
    (ht : s._ledType = LED_TYPE_SINGLE) :
    (∀ i, s.rnd (s.rndPos + i) % (s._groupEnd - s._groupStart + 1) <
      s._groupEnd - s._groupStart + 1) ∧
    (∀ j, j < s._groupEnd - s._groupStart + 1 →
      (s._effectSparkle fp)._ledStates[s._groupStart + j]? =
        some (decide (∃ i, i < max 1 ((s._groupEnd - s._groupStart + 1) / 10) ∧
          s.rnd (s.rndPos + i) % (s._groupEnd - s._groupStart + 1) = j))) ∧
    1 ≤ ((Finset.range (s._groupEnd - s._groupStart + 1)).filter
      (fun j => (s._effectSparkle fp)._ledStates.getD (s._groupStart + j) false = true)).card ∧
    ((Finset.range (s._groupEnd - s._groupStart + 1)).filter
      (fun j => (s._effectSparkle fp)._ledStates.getD (s._groupStart + j) false = true)).card ≤
        max 1 ((s._groupEnd - s._groupStart + 1) / 10) ∧
    (s._effectSparkle fp).rndPos =
      s.rndPos + max 1 ((s._groupEnd - s._groupStart + 1) / 10) ∧
    runEffect fp EFFECT_SPARKLE s = s._effectSparkle fp := by
  have hg := groupSize_eq s hv
  obtain ⟨est, ernd⟩ := effectSparkle_states fp s hv ht
  obtain ⟨hty, h1, h2, h3, h4, h5, h6, h7⟩ := hv
  have hlen := h5 ht
  have hL : u16 ((max 1 ((s._groupEnd - s._groupStart + 1) / 10) : Nat) : Int) =
      max 1 ((s._groupEnd - s._groupStart + 1) / 10) := by
    apply u16_of_lt
    omega
  have hdraw : ∀ i, s.rnd (s.rndPos + i) % (s._groupEnd - s._groupStart + 1) <
      s._groupEnd - s._groupStart + 1 := fun i => Nat.mod_lt _ (by omega)
  have hpos : ∀ i, u16 ((s.rnd (s.rndPos + i) % (s._groupEnd - s._groupStart + 1) : Nat) : Int) =
      s.rnd (s.rndPos + i) % (s._groupEnd - s._groupStart + 1) := by
    intro i
    apply u16_of_lt
    have := hdraw i
    omega
  have hclear : (forUpTo s._groupStart s._groupEnd (fun i b => b.set i false)
      s._ledStates).length = s._ledStates.length :=
    forUpTo_length _ _ _ _ (fun i b => by rw [List.length_set])
  have helem : ∀ j, j < s._groupEnd - s._groupStart + 1 →
      (s._effectSparkle fp)._ledStates[s._groupStart + j]? =
        some (decide (∃ i, i < max 1 ((s._groupEnd - s._groupStart + 1) / 10) ∧
          s.rnd (s.rndPos + i) % (s._groupEnd - s._groupStart + 1) = j)) := by
    intro j hj
    rw [est, hg, hL, forBelow_mark_all true _ _ _ _ (by rw [hclear, hlen]; omega)]
    have hiff : (∃ i, i < max 1 ((s._groupEnd - s._groupStart + 1) / 10) ∧
        s._groupStart +
          u16 ((s.rnd (s.rndPos + i) % (s._groupEnd - s._groupStart + 1) : Nat) : Int) =
          s._groupStart + j) ↔
        (∃ i, i < max 1 ((s._groupEnd - s._groupStart + 1) / 10) ∧
          s.rnd (s.rndPos + i) % (s._groupEnd - s._groupStart + 1) = j) := by
      constructor
      · rintro ⟨i, hi, h⟩
        rw [hpos] at h
        exact ⟨i, hi, by omega⟩
      · rintro ⟨i, hi, h⟩
        exact ⟨i, hi, by rw [hpos, h]⟩
    by_cases hd : ∃ i, i < max 1 ((s._groupEnd - s._groupStart + 1) / 10) ∧
        s.rnd (s.rndPos + i) % (s._groupEnd - s._groupStart + 1) = j
    · rw [if_pos (hiff.2 hd), decide_eq_true hd]
    · rw [if_neg (fun h => hd (hiff.1 h)), decide_eq_false hd,
        forUpTo_set_inside _ _ _ _ _ (by omega) (by omega) (by rw [hlen]; omega)]
  have himg := lit_eq_image (s._groupEnd - s._groupStart + 1)
      (max 1 ((s._groupEnd - s._groupStart + 1) / 10))
      (fun i => s.rnd (s.rndPos + i) % (s._groupEnd - s._groupStart + 1))
      (fun i _ => hdraw i)
      (fun j => (s._effectSparkle fp)._ledStates.getD (s._groupStart + j) false)
      (by
        intro j hj
        show (s._effectSparkle fp)._ledStates.getD (s._groupStart + j) false = _
        rw [List.getD_eq_getElem?_getD, helem j hj]
        rfl)
  refine ⟨hdraw, helem, ?_, ?_, by rw [ernd, hg, hL], runEffect_sparkle fp s⟩
  · rw [himg]
    apply Finset.card_pos.2
    exact ⟨_, Finset.mem_image_of_mem _ (Finset.mem_range.2
      (show 0 < max 1 ((s._groupEnd - s._groupStart + 1) / 10) by omega))⟩
  · rw [himg]
    exact Finset.card_image_le.trans (by rw [Finset.card_range])

theorem sparkle_frame_witness :
    (sampleSingle.Valid ∧ sampleSingle._ledType = LED_TYPE_SINGLE) ∧
    (∀ j, j < sampleSingle._groupEnd - sampleSingle._groupStart + 1 →
      (sampleSingle._effectSparkle hostFloat)._ledStates[sampleSingle._groupStart + j]? =
        some (decide (∃ i, i < max 1 ((sampleSingle._groupEnd - sampleSingle._groupStart + 1) / 10) ∧
          sampleSingle.rnd (sampleSingle.rndPos + i) %
            (sampleSingle._groupEnd - sampleSingle._groupStart + 1) = j))) :=
  ⟨⟨by decide, rfl⟩, (sparkle_frame hostFloat sampleSingle (by decide) rfl).2.1⟩

end VibeLED


/-! ## METEOR -/

namespace VibeLED

/-- The BINARY drawing loop of `_effectMeteor` in closed form. -/
theorem meteor_loop (fp : FloatOps) (s : VibeLED) (ht : s._ledType = LED_TYPE_SINGLE)
    (numLeds meteorSize position n : Nat) :
    forBelow n
      (fun i t =>
        let index : Nat := u16 ((position : Int) + i)
        if index < numLeds then
          if t._ledType = LED_TYPE_SINGLE then
            { t with _ledStates := t._ledStates.set (t._groupStart + index) true }
          else
            let intensity := fp.div (fp.ofInt ((meteorSize : Int) - i)) (fp.ofInt meteorSize)
            { t with _ledColors :=
                (t._ledColors.set (t._groupStart + index)
                  (scaleColor fp t._effectParams.color1 intensity)) }
        else t)
      s =
    { s with
      _ledStates :=
        (forBelow n
          (fun i b =>
            if u16 ((position : Int) + i) < numLeds then
              b.set (s._groupStart + u16 ((position : Int) + i)) true
            else b)
          s._ledStates) } := by
  induction n with
  | zero => rfl
  | succ n ih =>
    rw [forBelow_succ, ih, forBelow_succ]
    simp only []
    by_cases h : u16 ((position : Int) + n) < numLeds
    · rw [if_pos h, if_pos h, if_pos ht]
    · rw [if_neg h, if_neg h]

theorem effectMeteor_states (fp : FloatOps) (s : VibeLED) (ht : s._ledType = LED_TYPE_SINGLE) :
    (s._effectMeteor fp)._ledStates =
      forBelow (u16 (min (s.groupSize / 4) 4 : Nat))
        (fun i b =>
          if u16 ((u16 (((s._step % (s.groupSize + u16 (min (s.groupSize / 4) 4 : Nat)) : Nat) :
              Int) - u16 (min (s.groupSize / 4) 4 : Nat)) : Int) + i) < s.groupSize then
            b.set (s._groupStart +
              u16 ((u16 (((s._step % (s.groupSize + u16 (min (s.groupSize / 4) 4 : Nat)) : Nat) :
                Int) - u16 (min (s.groupSize / 4) 4 : Nat)) : Int) + i)) true
          else b)
        (forUpTo s._groupStart s._groupEnd (fun i b => b.set i false) s._ledStates) := by
  unfold _effectMeteor
  simp only []
  rw [if_pos ht]
  exact congrArg (fun t => t._ledStates)
    (meteor_loop fp { s with _ledStates :=
      (forUpTo s._groupStart s._groupEnd (fun i b => b.set i false) s._ledStates) } ht
      s.groupSize (u16 (min (s.groupSize / 4) 4 : Nat))
      (u16 (((s._step % (s.groupSize + u16 (min (s.groupSize / 4) 4 : Nat)) : Nat) : Int) -
        u16 (min (s.groupSize / 4) 4 : Nat)))
      (u16 (min (s.groupSize / 4) 4 : Nat)))

/-- Element-wise description of the BINARY frame of `_effectMeteor`: the group
element at relative position `j` is lit iff some wrapped index
`(position + i) mod 2^16`, `i < meteorSize`, equals `j`. -/
theorem effectMeteor_elem (fp : FloatOps) (s : VibeLED) (hv : s.Valid)
    (ht : s._ledType = LED_TYPE_SINGLE) (j : Nat) (hj : j < s._groupEnd - s._groupStart + 1) :
    (s._effectMeteor fp)._ledStates[s._groupStart + j]? =
      some (decide (∃ i, i < min ((s._groupEnd - s._groupStart + 1) / 4) 4 ∧
        u16 ((u16 (((s._step % (s._groupEnd - s._groupStart + 1 +
          min ((s._groupEnd - s._groupStart + 1) / 4) 4) : Nat) : Int) -
            (min ((s._groupEnd - s._groupStart + 1) / 4) 4 : Nat)) : Int) + i) = j)) := by
  have hg := groupSize_eq s hv
  obtain ⟨hty, h1, h2, h3, h4, h5, h6, h7⟩ := hv
  have hlen := h5 ht
  have hm : u16 ((min ((s._groupEnd - s._groupStart + 1) / 4) 4 : Nat) : Int) =
      min ((s._groupEnd - s._groupStart + 1) / 4) 4 := by
    apply u16_of_lt
    omega
  have hclear : (forUpTo s._groupStart s._groupEnd (fun i b => b.set i false)
      s._ledStates).length = s._ledStates.length :=
    forUpTo_length _ _ _ _ (fun i b => by rw [List.length_set])
  rw [effectMeteor_states fp s ht, hg, hm,
    forBelow_mark true _ _ _ _ _ (by rw [hclear, hlen]; omega)]
  generalize u16 (((s._step % (s._groupEnd - s._groupStart + 1 +
    min ((s._groupEnd - s._groupStart + 1) / 4) 4) : Nat) : Int) -
      (min ((s._groupEnd - s._groupStart + 1) / 4) 4 : Nat)) = pos
  have hiff : (∃ i, i < min ((s._groupEnd - s._groupStart + 1) / 4) 4 ∧
      u16 ((pos : Int) + i) < s._groupEnd - s._groupStart + 1 ∧
      s._groupStart + u16 ((pos : Int) + i) = s._groupStart + j) ↔
      (∃ i, i < min ((s._groupEnd - s._groupStart + 1) / 4) 4 ∧ u16 ((pos : Int) + i) = j) := by
    constructor
    · rintro ⟨i, hi, _, h⟩
      exact ⟨i, hi, by omega⟩
    · rintro ⟨i, hi, h⟩
      exact ⟨i, hi, by omega, by omega⟩
  by_cases hd : ∃ i, i < min ((s._groupEnd - s._groupStart + 1) / 4) 4 ∧
      u16 ((pos : Int) + i) = j
  · rw [if_pos (hiff.2 hd), decide_eq_true hd]
  · rw [if_neg (fun h => hd (hiff.1 h)), decide_eq_false hd,
      forUpTo_set_inside _ _ _ _ _ (by omega) (by omega) (by rw [hlen]; omega)]

/-- The frame of `_effectMeteor` on a valid BINARY strip whose group has at most
65532 elements: with `m = min(N / 4, 4)` and the signed position
`p = (_step mod (N + m)) - m`, the group element at relative position `j` is lit
iff `p ≤ j < p + m`. -/
theorem meteor_frame (fp : FloatOps) (s : VibeLED) (hv : s.Valid)
    (ht : s._ledType = LED_TYPE_SINGLE) (hn : s._groupEnd - s._groupStart + 1 ≤ 65532)
    (j : Nat) (hj : j < s._groupEnd - s._groupStart + 1) :
    (s._effectMeteor fp)._ledStates[s._groupStart + j]? =
      some (decide
        (((s._step % (s._groupEnd - s._groupStart + 1 +
            min ((s._groupEnd - s._groupStart + 1) / 4) 4) : Nat) : Int) -
            (min ((s._groupEnd - s._groupStart + 1) / 4) 4 : Nat) ≤ (j : Int) ∧
          (j : Int) < ((s._step % (s._groupEnd - s._groupStart + 1 +
            min ((s._groupEnd - s._groupStart + 1) / 4) 4) : Nat) : Int) -
            (min ((s._groupEnd - s._groupStart + 1) / 4) 4 : Nat) +
            (min ((s._groupEnd - s._groupStart + 1) / 4) 4 : Nat))) := by
  rw [effectMeteor_elem fp s hv ht j hj]
  have hc : s._step % (s._groupEnd - s._groupStart + 1 +
      min ((s._groupEnd - s._groupStart + 1) / 4) 4) <
      s._groupEnd - s._groupStart + 1 + min ((s._groupEnd - s._groupStart + 1) / 4) 4 :=
    Nat.mod_lt _ (by omega)
  generalize s._step % (s._groupEnd - s._groupStart + 1 +
      min ((s._groupEnd - s._groupStart + 1) / 4) 4) = c at hc ⊢
  have hm4 : min ((s._groupEnd - s._groupStart + 1) / 4) 4 ≤ 4 := by omega
  generalize min ((s._groupEnd - s._groupStart + 1) / 4) 4 = m at hc hm4 ⊢
  congr 1
  apply decide_eq_decide.2
  constructor
  · rintro ⟨i, hi, h⟩
    unfold u16 at h
    omega
  · rintro ⟨h1, h2⟩
    refine ⟨((j : Int) - ((c : Int) - m)).toNat, by omega, ?_⟩
    unfold u16
    omega

theorem meteor_frame_witness :
    (sampleSingle.Valid ∧ sampleSingle._ledType = LED_TYPE_SINGLE ∧
      sampleSingle._groupEnd - sampleSingle._groupStart + 1 ≤ 65532 ∧
      (2 : Nat) < sampleSingle._groupEnd - sampleSingle._groupStart + 1) ∧
    (sampleSingle._effectMeteor hostFloat)._ledStates[sampleSingle._groupStart + 2]? =
      some false :=
  ⟨⟨by decide, rfl, by decide, by decide⟩,
    (meteor_frame hostFloat sampleSingle (by decide) rfl (by decide) 2 (by decide)).trans
      (by decide)⟩

theorem valid_mkSingle_setEffect (pin n : Nat) (g : Nat → Bool) (r : Nat → Nat) (e : Nat)
    (h1 : 1 ≤ n) (h2 : n < 65536) : ((mkSingle pin n g r).setEffect e).Valid := by
  refine ⟨Or.inl rfl, h1, h2, Nat.zero_le _, ?_, ?_, ?_, (by decide : (0 : Nat) < 65536)⟩
  · show u16 ((n : Int) - 1) < n
    unfold u16
    omega
  · intro _
    show ((List.range n).map g).length = n
    rw [List.length_map, List.length_range]
  · intro h
    exact absurd h (by decide : ¬ LED_TYPE_SINGLE = LED_TYPE_RGB)

/-- C20 (code defect): on the valid 65535-element BINARY strip `meteorInput`
(constructor, then `setEffect(EFFECT_METEOR)`; group size 65535, step 0) the
meteor has `m = 4` pixels and the signed position is `p = 0 mod 65539 - 4 = -4`,
so no group-relative index `j ≥ 0` satisfies `p ≤ j < p + m`; yet after
`_effectMeteor` the elements at the relative positions 65532, 65533 and 65534
are lit: the wrapped indices `2^16 - 4 + i` pass the test `index < numLeds`. -/
theorem meteor_negative_position_drawn (fp : FloatOps) :
    meteorInput.Valid ∧ meteorInput._ledType = LED_TYPE_SINGLE ∧
    meteorInput._groupStart = 0 ∧ meteorInput._groupEnd - meteorInput._groupStart + 1 = 65535 ∧
    meteorInput._step = 0 ∧
    min ((meteorInput._groupEnd - meteorInput._groupStart + 1) / 4) 4 = 4 ∧
    ((meteorInput._step % (65535 + 4) : Nat) : Int) - 4 = -4 ∧
    (¬ ∃ j : Nat, (-4 : Int) ≤ j ∧ (j : Int) < -4 + 4) ∧
    (meteorInput._effectMeteor fp)._ledStates[65532]? = some true ∧
    (meteorInput._effectMeteor fp)._ledStates[65533]? = some true ∧
    (meteorInput._effectMeteor fp)._ledStates[65534]? = some true ∧
    (runEffect fp meteorInput._currentEffect meteorInput)._ledStates[65532]? = some true := by
  have hv : meteorInput.Valid :=
    valid_mkSingle_setEffect 13 65535 _ _ EFFECT_METEOR (by decide) (by decide)
  have e1 := effectMeteor_elem fp meteorInput hv rfl 65532 (by decide)
  have e2 := effectMeteor_elem fp meteorInput hv rfl 65533 (by decide)
  have e3 := effectMeteor_elem fp meteorInput hv rfl 65534 (by decide)
  rw [decide_eq_true ⟨0, by decide, by decide⟩] at e1
  rw [decide_eq_true ⟨1, by decide, by decide⟩] at e2
  rw [decide_eq_true ⟨2, by decide, by decide⟩] at e3
  have hr : runEffect fp meteorInput._currentEffect meteorInput = meteorInput._effectMeteor fp :=
    runEffect_meteor fp meteorInput
  refine ⟨hv, rfl, rfl, by decide, rfl, by decide, by decide, ?_, e1, e2, e3, ?_⟩
  · rintro ⟨j, h1, h2⟩
    omega
  · rw [hr]
    exact e1

end VibeLED


/-! ## FIRE -/

namespace VibeLED

/-- The method `_effectFire` on a COLOR strip, split at the point where
`fireAfterRise` stops: step 3 and step 4 applied to `fireAfterRise`. -/
theorem effectFire_eq (s : VibeLED) (ht : s._ledType = LED_TYPE_RGB) :
    s._effectFire =
      forBelow s.groupSize
        (fun i t =>
          { t with
            _ledColors := t._ledColors.set (t._groupStart + i) (fireColor (t.heatGet i)) })
        (if (s.fireAfterRise.random 255).1 < 120 then
          ((((s.fireAfterRise.random 255).2.random 7).2.randomRange 160 255).2).heatSet
            (u8 ((s.fireAfterRise.random 255).2.random 7).1)
            (u8 (min
              (((((s.fireAfterRise.random 255).2.random 7).2.randomRange 160 255).2).heatGet
                (u8 ((s.fireAfterRise.random 255).2.random 7).1) +
                ((((s.fireAfterRise.random 255).2.random 7).2.randomRange 160 255).1)) 255 : Nat))
        else (s.fireAfterRise.random 255).2) := by
  unfold _effectFire
  rw [if_pos ht]
  rfl

/-- C17 (code defect): on the valid 3-element COLOR strip `fireInput` (FIRE just
selected, heat array not yet allocated, every raw random value 5) the call
allocates 3 heat elements, draws `random(255) = 5 < 120` and then subscripts
`heat[random(7)] = heat[5]`; on the valid strip `fireLaterInput`, whose heat
array was sized to a 3-element group by an earlier call before the group was reset to 10 elements,
the call subscripts `heat[3]` to `heat[9]`.  In both cases an index of
`fireAccesses` is not below `fireHeatLength`. -/
theorem fire_heat_out_of_bounds :
    (fireInput.Valid ∧ fireInput._ledType = LED_TYPE_RGB ∧ fireInput.groupSize = 3 ∧
      fireInput.heat = none ∧ fireInput.fireHeatLength = 3 ∧
      (fireInput.fireAfterRise.random 255).1 = 5 ∧
      u8 ((fireInput.fireAfterRise.random 255).2.random 7).1 = 5 ∧
      5 ∈ fireInput.fireAccesses ∧
      ¬ ∀ i, i ∈ fireInput.fireAccesses → i < fireInput.fireHeatLength) ∧
    (fireLaterInput.Valid ∧ fireLaterInput._ledType = LED_TYPE_RGB ∧
      fireLaterInput._currentEffect = EFFECT_FIRE ∧ fireLaterInput.heat = some [0, 0, 0] ∧
      fireLaterInput.groupSize = 10 ∧ fireLaterInput.fireHeatLength = 3 ∧
      9 ∈ fireLaterInput.fireAccesses ∧
      ¬ ∀ i, i ∈ fireLaterInput.fireAccesses → i < fireLaterInput.fireHeatLength) := by
  decide

end VibeLED


/-! ## FADE_IN completes into STATIC -/

namespace VibeLED

theorem updateEffect_fadeIn (fp : FloatOps) (hfp : fp.FadeExact) (s : VibeLED)
    (hs : s._step < 65536) (he : s._currentEffect = EFFECT_FADE_IN) :
    (s._updateEffect fp)._currentEffect =
      (if 100 ≤ s._step then EFFECT_STATIC else EFFECT_FADE_IN) ∧
    (s._updateEffect fp)._ledColors = (s._effectFadeIn fp)._ledColors := by
  constructor
  · rw [updateEffect_currentEffect, he, runEffect_fadeIn, fadeIn_currentEffect fp hfp s hs, he]
  · unfold _updateEffect
    rw [he, runEffect_fadeIn]

/-- The state after `k ≤ 100` dispatcher calls of a FADE_IN selected at step 0. -/
theorem fadeIn_iterate (fp : FloatOps) (hfp : fp.FadeExact) (s : VibeLED) (hv : s.Valid)
    (he : s._currentEffect = EFFECT_FADE_IN) (h0 : s._step = 0) (k : Nat) (hk : k ≤ 100) :
    ((fun t => _updateEffect fp t)^[k] s).Valid ∧
    ((fun t => _updateEffect fp t)^[k] s)._currentEffect = EFFECT_FADE_IN ∧
    ((fun t => _updateEffect fp t)^[k] s)._step = k ∧
    ((fun t => _updateEffect fp t)^[k] s)._ledType = s._ledType ∧
    ((fun t => _updateEffect fp t)^[k] s)._groupStart = s._groupStart ∧
    ((fun t => _updateEffect fp t)^[k] s)._groupEnd = s._groupEnd ∧
    ((fun t => _updateEffect fp t)^[k] s)._effectParams = s._effectParams := by
  induction k with
  | zero => exact ⟨hv, he, h0, rfl, rfl, rfl, rfl⟩
  | succ k ih =>
    obtain ⟨a1, a2, a3, a4, a5, a6, a7⟩ := ih (by omega)
    rw [Function.iterate_succ_apply']
    obtain ⟨f1, _, f3, f4, f5, _⟩ := frame_updateEffect fp ((fun t => _updateEffect fp t)^[k] s)
    refine ⟨valid_updateEffect fp _ a1, ?_, ?_, f1.trans a4, f3.trans a5, f4.trans a6,
      f5.trans a7⟩
    · show (_updateEffect fp ((fun t => _updateEffect fp t)^[k] s))._currentEffect = _
      rw [(updateEffect_fadeIn fp hfp _ (by rw [a3]; omega) a2).1, a3, if_neg (by omega)]
    · show (_updateEffect fp ((fun t => _updateEffect fp t)^[k] s))._step = k + 1
      rw [updateEffect_step, a3]
      omega

/-- At step 100 `_effectFadeIn` stores `color1` itself in every group element. -/
theorem fadeIn_full (fp : FloatOps) (hfp : fp.FadeExact) (s : VibeLED) (hv : s.Valid)
    (ht : s._ledType = LED_TYPE_RGB) (h100 : s._step = 100)
    (hc : s._effectParams.color1.r < 256 ∧ s._effectParams.color1.g < 256 ∧
      s._effectParams.color1.b < 256)
    (i : Nat) (hi1 : s._groupStart ≤ i) (hi2 : i ≤ s._groupEnd) :
    (s._effectFadeIn fp)._ledColors[i]? = some s._effectParams.color1 := by
  obtain ⟨hty, h1, h2, h3, h4, h5, h6, h7⟩ := hv
  obtain ⟨hcmp, _, _, hmul⟩ := hfp
  have hne : ¬ s._ledType = LED_TYPE_SINGLE := by
    rw [ht]
    decide
  have hlt : ¬ fp.lt (fp.ofInt 1) (fp.div (fp.ofInt ((100 : Nat) : Int)) (fp.ofInt 100)) = true :=
    fun h => absurd ((hcmp 100 (by decide)).1.1 h) (by decide)
  have hcolors : (s._effectFadeIn fp)._ledColors =
      forUpTo s._groupStart s._groupEnd
        (fun i b => b.set i (scaleColor fp s._effectParams.color1
          (fp.div (fp.ofInt ((100 : Nat) : Int)) (fp.ofInt 100)))) s._ledColors := by
    unfold _effectFadeIn
    simp only []
    rw [h100, if_neg hlt]
    unfold applyIntensity
    rw [if_neg hne]
    split_ifs <;> rfl
  have hscale : scaleColor fp s._effectParams.color1
      (fp.div (fp.ofInt ((100 : Nat) : Int)) (fp.ofInt 100)) = s._effectParams.color1 := by
    unfold scaleColor
    have e : ((100 : Nat) : Int) = 100 := rfl
    rw [e, hmul _ hc.1, hmul _ hc.2.1, hmul _ hc.2.2]
  rw [hcolors, forUpTo_set_inside _ _ _ _ _ hi1 hi2 (by rw [h6 ht]; omega), hscale]

/-- Once STATIC runs on a COLOR strip whose group already holds `color1`, a
dispatcher call changes neither the buffer nor the effect. -/
theorem static_fixed (fp : FloatOps) (s : VibeLED)
    (ht : s._ledType = LED_TYPE_RGB) (he : s._currentEffect = EFFECT_STATIC)
    (hfull : ∀ i, s._groupStart ≤ i → i ≤ s._groupEnd →
      s._ledColors[i]? = some s._effectParams.color1) :
    (s._updateEffect fp)._ledColors = s._ledColors ∧
    (s._updateEffect fp)._currentEffect = EFFECT_STATIC := by
  have hne : ¬ s._ledType = LED_TYPE_SINGLE := by
    rw [ht]
    decide
  constructor
  · unfold _updateEffect
    rw [he, runEffect_static]
    show s._effectStatic._ledColors = s._ledColors
    unfold _effectStatic
    rw [if_neg hne]
    show forUpTo _ _ _ s._ledColors = s._ledColors
    apply List.ext_getElem?
    intro j
    rw [forUpTo_set_getElem?]
    by_cases h : s._groupStart ≤ j ∧ j ≤ s._groupEnd ∧ j < s._ledColors.length
    · rw [if_pos h, hfull j h.1 h.2.1]
    · rw [if_neg h]
  · rw [updateEffect_currentEffect, he, runEffect_static, keeps_effectStatic, he]

/-- The state after `101 + m` dispatcher calls of a FADE_IN selected at step 0. -/
theorem fadeIn_after (fp : FloatOps) (hfp : fp.FadeExact) (s : VibeLED) (hv : s.Valid)
    (ht : s._ledType = LED_TYPE_RGB) (he : s._currentEffect = EFFECT_FADE_IN)
    (h0 : s._step = 0)
    (hc : s._effectParams.color1.r < 256 ∧ s._effectParams.color1.g < 256 ∧
      s._effectParams.color1.b < 256) (m : Nat) :
    ((fun t => _updateEffect fp t)^[101 + m] s).Valid ∧
    ((fun t => _updateEffect fp t)^[101 + m] s)._currentEffect = EFFECT_STATIC ∧
    ((fun t => _updateEffect fp t)^[101 + m] s)._ledType = LED_TYPE_RGB ∧
    ((fun t => _updateEffect fp t)^[101 + m] s)._groupStart = s._groupStart ∧
    ((fun t => _updateEffect fp t)^[101 + m] s)._groupEnd = s._groupEnd ∧
    ((fun t => _updateEffect fp t)^[101 + m] s)._effectParams = s._effectParams ∧
    ((fun t => _updateEffect fp t)^[101 + m] s)._ledColors =
      ((fun t => _updateEffect fp t)^[101] s)._ledColors ∧
    (∀ i, s._groupStart ≤ i → i ≤ s._groupEnd →
      ((fun t => _updateEffect fp t)^[101] s)._ledColors[i]? = some s._effectParams.color1) := by
  induction m with
  | zero =>
    obtain ⟨a1, a2, a3, a4, a5, a6, a7⟩ := fadeIn_iterate fp hfp s hv he h0 100 (by omega)
    obtain ⟨f1, _, f3, f4, f5, _⟩ :=
      frame_updateEffect fp ((fun t => _updateEffect fp t)^[100] s)
    obtain ⟨u1, u2⟩ := updateEffect_fadeIn fp hfp _ (by rw [a3]; omega) a2
    show ((fun t => _updateEffect fp t)^[100 + 1] s).Valid ∧ _
    rw [Function.iterate_succ_apply']
    refine ⟨valid_updateEffect fp _ a1, ?_, (f1.trans a4).trans ht, f3.trans a5, f4.trans a6,
      f5.trans a7, rfl, ?_⟩
    · show (_updateEffect fp ((fun t => _updateEffect fp t)^[100] s))._currentEffect = _
      rw [u1, a3, if_pos (by omega)]
    · intro i hi1 hi2
      show (_updateEffect fp ((fun t => _updateEffect fp t)^[100] s))._ledColors[i]? = _
      rw [u2, fadeIn_full fp hfp _ a1 (a4.trans ht) a3 (by rw [a7]; exact hc) i
        (by rw [a5]; exact hi1) (by rw [a6]; exact hi2), a7]
  | succ m ih =>
    obtain ⟨a1, a2, a3, a4, a5, a6, a7, a8⟩ := ih
    obtain ⟨f1, _, f3, f4, f5, _⟩ :=
      frame_updateEffect fp ((fun t => _updateEffect fp t)^[101 + m] s)
    have hfull : ∀ i, ((fun t => _updateEffect fp t)^[101 + m] s)._groupStart ≤ i →
        i ≤ ((fun t => _updateEffect fp t)^[101 + m] s)._groupEnd →
        ((fun t => _updateEffect fp t)^[101 + m] s)._ledColors[i]? =
          some ((fun t => _updateEffect fp t)^[101 + m] s)._effectParams.color1 := by
      intro i hi1 hi2
      rw [a7, a6]
      exact a8 i (by rw [← a4]; exact hi1) (by rw [← a5]; exact hi2)
    obtain ⟨w1, w2⟩ := static_fixed fp _ a3 a2 hfull
    have e : 101 + (m + 1) = (101 + m) + 1 := rfl
    rw [e, Function.iterate_succ_apply']
    exact ⟨valid_updateEffect fp _ a1, w2, f1.trans a3, f3.trans a4, f4.trans a5, f5.trans a6,
      w1.trans a7, a8⟩

/-- C13: assuming the float operations of the fade are exact (`FadeExact`), on a
valid COLOR strip on which FADE_IN was just selected (`_step = 0`) and whose
`color1` channels are 8-bit values: after `k` consecutive dispatcher calls
`_currentEffect` is still `EFFECT_FADE_IN` for every `k ≤ 100` and is
`EFFECT_STATIC` for every `k ≥ 101`; after the 101st call every group element is
`color1`; and after every later call the colour buffer is the one left by the
101st call; group and parameters stay as they were. -/
theorem fadeIn_completes (fp : FloatOps) (hfp : fp.FadeExact) (s : VibeLED) (hv : s.Valid)
    (ht : s._ledType = LED_TYPE_RGB) (he : s._currentEffect = EFFECT_FADE_IN)
    (h0 : s._step = 0)
    (hc : s._effectParams.color1.r < 256 ∧ s._effectParams.color1.g < 256 ∧
      s._effectParams.color1.b < 256) :
    (∀ k, k ≤ 100 → ((fun t => _updateEffect fp t)^[k] s)._currentEffect = EFFECT_FADE_IN) ∧
    (∀ k, 101 ≤ k → ((fun t => _updateEffect fp t)^[k] s)._currentEffect = EFFECT_STATIC) ∧
    (∀ i, s._groupStart ≤ i → i ≤ s._groupEnd →
      ((fun t => _updateEffect fp t)^[101] s)._ledColors[i]? = some s._effectParams.color1) ∧
    (∀ k, 101 ≤ k →
      ((fun t => _updateEffect fp t)^[k] s)._ledColors =
        ((fun t => _updateEffect fp t)^[101] s)._ledColors) ∧
    (∀ k, ((fun t => _updateEffect fp t)^[k] s)._groupStart = s._groupStart ∧
      ((fun t => _updateEffect fp t)^[k] s)._groupEnd = s._groupEnd ∧
      ((fun t => _updateEffect fp t)^[k] s)._effectParams = s._effectParams) := by
  refine ⟨fun k hk => (fadeIn_iterate fp hfp s hv he h0 k hk).2.1, ?_,
    (fadeIn_after fp hfp s hv ht he h0 hc 0).2.2.2.2.2.2.2, ?_, ?_⟩
  · intro k hk
    obtain ⟨m, rfl⟩ : ∃ m, k = 101 + m := ⟨k - 101, by omega⟩
    exact (fadeIn_after fp hfp s hv ht he h0 hc m).2.1
  · intro k hk
    obtain ⟨m, rfl⟩ : ∃ m, k = 101 + m := ⟨k - 101, by omega⟩
    exact (fadeIn_after fp hfp s hv ht he h0 hc m).2.2.2.2.2.2.1
  · intro k
    by_cases hk : k ≤ 100
    · obtain ⟨_, _, _, _, a5, a6, a7⟩ := fadeIn_iterate fp hfp s hv he h0 k hk
      exact ⟨a5, a6, a7⟩
    · obtain ⟨m, rfl⟩ : ∃ m, k = 101 + m := ⟨k - 101, by omega⟩
      obtain ⟨_, _, _, a4, a5, a6, _⟩ := fadeIn_after fp hfp s hv ht he h0 hc m
      exact ⟨a4, a5, a6⟩

theorem fadeIn_completes_witness :
    (exactFloat.FadeExact ∧ (sampleRGB.setEffect EFFECT_FADE_IN).Valid ∧
      (sampleRGB.setEffect EFFECT_FADE_IN)._ledType = LED_TYPE_RGB ∧
      (sampleRGB.setEffect EFFECT_FADE_IN)._currentEffect = EFFECT_FADE_IN ∧
      (sampleRGB.setEffect EFFECT_FADE_IN)._step = 0 ∧
      (sampleRGB.setEffect EFFECT_FADE_IN)._effectParams.color1.r < 256 ∧
      (sampleRGB.setEffect EFFECT_FADE_IN)._effectParams.color1.g < 256 ∧
      (sampleRGB.setEffect EFFECT_FADE_IN)._effectParams.color1.b < 256) ∧
    ((fun t => _updateEffect exactFloat t)^[101]
      (sampleRGB.setEffect EFFECT_FADE_IN))._currentEffect = EFFECT_STATIC ∧
    ((fun t => _updateEffect exactFloat t)^[101]
      (sampleRGB.setEffect EFFECT_FADE_IN))._ledColors[0]? =
        some (sampleRGB.setEffect EFFECT_FADE_IN)._effectParams.color1 :=
  ⟨⟨exactFloat_fadeExact, by decide, rfl, rfl, rfl, by decide, by decide, by decide⟩,
    (fadeIn_completes exactFloat exactFloat_fadeExact (sampleRGB.setEffect EFFECT_FADE_IN)
      (by decide) rfl rfl rfl ⟨by decide, by decide, by decide⟩).2.1 101 (by decide),
    (fadeIn_completes exactFloat exactFloat_fadeExact (sampleRGB.setEffect EFFECT_FADE_IN)
      (by decide) rfl rfl rfl ⟨by decide, by decide, by decide⟩).2.2.1 0 (by decide)
      (by decide)⟩

end VibeLED


/-! ## BOUNCE -/

namespace VibeLED

/-- The BINARY frame of `_effectBounce`. -/
theorem effectBounce_states_elem (fp : FloatOps) (s : VibeLED) (hv : s.Valid)
    (i : Nat) (hi1 : s._groupStart ≤ i) (hi2 : i ≤ s._groupEnd)
    (ht : s._ledType = LED_TYPE_SINGLE) :
    (s._effectBounce fp)._ledStates[i]? =
      some (decide (i = s._groupStart +
        bouncePos fp (s._groupEnd - s._groupStart + 1) s._step)) := by
  have hg := groupSize_eq s hv
  obtain ⟨hty, h1, h2, h3, h4, h5, h6, h7⟩ := hv
  unfold _effectBounce
  simp only []
  rw [if_pos ht, hg]
  exact forUpTo_set_inside (fun i => decide (i = s._groupStart +
    bouncePos fp (s._groupEnd - s._groupStart + 1) s._step)) _ _ _ _ hi1 hi2
      (by rw [h5 ht]; omega)

/-- The frame of `_effectBounce` for any floating-point operations: the element
at `_groupStart + bouncePos` is on / `color1`, every other group element is
off / black. -/
theorem effectBounce_elem (fp : FloatOps) (s : VibeLED) (hv : s.Valid)
    (i : Nat) (hi1 : s._groupStart ≤ i) (hi2 : i ≤ s._groupEnd) :
    (s._ledType = LED_TYPE_SINGLE →
      (s._effectBounce fp)._ledStates[i]? =
        some (decide (i = s._groupStart +
          bouncePos fp (s._groupEnd - s._groupStart + 1) s._step))) ∧
    (s._ledType = LED_TYPE_RGB →
      (s._effectBounce fp)._ledColors[i]? =
        some (if i = s._groupStart + bouncePos fp (s._groupEnd - s._groupStart + 1) s._step
          then s._effectParams.color1 else ⟨0, 0, 0⟩)) := by
  have hg := groupSize_eq s hv
  refine ⟨effectBounce_states_elem fp s hv i hi1 hi2, ?_⟩
  obtain ⟨hty, h1, h2, h3, h4, h5, h6, h7⟩ := hv
  intro ht
  have hne : ¬ s._ledType = LED_TYPE_SINGLE := by
    rw [ht]
    decide
  unfold _effectBounce
  simp only []
  rw [if_neg hne, hg]
  show (forUpTo s._groupStart s._groupEnd
    (fun i b => if i = s._groupStart + bouncePos fp (s._groupEnd - s._groupStart + 1) s._step
      then b.set i s._effectParams.color1 else b.set i ⟨0, 0, 0⟩) s._ledColors)[i]? = _
  rw [forUpTo_ite_set, forUpTo_set_inside _ _ _ _ _ hi1 hi2 (by rw [h6 ht]; omega)]

/-- Under exact real arithmetic with a truncating cast the local `pos` of
`_effectBounce` is the integer part of `sin(normalized · π) · (N - 1)`, and it is
a position of the group. -/
theorem bouncePos_real (fp : FloatOps) (hfp : fp.RealExact) (n st : Nat) (hn1 : 1 ≤ n)
    (hn : n < 65536) :
    ((bouncePos fp n st : Nat) : Int) =
      ⌊Real.sin (((st % 100 : Nat) : ℝ) / 100 * Real.pi) * ((n : ℝ) - 1)⌋ ∧
    bouncePos fp n st < n := by
  obtain ⟨val, hof, hpi, hmul, hdiv, hsin, hcast⟩ := hfp
  have hval : val (fp.mul
      (fp.sin (fp.mul (fp.div (fp.ofInt ((st % 100 : Nat) : Int)) (fp.ofInt 100)) fp.pi))
      (fp.ofInt ((n : Int) - 1))) =
      Real.sin (((st % 100 : Nat) : ℝ) / 100 * Real.pi) * ((n : ℝ) - 1) := by
    rw [hmul, hsin, hmul, hdiv, hof, hof, hof, hpi]
    simp only [Int.cast_natCast, Int.cast_sub, Int.cast_one, Int.cast_ofNat]
  have hk : st % 100 < 100 := Nat.mod_lt _ (by decide)
  have hk' : ((st % 100 : Nat) : ℝ) ≤ 100 := by exact_mod_cast hk.le
  have hk0 : (0 : ℝ) ≤ ((st % 100 : Nat) : ℝ) := Nat.cast_nonneg _
  have hpos := Real.pi_pos
  have hx0 : 0 ≤ ((st % 100 : Nat) : ℝ) / 100 * Real.pi := by positivity
  have hx1 : ((st % 100 : Nat) : ℝ) / 100 * Real.pi ≤ Real.pi := by
    have : ((st % 100 : Nat) : ℝ) / 100 ≤ 1 := by
      rw [div_le_one (by norm_num)]
      exact hk'
    nlinarith
  have hs0 := Real.sin_nonneg_of_nonneg_of_le_pi hx0 hx1
  have hs1 := Real.sin_le_one (((st % 100 : Nat) : ℝ) / 100 * Real.pi)
  have hn' : (0 : ℝ) ≤ (n : ℝ) - 1 := by
    have : (1 : ℝ) ≤ n := by exact_mod_cast hn1
    linarith
  have hv0 : 0 ≤ Real.sin (((st % 100 : Nat) : ℝ) / 100 * Real.pi) * ((n : ℝ) - 1) :=
    mul_nonneg hs0 hn'
  have hv1 : Real.sin (((st % 100 : Nat) : ℝ) / 100 * Real.pi) * ((n : ℝ) - 1) ≤ (n : ℝ) - 1 :=
    mul_le_of_le_one_left hn' hs1
  have hlt : Real.sin (((st % 100 : Nat) : ℝ) / 100 * Real.pi) * ((n : ℝ) - 1) < 65536 := by
    have : (n : ℝ) < 65536 := by exact_mod_cast hn
    linarith
  have hc := hcast _ (by rw [hval]; exact hv0) (by rw [hval]; exact hlt)
  rw [hval] at hc
  refine ⟨hc, ?_⟩
  have hfl : ⌊Real.sin (((st % 100 : Nat) : ℝ) / 100 * Real.pi) * ((n : ℝ) - 1)⌋ ≤
      (n : Int) - 1 := by
    have h1 := Int.floor_le (Real.sin (((st % 100 : Nat) : ℝ) / 100 * Real.pi) * ((n : ℝ) - 1))
    have h2 : ((⌊Real.sin (((st % 100 : Nat) : ℝ) / 100 * Real.pi) * ((n : ℝ) - 1)⌋ : Int) : ℝ) ≤
        (((n : Int) - 1 : Int) : ℝ) := by
      push_cast
      linarith
    exact_mod_cast h2
  have hc2 : ((bouncePos fp n st : Nat) : Int) =
      ⌊Real.sin (((st % 100 : Nat) : ℝ) / 100 * Real.pi) * ((n : ℝ) - 1)⌋ := hc
  have hc3 : ((bouncePos fp n st : Nat) : Int) ≤ (n : Int) - 1 := by
    rw [hc2]
    exact hfl
  omega

/-- C27 (amended): under exact real arithmetic with a truncating cast
(`RealExact`), on a valid strip with group size `N = _groupEnd - _groupStart + 1`
and at every step `s`, the local `pos` of `_effectBounce` is the integer part
`⌊sin(normalized · π) · (N - 1)⌋` with `normalized = (s mod 100) / 100` (a
truncation, not a rounding to nearest), it is below `N`, and after the call the
group element at relative position `pos` is on / `color1` while every other
group element is off / black: exactly one element of the group is lit. -/
theorem bounce_lights_cast_position (fp : FloatOps) (hfp : fp.RealExact) (s : VibeLED)
    (hv : s.Valid) :
    ((bouncePos fp (s._groupEnd - s._groupStart + 1) s._step : Nat) : Int) =
      ⌊Real.sin (((s._step % 100 : Nat) : ℝ) / 100 * Real.pi) *
        (((s._groupEnd - s._groupStart + 1 : Nat) : ℝ) - 1)⌋ ∧
    bouncePos fp (s._groupEnd - s._groupStart + 1) s._step < s._groupEnd - s._groupStart + 1 ∧
    s._groupStart + bouncePos fp (s._groupEnd - s._groupStart + 1) s._step ≤ s._groupEnd ∧
    (∀ i, s._groupStart ≤ i → i ≤ s._groupEnd →
      (s._ledType = LED_TYPE_SINGLE →
        (s._effectBounce fp)._ledStates[i]? =
          some (decide (i = s._groupStart +
            bouncePos fp (s._groupEnd - s._groupStart + 1) s._step))) ∧
      (s._ledType = LED_TYPE_RGB →
        (s._effectBounce fp)._ledColors[i]? =
          some (if i = s._groupStart + bouncePos fp (s._groupEnd - s._groupStart + 1) s._step
            then s._effectParams.color1 else ⟨0, 0, 0⟩))) ∧
    (s._ledType = LED_TYPE_SINGLE →
      ∃! i, s._groupStart ≤ i ∧ i ≤ s._groupEnd ∧
        (s._effectBounce fp)._ledStates[i]? = some true) ∧
    runEffect fp EFFECT_BOUNCE s = s._effectBounce fp := by
  have hN1 : 1 ≤ s._groupEnd - s._groupStart + 1 := by omega
  have hN : s._groupEnd - s._groupStart + 1 < 65536 := by
    obtain ⟨_, _, h3, h4, h5, _⟩ := hv
    omega
  obtain ⟨p1, p2⟩ := bouncePos_real fp hfp (s._groupEnd - s._groupStart + 1) s._step hN1 hN
  have hge : s._groupStart ≤ s._groupEnd := hv.2.2.2.1
  have hin : s._groupStart + bouncePos fp (s._groupEnd - s._groupStart + 1) s._step ≤
      s._groupEnd := by omega
  refine ⟨p1, p2, hin, fun i hi1 hi2 => effectBounce_elem fp s hv i hi1 hi2, ?_,
    runEffect_bounce fp s⟩
  intro ht
  refine ⟨s._groupStart + bouncePos fp (s._groupEnd - s._groupStart + 1) s._step,
    ⟨by omega, hin, ?_⟩, ?_⟩
  · rw [(effectBounce_elem fp s hv _ (by omega) hin).1 ht]
    simp
  · rintro j ⟨hj1, hj2, hj3⟩
    rw [(effectBounce_elem fp s hv j hj1 hj2).1 ht] at hj3
    simpa using hj3

theorem bounce_lights_cast_position_witness :
    ∃ fp : FloatOps, fp.RealExact ∧ bounceInput.Valid ∧
      ((bouncePos fp (bounceInput._groupEnd - bounceInput._groupStart + 1)
        bounceInput._step : Nat) : Int) =
        ⌊Real.sin (((bounceInput._step % 100 : Nat) : ℝ) / 100 * Real.pi) *
          (((bounceInput._groupEnd - bounceInput._groupStart + 1 : Nat) : ℝ) - 1)⌋ ∧
      bouncePos fp (bounceInput._groupEnd - bounceInput._groupStart + 1) bounceInput._step <
        bounceInput._groupEnd - bounceInput._groupStart + 1 := by
  classical
  have hex : FloatOps.RealExact
      ⟨ℝ, fun z => (z : ℝ), fun m e => (m : ℝ) / 10 ^ e, Real.pi, fun a b => a + b,
        fun a b => a - b, fun a b => a * b, fun a b => a / b, Real.sin,
        fun a b => decide (a < b), fun a b => decide (a ≤ b), fun x => u8 ⌊x⌋,
        fun x => u16 ⌊x⌋,
        fun x => by
          show u8 ⌊x⌋ < 256
          unfold u8
          omega,
        fun x => by
          show u16 ⌊x⌋ < 65536
          unfold u16
          omega⟩ := by
    refine ⟨fun x => x, fun z => rfl, rfl, fun a b => rfl, fun a b => rfl, fun a => rfl, ?_⟩
    intro a h0 h1
    show ((u16 ⌊a⌋ : Nat) : Int) = ⌊a⌋
    have f0 : 0 ≤ ⌊a⌋ := Int.floor_nonneg.2 h0
    have f1 : ⌊a⌋ < 65536 := Int.floor_lt.2 (by exact_mod_cast h1)
    unfold u16
    omega
  exact ⟨_, hex, by decide,
    (bounce_lights_cast_position _ hex bounceInput (by decide)).1,
    (bounce_lights_cast_position _ hex bounceInput (by decide)).2.1⟩

theorem bouncePos_exact_example : bouncePos exactFloat 2 25 = 0 := by
  have e : bouncePos exactFloat 2 25 =
      u16 ⌊((((25 % 100 : Nat) : Int) : ℚ) / ((100 : Int) : ℚ) * (355 / 113) -
        ((((25 % 100 : Nat) : Int) : ℚ) / ((100 : Int) : ℚ) * (355 / 113)) ^ 3 / 6) *
          ((((2 : Nat) : Int) - 1 : Int) : ℚ)⌋ := rfl
  rw [e]
  have f : ⌊((((25 % 100 : Nat) : Int) : ℚ) / ((100 : Int) : ℚ) * (355 / 113) -
        ((((25 % 100 : Nat) : Int) : ℚ) / ((100 : Int) : ℚ) * (355 / 113)) ^ 3 / 6) *
          ((((2 : Nat) : Int) - 1 : Int) : ℚ)⌋ = 0 := by
    rw [Int.floor_eq_iff]
    norm_num
  rw [f]
  rfl

theorem sin_quarter_bounds :
    (1 : ℝ) / 2 ≤ Real.sin (((25 % 100 : Nat) : ℝ) / 100 * Real.pi) * (((2 : Nat) : ℝ) - 1) ∧
    Real.sin (((25 % 100 : Nat) : ℝ) / 100 * Real.pi) * (((2 : Nat) : ℝ) - 1) < 1 := by
  have e : ((25 % 100 : Nat) : ℝ) / 100 * Real.pi = Real.pi / 4 := by
    norm_num
    ring
  have h2 := Real.sq_sqrt (show (0 : ℝ) ≤ 2 by norm_num)
  have h3 := Real.sqrt_nonneg 2
  rw [e, Real.sin_pi_div_four]
  constructor
  · norm_num
    nlinarith
  · norm_num
    nlinarith

/-- C27 (counterexample): on the valid 2-element BINARY strip `bounceInput` at
step 25 the real value `sin(0.25 π) · (2 - 1) = √2 / 2` lies in `[1/2, 1)`: rounded
to the nearest integer it is 1, truncated it is 0.  With the exact arithmetic of
`exactFloat`, whose conversion to `uint16_t` truncates like the cast of the
source, `_effectBounce` lights element 0 and leaves element 1 off. -/
theorem bounce_truncates_counterexample :
    bounceInput.Valid ∧ bounceInput._groupEnd - bounceInput._groupStart + 1 = 2 ∧
    bounceInput._step = 25 ∧
    round (Real.sin (((25 % 100 : Nat) : ℝ) / 100 * Real.pi) * (((2 : Nat) : ℝ) - 1)) = 1 ∧
    ⌊Real.sin (((25 % 100 : Nat) : ℝ) / 100 * Real.pi) * (((2 : Nat) : ℝ) - 1)⌋ = 0 ∧
    bouncePos exactFloat 2 25 = 0 ∧
    (bounceInput._effectBounce exactFloat)._ledStates[0]? = some true ∧
    (bounceInput._effectBounce exactFloat)._ledStates[1]? = some false := by
  obtain ⟨b1, b2⟩ := sin_quarter_bounds
  have hv : bounceInput.Valid := by decide
  have h0 := ((effectBounce_states_elem exactFloat bounceInput hv) 0 (by decide)
    (by decide) rfl)
  have h1 := ((effectBounce_states_elem exactFloat bounceInput hv) 1 (by decide)
    (by decide) rfl)
  have hp : bouncePos exactFloat (bounceInput._groupEnd - bounceInput._groupStart + 1)
      bounceInput._step = 0 := bouncePos_exact_example
  rw [hp] at h0 h1
  refine ⟨hv, by decide, rfl, ?_, ?_, bouncePos_exact_example, h0, h1⟩
  · rw [round_eq, Int.floor_eq_iff]
    constructor
    · push_cast
      linarith
    · push_cast
      linarith
  · rw [Int.floor_eq_iff]
    constructor
    · push_cast
      linarith
    · push_cast
      linarith

end VibeLED

namespace VibeLED

/-- Under exact real arithmetic with a truncating cast, on the 2-element strip
`bounceInput` at step 25 the position is `⌊√2 / 2⌋ = 0`: `_effectBounce` lights
element 0 and leaves element 1 off, while the value rounded to the nearest
integer is 1. -/
theorem bounce_real_truncates (fp : FloatOps) (hfp : fp.RealExact) :
    bouncePos fp 2 25 = 0 ∧
    round (Real.sin (((25 % 100 : Nat) : ℝ) / 100 * Real.pi) * (((2 : Nat) : ℝ) - 1)) = 1 ∧
    (bounceInput._effectBounce fp)._ledStates[0]? = some true ∧
    (bounceInput._effectBounce fp)._ledStates[1]? = some false := by
  obtain ⟨b1, b2⟩ := sin_quarter_bounds
  obtain ⟨p1, _⟩ := bouncePos_real fp hfp 2 25 (by decide) (by decide)
  have hfloor : ⌊Real.sin (((25 % 100 : Nat) : ℝ) / 100 * Real.pi) * (((2 : Nat) : ℝ) - 1)⌋ =
      0 := by
    rw [Int.floor_eq_iff]
    constructor
    · push_cast
      linarith
    · push_cast
      linarith
  have hp : bouncePos fp 2 25 = 0 := by
    rw [hfloor] at p1
    exact_mod_cast p1
  have hv : bounceInput.Valid := by decide
  have h0 := (effectBounce_elem fp bounceInput hv 0 (by decide) (by decide)).1 rfl
  have h1 := (effectBounce_elem fp bounceInput hv 1 (by decide) (by decide)).1 rfl
  have hp2 : bouncePos fp (bounceInput._groupEnd - bounceInput._groupStart + 1)
      bounceInput._step = 0 := hp
  rw [hp2] at h0 h1
  refine ⟨hp, ?_, h0, h1⟩
  rw [round_eq, Int.floor_eq_iff]
  constructor
  · push_cast
    linarith
  · push_cast
    linarith

end VibeLED
